import Mathlib

/-!
The API server `src/api/server.js`.

A shallow embedding of the Express server: the ticket lifecycle and notification
workflow in full, and the guards and the other routes as far as their responses and
their effect on the store go.

* `POST /api/tickets`                      (`postTicket`)
* `POST /api/tickets/:ticketId/updates`    (`postTicketUpdate`)
* `PUT  /api/tickets/:ticketId`            (`putTicket`)
* `POST /api/tickets/email-webhook`        (`emailWebhook`)
* `authenticateToken`, `isAdmin`, and the registration of every route (`middleware`)
* the user, company, asset and remaining ticket routes (`login` ... `deleteTicket`),
  dispatched by `handle` and run behind their guards by `serve`

The relational store is a record of tables (lists of rows).  A request runs on one
connection; `beginTransaction` keeps the tables of that moment aside, `commit` forgets
them and `rollback` puts them back (and does nothing when no transaction is open, as in
MySQL).  Every statement of a `try` block and every `sendMail` can fail: a fault plan
(one flag per call site, in source order) says which ones do.  A failed statement has no
effect on the tables and transfers control to the `catch` block.  The calls of the
`catch` and `finally` blocks (`rollback`, `end`) are taken to succeed, and so is a
`getConnection` that stands outside the `try` block; one inside it can fail like a
statement.  Route parameters that are ids are decimal numerals, read as natural numbers.
JavaScript strings are modelled by `String`.  A field of the body that a handler only
tests for truthiness, or passes through `||`, is an `Option`: there `undefined` (the key
is absent) and `null` cannot be told apart, and `none` stands for both.  A field that a
handler hands on as it came, to a bind parameter of `connection.execute` or to a template
literal, is a `Js` value, which keeps the two apart: mysql2 refuses a bind parameter that
is `undefined`, and a template literal prints the two differently.  Token signing and
verification and password hashing are parameters (`Crypto`).

Of the client `src/ui/src/App.js` two pure pieces are embedded: the check that
`ExcelImportExport.handleImport` makes on a parsed sheet before it posts the rows
(`handleImport`), and the status filter of the ticket list (`filteredTickets`).
-/

namespace TicketApi

/-! ## Rows -/

/-- Row of `users`. -/
structure User where
  id : Nat
  username : String
  password : String := ""
  role : String := "user"
  deriving DecidableEq

/-- Row of `companies`. -/
structure Company where
  id : Nat
  name : String
  contact_person : Option String := none
  contact_email : Option String := none
  contact_phone : Option String := none
  address : Option String := none
  deriving DecidableEq

/-- Row of `assets`. -/
structure Asset where
  id : Nat
  company_id : Nat
  asset_name : String
  description : Option String := none
  serial_number : Option String := none
  status : Option String := none
  device_type : Option String := none
  owner_location : Option String := none
  brand : Option String := none
  model : Option String := none
  operating_system : Option String := none
  deriving DecidableEq

/-- Row of `tickets`. -/
structure Ticket where
  id : Nat
  company_id : Nat
  user_id : Nat
  assigned_user_id : Option Nat := none
  title : String
  description : String
  priority : String := "Normal"
  status : String := "Open"
  customer_email : Option String := none
  created_at : Nat := 0
  updated_at : Nat := 0
  deriving DecidableEq

/-- Row of the join table `ticket_assets`. -/
structure TicketAsset where
  ticket_id : Nat
  asset_id : Nat
  deriving DecidableEq

/-- Row of `ticket_updates`. -/
structure TicketUpdate where
  id : Nat
  ticket_id : Nat
  user_id : Nat
  update_text : String
  created_at : Nat := 0
  deriving DecidableEq

/-- The tables the ticket routes read and write. -/
structure Tables where
  users : List User := []
  companies : List Company := []
  assets : List Asset := []
  tickets : List Ticket := []
  ticket_assets : List TicketAsset := []
  ticket_updates : List TicketUpdate := []
  deriving DecidableEq

/-- A message handed to `mailTransporter.sendMail` (the sender is the same literal in
every call). -/
structure Email where
  /-- The field `to` of the message. -/
  recipient : String
  subject : String
  html : String
  deriving DecidableEq

/-- What a handler did to the connection and the mail transport, in order. -/
inductive Event where
  | connect
  | beginTransaction
  | commit
  | rollback
  | sendMail (delivered : Bool)
  | connEnd
  deriving DecidableEq

/-- The store as one request sees it, the mail that left, and the event trace. -/
structure World where
  tables : Tables := {}
  /-- The tables as they were at `beginTransaction`, while a transaction is open. -/
  snapshot : Option Tables := none
  nextTicketId : Nat := 1
  nextUpdateId : Nat := 1
  nextUserId : Nat := 1
  nextCompanyId : Nat := 1
  nextAssetId : Nat := 1
  /-- The value of `CURRENT_TIMESTAMP`. -/
  now : Nat := 0
  outbox : List Email := []
  trace : List Event := []
  deriving DecidableEq

/-- The ticket row joined with company name, creator name and assignee name
(`SELECT t.*, c.name as company_name, u.username as user_name,
au.username as assigned_user_name ...`). -/
structure JoinedTicket where
  ticket : Ticket
  company_name : String
  user_name : String
  assigned_user_name : Option String
  deriving DecidableEq

/-- The update row joined with its author (`SELECT tu.*, u.username as user_name ...`). -/
structure JoinedUpdate where
  update : TicketUpdate
  user_name : String
  deriving DecidableEq

/-- The identity a token carries and `req.user` holds: `{id, username, role}`. -/
structure Identity where
  id : Nat
  username : String
  role : String
  deriving DecidableEq

/-- Response bodies: `message` is the JSON object `{message: ...}`, `text` a plain-text
body (`res.send(string)`, `res.sendStatus`), `empty` no body (`res.status(204).send()`),
the others the JSON values of the success responses. -/
inductive Body where
  | message (m : String)
  | text (t : String)
  | ticket (row : Option JoinedTicket)
  | update (row : Option JoinedUpdate)
  | empty
  | login (accessToken : String) (user : Identity)
  | user (row : Identity)
  | users (rows : List Identity)
  | created (id : Nat) (name : String)
  | company (row : Option Company)
  | companies (rows : List Company)
  | asset (row : Option Asset)
  | assets (rows : List Asset)
  | tickets (rows : List JoinedTicket)
  | ticketDetail (row : JoinedTicket) (updates : List JoinedUpdate) (assets : List Asset)
  deriving DecidableEq

/-- An HTTP response: status code and body. -/
structure Response where
  status : Nat
  body : Body
  deriving DecidableEq

/-! ## JavaScript values -/

/-- Truthiness of a string-valued field: present and not empty. -/
def truthyStr : Option String → Bool
  | some s => s != ""
  | none => false

/-- Truthiness of a number-valued field: present and not zero. -/
def truthyNat : Option Nat → Bool
  | some n => n != 0
  | none => false

/-- A field of `req.body` that a handler uses as it came: `undefined` when the key is
absent, `null`, or a value. -/
inductive Js (α : Type) where
  | undefined
  | null
  | val (a : α)
  deriving DecidableEq

/-- The value of a field; `undefined` and `null` have none.  This is what the tests for
truthiness and the operator `||` see of a field, and what the store keeps of a bind
parameter (`null` is stored as `NULL`). -/
def Js.toOption {α : Type} : Js α → Option α
  | Js.val a => some a
  | _ => none

/-- The test `val === undefined`. -/
def Js.isUndefined {α : Type} : Js α → Bool
  | Js.undefined => true
  | _ => false

/-- The check of `connection.execute(sql, values)` on its bind parameters: mysql2 throws
a `TypeError` ("Bind parameters must not contain undefined. To pass SQL NULL specify JS
null") when one of them is `undefined`, before the statement is sent to the store.  The
list holds the parameters that can be `undefined`. -/
def hasUndefined (values : List (Js String)) : Bool :=
  values.any Js.isUndefined

/-- Interpolation of a string field into a template literal. -/
def jsStr : Js String → String
  | Js.val s => s
  | Js.null => "null"
  | Js.undefined => "undefined"

/-- The operator `||` on strings: `a || b`. -/
def orElseStr (a : Option String) (b : String) : String :=
  if truthyStr a then a.getD b else b

/-! ## The connection -/

/-- Record an event. -/
def World.log (w : World) (e : Event) : World :=
  { w with trace := w.trace ++ [e] }

/-- `getConnection()`: a new connection, with no transaction open. -/
def connect (w : World) : World :=
  { w with snapshot := none }.log Event.connect

/-- `connection.beginTransaction()`. -/
def beginTransaction (w : World) : World :=
  { w with snapshot := some w.tables }.log Event.beginTransaction

/-- `connection.commit()`. -/
def commit (w : World) : World :=
  { w with snapshot := none }.log Event.commit

/-- `connection.rollback()`: restores the tables of `beginTransaction` when a
transaction is open, and does nothing to the tables otherwise. -/
def rollback (w : World) : World :=
  match w.snapshot with
  | some s => { w with tables := s, snapshot := none }.log Event.rollback
  | none => w.log Event.rollback

/-- `connection.end()`: closing the connection discards an open transaction. -/
def connEnd (w : World) : World :=
  match w.snapshot with
  | some s => { w with tables := s, snapshot := none }.log Event.connEnd
  | none => w.log Event.connEnd

/-- `mailTransporter.sendMail(...)` that succeeds. -/
def deliver (w : World) (e : Email) : World :=
  { w with outbox := w.outbox ++ [e] }.log (Event.sendMail true)

/-- `mailTransporter.sendMail(...)` that throws. -/
def bounce (w : World) : World :=
  w.log (Event.sendMail false)

/-! ## Queries -/

/-- `SELECT * FROM tickets WHERE id = ?`, first row. -/
def findTicket (t : Tables) (id : Nat) : Option Ticket :=
  t.tickets.find? (fun r => r.id == id)

/-- `SELECT ... FROM users WHERE id = ?`, first row. -/
def findUser (t : Tables) (id : Nat) : Option User :=
  t.users.find? (fun r => r.id == id)

/-- `SELECT ... FROM companies WHERE id = ?`, first row. -/
def findCompany (t : Tables) (id : Nat) : Option Company :=
  t.companies.find? (fun r => r.id == id)

/-- The joined ticket query
`FROM tickets t JOIN companies c ON t.company_id = c.id JOIN users u ON t.user_id = u.id
LEFT JOIN users au ON t.assigned_user_id = au.id WHERE t.id = ?`, first row. -/
def selectJoinedTicket (t : Tables) (id : Nat) : Option JoinedTicket :=
  match findTicket t id with
  | none => none
  | some r =>
    match findCompany t r.company_id, findUser t r.user_id with
    | some c, some u =>
      some { ticket := r, company_name := c.name, user_name := u.username,
             assigned_user_name := (r.assigned_user_id.bind (findUser t)).map User.username }
    | _, _ => none

/-- The joined update query
`FROM ticket_updates tu JOIN users u ON tu.user_id = u.id WHERE tu.id = ?`, first row. -/
def selectJoinedUpdate (t : Tables) (id : Nat) : Option JoinedUpdate :=
  match t.ticket_updates.find? (fun r => r.id == id) with
  | none => none
  | some r =>
    match findUser t r.user_id with
    | some u => some { update := r, user_name := u.username }
    | none => none

/-! ## Statements -/

/-- Modelled from the spec: the column default of `tickets.status`, which the insert of
`POST /api/tickets` relies on (the schema is not part of the sources; the spec gives
default status "Open"). -/
def defaultStatus : String := "Open"

/-- `INSERT INTO tickets (company_id, user_id, title, description, priority, status,
customer_email) VALUES (...)`; the new row gets the next auto-increment id. -/
def insertTicket (w : World) (company_id user_id : Nat) (title description priority
    status : String) (customer_email : Option String) : World :=
  { w with
    tables := { w.tables with
      tickets := w.tables.tickets ++
        [{ id := w.nextTicketId, company_id := company_id, user_id := user_id,
           assigned_user_id := none, title := title, description := description,
           priority := priority, status := status, customer_email := customer_email,
           created_at := w.now, updated_at := w.now }] },
    nextTicketId := w.nextTicketId + 1 }

/-- `INSERT INTO ticket_assets (ticket_id, asset_id) VALUES ?` with the rows
`asset_ids.map(assetId => [newTicketId, assetId])`. -/
def insertLinks (w : World) (newTicketId : Nat) (asset_ids : List Nat) : World :=
  { w with
    tables := { w.tables with
      ticket_assets := w.tables.ticket_assets ++
        asset_ids.map (fun assetId => { ticket_id := newTicketId, asset_id := assetId }) } }

/-- `INSERT INTO ticket_updates (ticket_id, user_id, update_text) VALUES (?, ?, ?)`. -/
def insertUpdate (w : World) (ticket_id user_id : Nat) (update_text : String) : World :=
  { w with
    tables := { w.tables with
      ticket_updates := w.tables.ticket_updates ++
        [{ id := w.nextUpdateId, ticket_id := ticket_id, user_id := user_id,
           update_text := update_text, created_at := w.now }] },
    nextUpdateId := w.nextUpdateId + 1 }

/-- `UPDATE tickets SET updated_at = CURRENT_TIMESTAMP, status = ? WHERE id = ?`. -/
def setStatusAndTouch (w : World) (status : String) (ticketId : Nat) : World :=
  { w with
    tables := { w.tables with
      tickets := w.tables.tickets.map (fun r =>
        if r.id == ticketId then { r with updated_at := w.now, status := status } else r) } }

/-- `UPDATE tickets SET updated_at = CURRENT_TIMESTAMP WHERE id = ?`. -/
def touchTicket (w : World) (ticketId : Nat) : World :=
  { w with
    tables := { w.tables with
      tickets := w.tables.tickets.map (fun r =>
        if r.id == ticketId then { r with updated_at := w.now } else r) } }

/-- `UPDATE tickets SET status = ?, priority = ?, assigned_user_id = ? WHERE id = ?`. -/
def updateTicket (w : World) (status priority : String) (assigned_user_id : Option Nat)
    (ticketId : Nat) : World :=
  { w with
    tables := { w.tables with
      tickets := w.tables.tickets.map (fun r =>
        if r.id == ticketId then
          { r with status := status, priority := priority,
                   assigned_user_id := assigned_user_id }
        else r) } }

/-! ## Notification texts -/

/-- Subject of the "ticket received" mail of `POST /api/tickets`. -/
def receivedSubject (newTicketId : Nat) (title : String) : String :=
  "[Ticket #" ++ toString newTicketId ++ "] Your support request has been received: " ++
  title

/-- Body of the "ticket received" mail of `POST /api/tickets`. -/
def receivedHtml (newTicketId : Nat) (title : String) (priority : Js String)
    (description : String) : String :=
  "\n" ++
  "                        <p>Hello,</p>\n" ++
  "                        <p>Thank you for contacting us. We have created a" ++
  " support ticket for you.</p>\n" ++
  "                        <p>Your Ticket ID is: <b>#" ++
  toString newTicketId ++
  "</b></p>\n" ++
  "                        <p><b>Subject:</b> " ++
  title ++
  "</p>\n" ++
  "                        <p><b>Priority:</b> " ++
  jsStr priority ++
  "</p>\n" ++
  "                        <hr>\n" ++
  "                        <P>" ++
  description ++
  "</P>\n" ++
  "                        <hr>\n" ++
  "                        <p>Our team will review your request and get back to" ++
  " you shortly. You can reply directly to this email to add updates to your" ++
  " ticket.</p>\n" ++
  "                    "

/-- Subject of the reply mail of `POST /api/tickets/:ticketId/updates`. -/
def replySubject (ticketId : Nat) (title : String) : String :=
  "Re: [Ticket #" ++ toString ticketId ++ "] " ++ title

/-- Body of the reply mail of `POST /api/tickets/:ticketId/updates`. -/
def replyHtml (user_name update_text : String) : String :=
  "\n" ++
  "                    <p>Hello,</p>\n" ++
  "                    <p>A new reply has been posted to your support ticket by" ++
  " our team.</p>\n" ++
  "                    <hr style=\"border:none; border-top: 1px solid #eee;\">\n" ++
  "                    <div style=\"background-color: #f9f9f9; padding: 15px;" ++
  " border-radius: 5px;\">\n" ++
  "                        <p><b>" ++
  user_name ++
  " wrote:</b></p>\n" ++
  "                        <p style=\"white-space: pre-wrap;\">" ++
  update_text ++
  "</p>\n" ++
  "                    </div>\n" ++
  "                    <hr style=\"border:none; border-top: 1px solid #eee;\">\n" ++
  "                    <p>You can reply directly to this email to add another" ++
  " update to the ticket.</p>\n" ++
  "                    <p style=\"font-size: 12px; color: #888;\">Please do not" ++
  " change the subject line to ensure your reply is tracked correctly.</p>\n" ++
  "                "

/-- Subject of the status mail of `PUT /api/tickets/:ticketId`. -/
def statusSubject (ticketId : Nat) (title : String) : String :=
  "Re: [Ticket #" ++ toString ticketId ++ "] Status Updated: " ++ title

/-- Body of the status mail of `PUT /api/tickets/:ticketId`. -/
def statusHtml (oldStatus newStatus : String) : String :=
  "<p>Hello,</p><p>The status of your support ticket has been updated from <b>" ++
  oldStatus ++
  "</b> to <b>" ++
  newStatus ++
  "</b>.</p>"

/-- Subject of the priority mail of `PUT /api/tickets/:ticketId`. -/
def prioritySubject (ticketId : Nat) (title : String) : String :=
  "Re: [Ticket #" ++ toString ticketId ++ "] Priority Updated: " ++ title

/-- Body of the priority mail of `PUT /api/tickets/:ticketId`. -/
def priorityHtml (oldPriority newPriority : String) : String :=
  "<p>Hello,</p><p>The priority of your support ticket has been updated from <b>" ++
  oldPriority ++
  "</b> to <b>" ++
  newPriority ++
  "</b>.</p>"

/-- Subject of the assignment mail of `PUT /api/tickets/:ticketId`. -/
def assignedSubject (ticketId : Nat) (title : String) : String :=
  "Re: [Ticket #" ++ toString ticketId ++ "] Your Ticket Has Been Assigned: " ++ title

/-- Body of the assignment mail of `PUT /api/tickets/:ticketId`. -/
def assignedHtml (assigneeName : String) : String :=
  "<p>Hello,</p><p>Your support ticket has been assigned to <b>" ++
  assigneeName ++
  "</b>. They will be in touch with you shortly.</p>"

/-! ## `POST /api/tickets` -/

/-- The fields of `req.body` that `POST /api/tickets` reads. -/
structure CreateRequest where
  company_id : Option Nat := none
  title : Option String := none
  description : Option String := none
  priority : Js String := Js.undefined
  asset_ids : Option (List Nat) := none
  customer_email : Js String := Js.undefined
  deriving DecidableEq

/-- Which calls of the `try` block of `POST /api/tickets` throw. -/
structure CreateFaults where
  beginTransaction : Bool := false
  insertTicket : Bool := false
  insertLinks : Bool := false
  commit : Bool := false
  sendMail : Bool := false
  readBack : Bool := false
  deriving DecidableEq

/-- The `catch` and `finally` blocks of `POST /api/tickets`. -/
def createFailed (w : World) : World × Response :=
  (connEnd (rollback w), { status := 500, body := Body.message "Failed to create ticket" })

/-- The test `asset_ids && asset_ids.length > 0`. -/
def hasAssets : Option (List Nat) → Bool
  | some (_ :: _) => true
  | _ => false

/-- The "ticket received" mail of `POST /api/tickets`. -/
def receivedMail (newTicketId : Nat) (req : CreateRequest) : Email :=
  { recipient := req.customer_email.toOption.getD "",
    subject := receivedSubject newTicketId (req.title.getD ""),
    html := receivedHtml newTicketId (req.title.getD "") req.priority
              (req.description.getD "") }

/-- The handler of `POST /api/tickets` for the authenticated user `user_id`.  The insert
binds `customer_email` as it came: when the key is absent, `execute` throws and the
`catch` block answers. -/
def postTicket (f : CreateFaults) (user_id : Nat) (req : CreateRequest) (w : World) :
    World × Response :=
  if !truthyNat req.company_id || !truthyStr req.title || !truthyStr req.description then
    (w, { status := 400, body := Body.message "Company, title, and description are required." })
  else
    let w := connect w
    if f.beginTransaction then createFailed w else
    let w := beginTransaction w
    if f.insertTicket || hasUndefined [req.customer_email] then createFailed w else
    let newTicketId := w.nextTicketId
    let w := insertTicket w (req.company_id.getD 0) user_id (req.title.getD "")
      (req.description.getD "") (orElseStr req.priority.toOption "Normal") defaultStatus
      req.customer_email.toOption
    if hasAssets req.asset_ids && f.insertLinks then createFailed w else
    let w := if hasAssets req.asset_ids then insertLinks w newTicketId (req.asset_ids.getD [])
             else w
    if f.commit then createFailed w else
    let w := commit w
    let w := if truthyStr req.customer_email.toOption then
               (if f.sendMail then bounce w else deliver w (receivedMail newTicketId req))
             else w
    if f.readBack then createFailed w else
    (connEnd w, { status := 201, body := Body.ticket (selectJoinedTicket w.tables newTicketId) })

/-! ## `POST /api/tickets/:ticketId/updates` -/

/-- Which calls of the `try` block of `POST /api/tickets/:ticketId/updates` throw. -/
structure UpdateFaults where
  beginTransaction : Bool := false
  insertUpdate : Bool := false
  updateTicket : Bool := false
  commit : Bool := false
  readBack : Bool := false
  selectTicket : Bool := false
  sendMail : Bool := false
  deriving DecidableEq

/-- The `catch` and `finally` blocks of `POST /api/tickets/:ticketId/updates`. -/
def updateFailed (w : World) : World × Response :=
  (connEnd (rollback w), { status := 500, body := Body.message "Failed to add update" })

/-- The handler of `POST /api/tickets/:ticketId/updates` for the authenticated user
`user_id`. -/
def postTicketUpdate (f : UpdateFaults) (user_id ticketId : Nat)
    (update_text : Option String) (w : World) : World × Response :=
  if !truthyStr update_text then
    (w, { status := 400, body := Body.message "Update text cannot be empty." })
  else
    let w := connect w
    if f.beginTransaction then updateFailed w else
    let w := beginTransaction w
    if f.insertUpdate then updateFailed w else
    let insertId := w.nextUpdateId
    let w := insertUpdate w ticketId user_id (update_text.getD "")
    if f.updateTicket then updateFailed w else
    let w := setStatusAndTouch w "In Progress" ticketId
    if f.commit then updateFailed w else
    let w := commit w
    if f.readBack then updateFailed w else
    let newUpdate := selectJoinedUpdate w.tables insertId
    if f.selectTicket then updateFailed w else
    match findTicket w.tables ticketId with
    | none => (connEnd w, { status := 201, body := Body.update newUpdate })
    | some ticket =>
      if truthyStr ticket.customer_email then
        match newUpdate with
        | none => updateFailed w
        | some row =>
          if f.sendMail then updateFailed (bounce w) else
          let w := deliver w
            { recipient := ticket.customer_email.getD "",
              subject := replySubject ticketId ticket.title,
              html := replyHtml row.user_name (update_text.getD "") }
          (connEnd w, { status := 201, body := Body.update newUpdate })
      else (connEnd w, { status := 201, body := Body.update newUpdate })

/-! ## `PUT /api/tickets/:ticketId` -/

/-- Which calls of the `try` block of `PUT /api/tickets/:ticketId` throw. -/
structure PutFaults where
  selectBefore : Bool := false
  update : Bool := false
  selectAfter : Bool := false
  sendStatus : Bool := false
  sendPriority : Bool := false
  sendAssigned : Bool := false
  deriving DecidableEq

/-- The `catch` and `finally` blocks of `PUT /api/tickets/:ticketId`. -/
def putFailed (w : World) : World × Response :=
  (connEnd w, { status := 500, body := Body.message "Failed to update ticket" })

/-- One guarded `await mailTransporter.sendMail(...)`: `Except.error` when it throws. -/
def sendIf (changed fails : Bool) (e : Email) (w : World) : Except World World :=
  if changed then (if fails then Except.error (bounce w) else Except.ok (deliver w e))
  else Except.ok w

/-- The expression `assigned_user_id || null`. -/
def orNull (assigned_user_id : Option Nat) : Option Nat :=
  if truthyNat assigned_user_id then assigned_user_id else none

/-- The handler of `PUT /api/tickets/:ticketId`, for a body that supplies `status` and
`priority`. -/
def putTicket (f : PutFaults) (ticketId : Nat) (status priority : String)
    (assigned_user_id : Option Nat) (w : World) : World × Response :=
  let w := connect w
  if f.selectBefore then putFailed w else
  match findTicket w.tables ticketId with
  | none => (connEnd w, { status := 404, body := Body.message "Ticket not found" })
  | some oldTicket =>
    if f.update then putFailed w else
    let w := updateTicket w status priority (orNull assigned_user_id) ticketId
    if f.selectAfter then putFailed w else
    match selectJoinedTicket w.tables ticketId with
    | none => putFailed w
    | some updatedTicket =>
      if truthyStr updatedTicket.ticket.customer_email then
        let rcpt := updatedTicket.ticket.customer_email.getD ""
        match sendIf (oldTicket.status != updatedTicket.ticket.status) f.sendStatus
            { recipient := rcpt,
              subject := statusSubject ticketId updatedTicket.ticket.title,
              html := statusHtml oldTicket.status updatedTicket.ticket.status } w with
        | Except.error w => putFailed w
        | Except.ok w =>
          match sendIf (oldTicket.priority != updatedTicket.ticket.priority) f.sendPriority
              { recipient := rcpt,
                subject := prioritySubject ticketId updatedTicket.ticket.title,
                html := priorityHtml oldTicket.priority updatedTicket.ticket.priority } w with
          | Except.error w => putFailed w
          | Except.ok w =>
            match sendIf
                (oldTicket.assigned_user_id != updatedTicket.ticket.assigned_user_id)
                f.sendAssigned
                { recipient := rcpt,
                  subject := assignedSubject ticketId updatedTicket.ticket.title,
                  html := assignedHtml
                    (orElseStr updatedTicket.assigned_user_name "our team") } w with
            | Except.error w => putFailed w
            | Except.ok w =>
              (connEnd w, { status := 200, body := Body.ticket (some updatedTicket) })
      else (connEnd w, { status := 200, body := Body.ticket (some updatedTicket) })

/-! ## `POST /api/tickets/email-webhook` -/

/-- The literal head of the subject pattern, `\[Ticket #`. -/
def tagOpen : List Char := ['[', 'T', 'i', 'c', 'k', 'e', 't', ' ', '#']

/-- The pattern `\[Ticket #(\d+)\]` tried at the head of `s`: the digits captured by
group 1.  `\d+` is greedy and the character after the digits has to be `]`; giving
digits back cannot help, since the character that would then have to be `]` is a digit. -/
def matchTagHere (s : List Char) : Option (List Char) :=
  if tagOpen.isPrefixOf s then
    let rest := s.drop tagOpen.length
    let ds := rest.takeWhile Char.isDigit
    if !ds.isEmpty && (rest.dropWhile Char.isDigit).head? == some ']' then some ds
    else none
  else none

/-- The call `subject.match(/\[Ticket #(\d+)\]/)`: group 1 of the leftmost match. -/
def matchTag : List Char → Option (List Char)
  | [] => none
  | c :: cs =>
    match matchTagHere (c :: cs) with
    | some ds => some ds
    | none => matchTag cs

/-- The number a string of decimal digits denotes (the conversion the store applies to
the captured `ticketId` when it compares it with the integer column `id`). -/
def digitsToNat (ds : List Char) : Nat :=
  ds.foldl (fun n c => 10 * n + (c.toNat - 48)) 0

/-- Which calls of the `try` block of the webhook throw. -/
structure WebhookFaults where
  selectTicket : Bool := false
  insertUpdate : Bool := false
  updateTicket : Bool := false
  selectCompany : Bool := false
  insertTicket : Bool := false
  deriving DecidableEq

/-- The fields of `req.body` that the webhook reads. -/
structure WebhookRequest where
  from_ : Option String := none
  subject : Option String := none
  text : Option String := none
  plain : Option String := none
  deriving DecidableEq

/-- The expression `req.body['text'] || req.body['plain'] || ''`. -/
def webhookText (req : WebhookRequest) : String :=
  orElseStr req.text (orElseStr req.plain "")

/-- The `catch` and `finally` blocks of the webhook. -/
def webhookFailed (w : World) : World × Response :=
  (connEnd w, { status := 500, body := Body.message "Failed to process email." })

/-- The lookup `SELECT id FROM companies WHERE contact_email = ?` followed by
`companies.length > 0 ? companies[0].id : 1`. -/
def companyOfSender (t : Tables) (from_ : String) : Nat :=
  match t.companies.find? (fun c => c.contact_email == some from_) with
  | some c => c.id
  | none => 1

/-- The handler of `POST /api/tickets/email-webhook`. -/
def emailWebhook (f : WebhookFaults) (req : WebhookRequest) (w : World) :
    World × Response :=
  let text := webhookText req
  if !truthyStr req.from_ || !truthyStr req.subject || text == "" then
    (w, { status := 400,
          body := Body.message "Webhook requires from, subject, and text fields." })
  else
    let from_ := req.from_.getD ""
    let subject := req.subject.getD ""
    let w := connect w
    match matchTag subject.toList with
    | some digits =>
      let ticketId := digitsToNat digits
      if f.selectTicket then webhookFailed w else
      match findTicket w.tables ticketId with
      | none => (connEnd w, { status := 404, body := Body.text "Ticket not found." })
      | some row =>
        let userIdForUpdate := row.user_id
        if f.insertUpdate then webhookFailed w else
        let w := insertUpdate w ticketId userIdForUpdate text
        if f.updateTicket then webhookFailed w else
        let w := touchTicket w ticketId
        (connEnd w, { status := 200, body := Body.text "Email processed successfully." })
    | none =>
      if f.selectCompany then webhookFailed w else
      let company_id := companyOfSender w.tables from_
      let system_user_id := 2
      if f.insertTicket then webhookFailed w else
      let w := insertTicket w company_id system_user_id subject text "Normal" "Open"
        (some from_)
      (connEnd w, { status := 200, body := Body.text "Email processed successfully." })

/-! ## A sample store -/

/-- Three users, two companies and two tickets; ticket 42 has a customer address. -/
def demoTables : Tables :=
  { users := [{ id := 1, username := "admin", role := "admin" },
              { id := 2, username := "system" },
              { id := 3, username := "tech" }],
    companies := [{ id := 1, name := "Default" },
                  { id := 5, name := "Acme", contact_email := some "it@acme.test" }],
    tickets := [{ id := 7, company_id := 1, user_id := 2, title := "Mail",
                  description := "Down" },
                { id := 42, company_id := 5, user_id := 3, title := "Printer",
                  description := "Broken", customer_email := some "bob@acme.test" }] }

/-- A store holding `demoTables`, no open transaction, no mail sent yet. -/
def demoWorld : World :=
  { tables := demoTables, nextTicketId := 43, nextUpdateId := 1, now := 100 }

/-- A valid body for `POST /api/tickets` with two assets and a customer address. -/
def demoCreate : CreateRequest :=
  { company_id := some 5, title := some "VPN", description := some "No access",
    asset_ids := some [11, 12], customer_email := Js.val "bob@acme.test" }

/-! ## Events of one request -/

/-- The events a handler added to the trace of `w`. -/
def eventsSince (w : World) (r : World × Response) : List Event :=
  r.1.trace.drop w.trace.length

/-- Scan of a trace: no `sendMail` is met before a `commit`, unless `committed` already
holds at the start. -/
def sendsFollowCommit : Bool → List Event → Bool
  | _, [] => true
  | committed, e :: es =>
    match e with
    | Event.commit => sendsFollowCommit true es
    | Event.sendMail _ => committed && sendsFollowCommit committed es
    | _ => sendsFollowCommit committed es

/-- The row that `UPDATE tickets SET status = ?, priority = ?, assigned_user_id = ?`
makes of `r`. -/
def updatedRow (r : Ticket) (status priority : String) (assigned_user_id : Option Nat) :
    Ticket :=
  { r with status := status, priority := priority, assigned_user_id := assigned_user_id }

/-- How many of the fields status, priority and assigned_user_id differ between two
rows. -/
def changedFields (old new : Ticket) : Nat :=
  (if old.status = new.status then 0 else 1) +
  (if old.priority = new.priority then 0 else 1) +
  (if old.assigned_user_id = new.assigned_user_id then 0 else 1)

/-- The mails the PUT handler sends when every send succeeds: one per changed field,
for a ticket with a customer address. -/
def putMails (ticketId : Nat) (old : Ticket) (new : JoinedTicket) : List Email :=
  if truthyStr new.ticket.customer_email then
    (if old.status != new.ticket.status then
      [{ recipient := new.ticket.customer_email.getD "",
         subject := statusSubject ticketId new.ticket.title,
         html := statusHtml old.status new.ticket.status }]
     else []) ++
    ((if old.priority != new.ticket.priority then
      [{ recipient := new.ticket.customer_email.getD "",
         subject := prioritySubject ticketId new.ticket.title,
         html := priorityHtml old.priority new.ticket.priority }]
     else []) ++
    (if old.assigned_user_id != new.ticket.assigned_user_id then
      [{ recipient := new.ticket.customer_email.getD "",
         subject := assignedSubject ticketId new.ticket.title,
         html := assignedHtml (orElseStr new.assigned_user_name "our team") }]
     else []))
  else []

/-- The joined row the PUT handler reloads for `old`. -/
def reloaded (w : World) (old : Ticket) (c : Company) (u : User) (status priority : String)
    (assigned_user_id : Option Nat) : JoinedTicket :=
  { ticket := updatedRow old status priority (orNull assigned_user_id),
    company_name := c.name, user_name := u.username,
    assigned_user_name :=
      ((orNull assigned_user_id).bind (findUser w.tables)).map User.username }

/-- The username the joined read-back resolves for the assignee the request names. -/
def resolvedAssignee (w : World) (assigned_user_id : Option Nat) : Option String :=
  ((orNull assigned_user_id).bind (findUser w.tables)).map User.username

/-- A subject with `k` copies of "Re: " put in front by mail clients. -/
def rePrefixed : Nat → String → String
  | 0, s => s
  | k + 1, s => "Re: " ++ rePrefixed k s

/-- A webhook payload whose subject carries the tag of ticket 7 and, further on, the tag
of ticket 42. -/
def twoTagRequest : WebhookRequest :=
  { from_ := some "bob@acme.test", subject := some "[Ticket #7] Fwd: [Ticket #42] Printer",
    text := some "Still broken" }

/-- A webhook payload that replies to ticket 42. -/
def replyRequest : WebhookRequest :=
  { from_ := some "bob@acme.test", subject := some "Re: [Ticket #42] Printer",
    text := some "Still broken" }

/-- The string `s` contains a tag `[Ticket #<digits>]` with the digits `ds`. -/
def containsTag (s ds : List Char) : Prop :=
  ds ≠ [] ∧ (∀ c ∈ ds, c.isDigit = true) ∧
    ∃ pre post : List Char, s = pre ++ (tagOpen ++ (ds ++ ']' :: post))

/-- A webhook payload whose subject carries the tag of ticket 7 and, further on, the tag
of a ticket 99 that does not exist. -/
def staleTagRequest : WebhookRequest :=
  { from_ := some "bob@acme.test", subject := some "[Ticket #7] see [Ticket #99]",
    text := some "Any news?" }

/-- A webhook payload without a tag, from the contact address of company 5. -/
def freshRequest : WebhookRequest :=
  { from_ := some "it@acme.test", subject := some "Scanner offline",
    text := some "It stopped this morning." }

/-! ## The other routes: collaborators, requests, faults -/

/-- What a throwing store call reports: `ER_DUP_ENTRY`, or any other error. -/
inductive StoreError where
  | dupEntry
  | other
  deriving DecidableEq

/-- The collaborators outside the application: `jwt.sign` (of a payload, with the option
`expiresIn`), `jwt.verify` (which yields the decoded payload when signature and expiry
check out against the secret), `bcrypt.hash` and `bcrypt.compare`. -/
structure Crypto where
  sign : Identity → String → String
  verify : String → Option Identity
  hash : String → String
  compare : String → String → Bool

/-- The parts of a request the server reads: the `Authorization` header, the id in the
path, and the fields of `req.body`. -/
structure Request where
  authorization : Option String := none
  id : Nat := 0
  username : Option String := none
  password : Option String := none
  role : Option String := none
  name : Option String := none
  contact_person : Js String := Js.undefined
  contact_email : Js String := Js.undefined
  contact_phone : Js String := Js.undefined
  address : Js String := Js.undefined
  company_id : Option Nat := none
  asset_name : Option String := none
  description : Js String := Js.undefined
  serial_number : Js String := Js.undefined
  status : Js String := Js.undefined
  device_type : Js String := Js.undefined
  owner_location : Js String := Js.undefined
  brand : Js String := Js.undefined
  model : Js String := Js.undefined
  operating_system : Js String := Js.undefined
  title : Option String := none
  priority : Js String := Js.undefined
  asset_ids : Option (List Nat) := none
  customer_email : Js String := Js.undefined
  update_text : Option String := none
  assigned_user_id : Option Nat := none
  from_ : Option String := none
  subject : Option String := none
  text : Option String := none
  plain : Option String := none
  deriving DecidableEq

/-- Which calls of a handler with one `try` block and at most three store calls throw:
`getConnection`, the store calls in source order, and the call into bcrypt. -/
structure SimpleFaults where
  connect : Bool := false
  first : Option StoreError := none
  second : Option StoreError := none
  third : Option StoreError := none
  crypto : Bool := false
  deriving DecidableEq

/-- The fault plan of a request, for whichever route it takes. -/
structure Faults where
  simple : SimpleFaults := {}
  create : CreateFaults := {}
  update : UpdateFaults := {}
  put : PutFaults := {}
  webhook : WebhookFaults := {}
  deriving DecidableEq

/-- Modelled from the spec: the unique columns (username, company name, serial number
when present); the schema is not part of the sources.  A write that would duplicate a
value throws `ER_DUP_ENTRY`, unless the call fails for another reason first. -/
def writeError (fault : Option StoreError) (duplicate : Bool) : Option StoreError :=
  match fault with
  | some e => some e
  | none => if duplicate then some StoreError.dupEntry else none

/-- A write by `connection.execute(sql, values)`: the `TypeError` for a bind parameter
that is `undefined` is thrown first (it has no `code`); otherwise the write fails as
`writeError` says. -/
def executeError (values : List (Js String)) (fault : Option StoreError)
    (duplicate : Bool) : Option StoreError :=
  if hasUndefined values then some StoreError.other else writeError fault duplicate

/-- The identity of a user row: `{id, username, role}`. -/
def identityOf (u : User) : Identity :=
  { id := u.id, username := u.username, role := u.role }

/-- The number of connections opened and not closed in a trace. -/
def openConnections (evs : List Event) : Nat :=
  evs.count Event.connect - evs.count Event.connEnd

/-! ## Guards -/

/-- The expression `authHeader.split(' ')`. -/
def splitSpaces : List Char → List (List Char)
  | [] => [[]]
  | c :: cs =>
    if c = ' ' then [] :: splitSpaces cs
    else
      match splitSpaces cs with
      | [] => [[c]]
      | p :: ps => (c :: p) :: ps

/-- The expression `authHeader && authHeader.split(' ')[1]`: `none` when the value is
`undefined` (no header, or no second part); an empty header gives the empty string. -/
def bearerToken (authorization : Option String) : Option String :=
  match authorization with
  | none => none
  | some h =>
    if h = "" then some ""
    else
      match splitSpaces h.toList with
      | _ :: t :: _ => some (String.mk t)
      | _ => none

/-- What a middleware does: answer, or call `next()` with `req.user` as it then is. -/
inductive Guard where
  | respond (r : Response)
  | next (user : Option Identity)
  deriving DecidableEq

/-- The middleware `authenticateToken`. -/
def authenticateToken (c : Crypto) (authorization : Option String) : Guard :=
  match bearerToken authorization with
  | none => Guard.respond { status := 401, body := Body.text "Unauthorized" }
  | some token =>
    match c.verify token with
    | none => Guard.respond { status := 403, body := Body.text "Forbidden" }
    | some user => Guard.next (some user)

/-- The middleware `isAdmin`; reading `req.user.role` with `req.user` undefined throws,
which Express answers with its own 500 page. -/
def isAdmin (user : Option Identity) : Guard :=
  match user with
  | none => Guard.respond { status := 500, body := Body.text "TypeError" }
  | some u =>
    if u.role != "admin" then
      Guard.respond { status := 403, body := Body.message "Admin access required" }
    else Guard.next (some u)

/-- The two guards of the server. -/
inductive Middleware where
  | authenticateToken
  | isAdmin
  deriving DecidableEq

/-- The routes of the server. -/
inductive Route where
  | login
  | postUsers
  | getUsers
  | deleteUser
  | getCompanies
  | postCompanies
  | putCompany
  | deleteCompany
  | getAsset
  | getCompanyAssets
  | postAssets
  | putAsset
  | deleteAsset
  | emailWebhook
  | getTickets
  | getTicket
  | postTickets
  | postTicketUpdates
  | putTicket
  | deleteTicket
  deriving DecidableEq

/-- The guards each route is registered with, in order (`app.post(path, authenticateToken,
isAdmin, handler)` and so on). -/
def middleware : Route → List Middleware
  | Route.login => []
  | Route.emailWebhook => []
  | Route.postUsers => [Middleware.authenticateToken, Middleware.isAdmin]
  | Route.getUsers => [Middleware.authenticateToken, Middleware.isAdmin]
  | Route.deleteUser => [Middleware.authenticateToken, Middleware.isAdmin]
  | Route.getCompanies => [Middleware.authenticateToken]
  | Route.postCompanies => [Middleware.authenticateToken]
  | Route.putCompany => [Middleware.authenticateToken, Middleware.isAdmin]
  | Route.deleteCompany => [Middleware.authenticateToken, Middleware.isAdmin]
  | Route.getAsset => [Middleware.authenticateToken]
  | Route.getCompanyAssets => [Middleware.authenticateToken]
  | Route.postAssets => [Middleware.authenticateToken]
  | Route.putAsset => [Middleware.authenticateToken, Middleware.isAdmin]
  | Route.deleteAsset => [Middleware.authenticateToken, Middleware.isAdmin]
  | Route.getTickets => [Middleware.authenticateToken]
  | Route.getTicket => [Middleware.authenticateToken]
  | Route.postTickets => [Middleware.authenticateToken]
  | Route.postTicketUpdates => [Middleware.authenticateToken]
  | Route.putTicket => [Middleware.authenticateToken, Middleware.isAdmin]
  | Route.deleteTicket => [Middleware.authenticateToken, Middleware.isAdmin]

/-- Running a chain of guards, starting with `req.user` as given. -/
def runGuards (c : Crypto) (authorization : Option String) :
    List Middleware → Option Identity → Guard
  | [], user => Guard.next user
  | Middleware.authenticateToken :: ms, _ =>
    match authenticateToken c authorization with
    | Guard.respond r => Guard.respond r
    | Guard.next user => runGuards c authorization ms user
  | Middleware.isAdmin :: ms, user =>
    match isAdmin user with
    | Guard.respond r => Guard.respond r
    | Guard.next user => runGuards c authorization ms user

/-! ## Handlers of the user, company and asset routes -/

/-- The handler of `POST /api/login`. -/
def login (c : Crypto) (f : SimpleFaults) (req : Request) (w : World) : World × Response :=
  if !truthyStr req.username || !truthyStr req.password then
    (w, { status := 400, body := Body.message "Username and password are required" })
  else
    if f.connect then
      (w, { status := 500, body := Body.message "Internal server error" })
    else
    let w := connect w
    if f.first.isSome then
      (w, { status := 500, body := Body.message "Internal server error" })
    else
    let users := w.tables.users.filter (fun u => u.username == req.username.getD "")
    let w := connEnd w
    match users with
    | [] => (w, { status := 401, body := Body.message "Invalid credentials" })
    | user :: _ =>
      if f.crypto then
        (w, { status := 500, body := Body.message "Internal server error" })
      else
      if !c.compare (req.password.getD "") user.password then
        (w, { status := 401, body := Body.message "Invalid credentials" })
      else
        (w, { status := 200,
              body := Body.login (c.sign (identityOf user) "1h") (identityOf user) })

/-- The handler of `POST /api/users`. -/
def postUsers (c : Crypto) (f : SimpleFaults) (req : Request) (w : World) :
    World × Response :=
  if !truthyStr req.username || !truthyStr req.password || !truthyStr req.role then
    (w, { status := 400, body := Body.message "Username, password, and role are required" })
  else
    if f.crypto || f.connect then
      (w, { status := 500, body := Body.message "Failed to register user" })
    else
    let hashedPassword := c.hash (req.password.getD "")
    let w := connect w
    match writeError f.first
        (w.tables.users.any (fun u => u.username == req.username.getD "")) with
    | some StoreError.dupEntry =>
      (w, { status := 409, body := Body.message "Username already exists." })
    | some StoreError.other =>
      (w, { status := 500, body := Body.message "Failed to register user" })
    | none =>
      let insertId := w.nextUserId
      let w := { w with
        tables := { w.tables with
          users := w.tables.users ++
            [{ id := insertId, username := req.username.getD "",
               password := hashedPassword, role := req.role.getD "" }] },
        nextUserId := w.nextUserId + 1 }
      (connEnd w,
        { status := 201,
          body := Body.user { id := insertId, username := req.username.getD "",
                              role := req.role.getD "" } })

/-- The handler of `GET /api/users`. -/
def getUsers (f : SimpleFaults) (w : World) : World × Response :=
  if f.connect then (w, { status := 500, body := Body.message "Failed to fetch users" })
  else
    let w := connect w
    if f.first.isSome then
      (w, { status := 500, body := Body.message "Failed to fetch users" })
    else
      (connEnd w, { status := 200, body := Body.users (w.tables.users.map identityOf) })

/-- The handler of `DELETE /api/users/:userId`, for the caller `user`. -/
def deleteUser (f : SimpleFaults) (user : Identity) (userId : Nat) (w : World) :
    World × Response :=
  if user.id == userId then
    (w, { status := 400,
          body := Body.message "Cannot delete the currently logged-in user." })
  else
    if f.connect then (w, { status := 500, body := Body.message "Failed to delete user" })
    else
    let w := connect w
    if f.first.isSome then
      (w, { status := 500, body := Body.message "Failed to delete user" })
    else
      let w := { w with
        tables := { w.tables with
          users := w.tables.users.filter (fun u => !(u.id == userId)) } }
      (connEnd w, { status := 204, body := Body.empty })

/-- The handler of `GET /api/companies` (`ORDER BY name ASC`). -/
def getCompanies (f : SimpleFaults) (w : World) : World × Response :=
  if f.connect then
    (w, { status := 500, body := Body.message "Failed to fetch companies" })
  else
    let w := connect w
    if f.first.isSome then
      (w, { status := 500, body := Body.message "Failed to fetch companies" })
    else
      (connEnd w,
        { status := 200,
          body := Body.companies
            (w.tables.companies.insertionSort (fun a b => a.name ≤ b.name)) })

/-- The handler of `POST /api/companies`. -/
def postCompanies (f : SimpleFaults) (req : Request) (w : World) : World × Response :=
  if !truthyStr req.name then
    (w, { status := 400, body := Body.message "Company name is required" })
  else
    if f.connect then (w, { status := 500, body := Body.message "Failed to add company" })
    else
    let w := connect w
    match writeError f.first
        (w.tables.companies.any (fun c => c.name == req.name.getD "")) with
    | some StoreError.dupEntry =>
      (w, { status := 409,
            body := Body.message "A company with this name already exists." })
    | some StoreError.other =>
      (w, { status := 500, body := Body.message "Failed to add company" })
    | none =>
      let insertId := w.nextCompanyId
      let w := { w with
        tables := { w.tables with
          companies := w.tables.companies ++
            [{ id := insertId, name := req.name.getD "" }] },
        nextCompanyId := w.nextCompanyId + 1 }
      (connEnd w, { status := 201, body := Body.created insertId (req.name.getD "") })

/-- The handler of `PUT /api/companies/:companyId`: its `catch` block answers 500 for
every error.  The four contact fields are bound as they came. -/
def putCompany (f : SimpleFaults) (req : Request) (w : World) : World × Response :=
  if !truthyStr req.name then
    (w, { status := 400, body := Body.message "Company name is required" })
  else
    if f.connect then
      (w, { status := 500, body := Body.message "Failed to update company" })
    else
    let w := connect w
    match executeError
        [req.contact_person, req.contact_email, req.contact_phone, req.address] f.first
        (w.tables.companies.any (fun c => c.id == req.id) &&
          w.tables.companies.any (fun c => c.name == req.name.getD "" && !(c.id == req.id)))
      with
    | some _ => (w, { status := 500, body := Body.message "Failed to update company" })
    | none =>
      let w := { w with
        tables := { w.tables with
          companies := w.tables.companies.map (fun c =>
            if c.id == req.id then
              { c with name := req.name.getD "",
                       contact_person := req.contact_person.toOption,
                       contact_email := req.contact_email.toOption,
                       contact_phone := req.contact_phone.toOption,
                       address := req.address.toOption }
            else c) } }
      if f.second.isSome then
        (w, { status := 500, body := Body.message "Failed to update company" })
      else
        (connEnd w, { status := 200, body := Body.company (findCompany w.tables req.id) })

/-- The handler of `DELETE /api/companies/:companyId`.  Modelled from the spec: the
store removes the assets of the company with it (referential cascade of the schema). -/
def deleteCompany (f : SimpleFaults) (companyId : Nat) (w : World) : World × Response :=
  if f.connect then
    (w, { status := 500, body := Body.message "Failed to delete company" })
  else
    let w := connect w
    if f.first.isSome then
      (w, { status := 500, body := Body.message "Failed to delete company" })
    else
      let w := { w with
        tables := { w.tables with
          companies := w.tables.companies.filter (fun c => !(c.id == companyId)),
          assets := w.tables.assets.filter (fun a => !(a.company_id == companyId)) } }
      (connEnd w, { status := 204, body := Body.empty })

/-- `SELECT * FROM assets WHERE id = ?`, first row. -/
def findAsset (t : Tables) (id : Nat) : Option Asset :=
  t.assets.find? (fun r => r.id == id)

/-- The handler of `GET /api/assets/:assetId`. -/
def getAsset (f : SimpleFaults) (assetId : Nat) (w : World) : World × Response :=
  if f.connect then (w, { status := 500, body := Body.message "Failed to fetch asset" })
  else
    let w := connect w
    if f.first.isSome then
      (w, { status := 500, body := Body.message "Failed to fetch asset" })
    else
      let rows := findAsset w.tables assetId
      let w := connEnd w
      match rows with
      | some row => (w, { status := 200, body := Body.asset (some row) })
      | none => (w, { status := 404, body := Body.message "Asset not found" })

/-- The handler of `GET /api/companies/:companyId/assets` (`ORDER BY asset_name ASC`). -/
def getCompanyAssets (f : SimpleFaults) (companyId : Nat) (w : World) : World × Response :=
  if f.connect then (w, { status := 500, body := Body.message "Failed to fetch assets" })
  else
    let w := connect w
    if f.first.isSome then
      (w, { status := 500, body := Body.message "Failed to fetch assets" })
    else
      (connEnd w,
        { status := 200,
          body := Body.assets
            ((w.tables.assets.filter (fun a => a.company_id == companyId)).insertionSort
              (fun a b => a.asset_name ≤ b.asset_name)) })

/-- The handler of `POST /api/assets`.  `status` is bound as `status || 'In Use'`, the
other optional fields as they came. -/
def postAssets (f : SimpleFaults) (req : Request) (w : World) : World × Response :=
  if !truthyNat req.company_id || !truthyStr req.asset_name then
    (w, { status := 400, body := Body.message "Company ID and Device Name are required." })
  else
    if f.connect then (w, { status := 500, body := Body.message "Failed to add asset" })
    else
    let w := connect w
    match executeError
        [req.description, req.serial_number, req.device_type, req.owner_location,
          req.brand, req.model, req.operating_system] f.first
        (req.serial_number.toOption.isSome &&
          w.tables.assets.any (fun a => a.serial_number == req.serial_number.toOption))
      with
    | some StoreError.dupEntry =>
      (w, { status := 409,
            body := Body.message "An asset with this serial number already exists." })
    | some StoreError.other =>
      (w, { status := 500, body := Body.message "Failed to add asset" })
    | none =>
      let insertId := w.nextAssetId
      let w := { w with
        tables := { w.tables with
          assets := w.tables.assets ++
            [{ id := insertId, company_id := req.company_id.getD 0,
               asset_name := req.asset_name.getD "",
               description := req.description.toOption,
               serial_number := req.serial_number.toOption,
               status := some (orElseStr req.status.toOption "In Use"),
               device_type := req.device_type.toOption,
               owner_location := req.owner_location.toOption,
               brand := req.brand.toOption, model := req.model.toOption,
               operating_system := req.operating_system.toOption }] },
        nextAssetId := w.nextAssetId + 1 }
      match f.second with
      | some StoreError.dupEntry =>
        (w, { status := 409,
              body := Body.message "An asset with this serial number already exists." })
      | some StoreError.other =>
        (w, { status := 500, body := Body.message "Failed to add asset" })
      | none =>
        (connEnd w, { status := 201, body := Body.asset (findAsset w.tables insertId) })

/-- The handler of `PUT /api/assets/:assetId`.  The optional fields, `status` among
them, are bound as they came. -/
def putAsset (f : SimpleFaults) (req : Request) (w : World) : World × Response :=
  if !truthyStr req.asset_name then
    (w, { status := 400, body := Body.message "Device name is required." })
  else
    if f.connect then (w, { status := 500, body := Body.message "Failed to update asset." })
    else
    let w := connect w
    match executeError
        [req.description, req.serial_number, req.status, req.device_type,
          req.owner_location, req.brand, req.model, req.operating_system] f.first
        (req.serial_number.toOption.isSome &&
          w.tables.assets.any (fun a => a.id == req.id) &&
          w.tables.assets.any (fun a =>
            a.serial_number == req.serial_number.toOption && !(a.id == req.id))) with
    | some StoreError.dupEntry =>
      (w, { status := 409,
            body := Body.message "An asset with this serial number already exists." })
    | some StoreError.other =>
      (w, { status := 500, body := Body.message "Failed to update asset." })
    | none =>
      let w := { w with
        tables := { w.tables with
          assets := w.tables.assets.map (fun a =>
            if a.id == req.id then
              { a with asset_name := req.asset_name.getD "",
                       description := req.description.toOption,
                       serial_number := req.serial_number.toOption,
                       status := req.status.toOption,
                       device_type := req.device_type.toOption,
                       owner_location := req.owner_location.toOption,
                       brand := req.brand.toOption, model := req.model.toOption,
                       operating_system := req.operating_system.toOption }
            else a) } }
      match f.second with
      | some StoreError.dupEntry =>
        (w, { status := 409,
              body := Body.message "An asset with this serial number already exists." })
      | some StoreError.other =>
        (w, { status := 500, body := Body.message "Failed to update asset." })
      | none =>
        (connEnd w, { status := 200, body := Body.asset (findAsset w.tables req.id) })

/-- The handler of `DELETE /api/assets/:assetId`. -/
def deleteAsset (f : SimpleFaults) (assetId : Nat) (w : World) : World × Response :=
  if f.connect then (w, { status := 500, body := Body.message "Failed to delete asset" })
  else
    let w := connect w
    if f.first.isSome then
      (w, { status := 500, body := Body.message "Failed to delete asset" })
    else
      let w := { w with
        tables := { w.tables with
          assets := w.tables.assets.filter (fun a => !(a.id == assetId)) } }
      (connEnd w, { status := 204, body := Body.empty })

/-! ## Handlers of the remaining ticket routes, and the dispatch -/

/-- One row of the joined ticket queries, for the ticket row `r`:
`JOIN companies`, `JOIN users`, `LEFT JOIN users au`. -/
def joinTicket (t : Tables) (r : Ticket) : Option JoinedTicket :=
  match findCompany t r.company_id, findUser t r.user_id with
  | some c, some u =>
    some { ticket := r, company_name := c.name, user_name := u.username,
           assigned_user_name := (r.assigned_user_id.bind (findUser t)).map User.username }
  | _, _ => none

/-- The handler of `GET /api/tickets` (`ORDER BY t.updated_at DESC`). -/
def getTickets (f : SimpleFaults) (w : World) : World × Response :=
  if f.connect then (w, { status := 500, body := Body.message "Failed to fetch tickets" })
  else
    let w := connect w
    if f.first.isSome then
      (w, { status := 500, body := Body.message "Failed to fetch tickets" })
    else
      (connEnd w,
        { status := 200,
          body := Body.tickets
            ((w.tables.tickets.filterMap (joinTicket w.tables)).insertionSort
              (fun a b => b.ticket.updated_at ≤ a.ticket.updated_at)) })

/-- The updates of a ticket with their authors (`JOIN users u ON tu.user_id = u.id
WHERE tu.ticket_id = ? ORDER BY tu.created_at ASC`). -/
def selectUpdates (t : Tables) (ticketId : Nat) : List JoinedUpdate :=
  ((t.ticket_updates.filter (fun r => r.ticket_id == ticketId)).filterMap (fun r =>
    (findUser t r.user_id).map (fun u => { update := r, user_name := u.username }))
    ).insertionSort (fun a b => a.update.created_at ≤ b.update.created_at)

/-- The assets linked to a ticket (`FROM assets a JOIN ticket_assets ta ON
a.id = ta.asset_id WHERE ta.ticket_id = ?`). -/
def selectLinkedAssets (t : Tables) (ticketId : Nat) : List Asset :=
  (t.ticket_assets.filter (fun ta => ta.ticket_id == ticketId)).filterMap (fun ta =>
    findAsset t ta.asset_id)

/-- The handler of `GET /api/tickets/:ticketId`.  The connection is opened before the
`try`; the `catch` block closes it, the success path closes it, the 404 `return` does
not. -/
def getTicket (f : SimpleFaults) (ticketId : Nat) (w : World) : World × Response :=
  let w := connect w
  if f.first.isSome then
    (connEnd w, { status := 500, body := Body.message "Failed to fetch ticket details" })
  else
    match selectJoinedTicket w.tables ticketId with
    | none => (w, { status := 404, body := Body.message "Ticket not found" })
    | some row =>
      if f.second.isSome || f.third.isSome then
        (connEnd w,
          { status := 500, body := Body.message "Failed to fetch ticket details" })
      else
        (connEnd w,
          { status := 200,
            body := Body.ticketDetail row (selectUpdates w.tables ticketId)
              (selectLinkedAssets w.tables ticketId) })

/-- The handler of `DELETE /api/tickets/:ticketId`. -/
def deleteTicket (f : SimpleFaults) (ticketId : Nat) (w : World) : World × Response :=
  if f.connect then (w, { status := 500, body := Body.message "Failed to delete ticket" })
  else
    let w := connect w
    if f.first.isSome then
      (w, { status := 500, body := Body.message "Failed to delete ticket" })
    else
      let w := { w with
        tables := { w.tables with
          tickets := w.tables.tickets.filter (fun r => !(r.id == ticketId)) } }
      (connEnd w, { status := 204, body := Body.empty })

/-- The fields of the body that `POST /api/tickets` reads. -/
def Request.create (req : Request) : CreateRequest :=
  { company_id := req.company_id, title := req.title,
    description := req.description.toOption,
    priority := req.priority, asset_ids := req.asset_ids,
    customer_email := req.customer_email }

/-- The fields of the body that the webhook reads. -/
def Request.webhook (req : Request) : WebhookRequest :=
  { from_ := req.from_, subject := req.subject, text := req.text, plain := req.plain }

/-- A handler that reads `req.user.id` with `req.user` undefined throws before it
answers; the model answers 500 with a plain-text body in its place. -/
def noUser (w : World) : World × Response :=
  (w, { status := 500, body := Body.text "TypeError" })

/-- Modelled from the spec: `status` and `priority` of a ticket are never `NULL` (the
spec gives each an enumerated type and marks only `assigned_user_id` and
`customer_email` as nullable; the schema is not part of the sources), so the store
refuses the `UPDATE` of `PUT /api/tickets/:ticketId` when it binds `null` to one of
them; when one of them is `undefined`, `execute` has thrown before that.  The two texts
to store, when the `UPDATE` binds two strings. -/
def boundStatusPriority (status priority : Js String) : Option (String × String) :=
  match status, priority with
  | Js.val s, Js.val p => some (s, p)
  | _, _ => none

/-- The handler of each route, run with `req.user` as the guards left it.  A `PUT
/api/tickets/:ticketId` whose body does not give `status` and `priority` as strings
throws at the `UPDATE` (`boundStatusPriority`). -/
def handle (c : Crypto) (f : Faults) (route : Route) (user : Option Identity)
    (req : Request) (w : World) : World × Response :=
  match route with
  | Route.login => login c f.simple req w
  | Route.postUsers => postUsers c f.simple req w
  | Route.getUsers => getUsers f.simple w
  | Route.deleteUser =>
    match user with
    | some u => deleteUser f.simple u req.id w
    | none => noUser w
  | Route.getCompanies => getCompanies f.simple w
  | Route.postCompanies => postCompanies f.simple req w
  | Route.putCompany => putCompany f.simple req w
  | Route.deleteCompany => deleteCompany f.simple req.id w
  | Route.getAsset => getAsset f.simple req.id w
  | Route.getCompanyAssets => getCompanyAssets f.simple req.id w
  | Route.postAssets => postAssets f.simple req w
  | Route.putAsset => putAsset f.simple req w
  | Route.deleteAsset => deleteAsset f.simple req.id w
  | Route.emailWebhook => emailWebhook f.webhook req.webhook w
  | Route.getTickets => getTickets f.simple w
  | Route.getTicket => getTicket f.simple req.id w
  | Route.postTickets =>
    match user with
    | some u => postTicket f.create u.id req.create w
    | none => noUser w
  | Route.postTicketUpdates =>
    match user with
    | some u => postTicketUpdate f.update u.id req.id req.update_text w
    | none => noUser w
  | Route.putTicket =>
    match boundStatusPriority req.status req.priority with
    | some (status, priority) =>
      putTicket f.put req.id status priority req.assigned_user_id w
    | none => putTicket { f.put with update := true } req.id "" "" req.assigned_user_id w
  | Route.deleteTicket => deleteTicket f.simple req.id w

/-- A request to a route: the guards of the route in order, then its handler. -/
def serve (c : Crypto) (f : Faults) (route : Route) (req : Request) (w : World) :
    World × Response :=
  match runGuards c req.authorization (middleware route) none with
  | Guard.respond r => (w, r)
  | Guard.next user => handle c f route user req w

/-- A stand-in for the collaborators: the token of a user is "token:" and the username,
two tokens verify, and the hash of a password is "hash:" and the password. -/
def demoCrypto : Crypto :=
  { sign := fun i _ => "token:" ++ i.username,
    verify := fun t =>
      if t == "token:admin" then some { id := 1, username := "admin", role := "admin" }
      else if t == "token:tech" then some { id := 3, username := "tech", role := "user" }
      else none,
    hash := fun p => "hash:" ++ p,
    compare := fun p h => h == "hash:" ++ p }

/-- The statuses of error responses. -/
def isErrorStatus (s : Nat) : Bool :=
  s == 400 || s == 401 || s == 403 || s == 404 || s == 409 || s == 500

/-- The body is a JSON object `{message: <string>}`. -/
def isMessage : Body → Bool
  | Body.message _ => true
  | _ => false

/-- The priorities of the data model. -/
def validPriority (p : String) : Bool :=
  p == "Low" || p == "Normal" || p == "High" || p == "Urgent"

/-- The statuses of the data model. -/
def validStatus (s : String) : Bool :=
  s == "Open" || s == "In Progress" || s == "Resolved" || s == "Closed"

/-- Every stored ticket has a priority and a status of the data model. -/
def validTickets (t : Tables) : Bool :=
  t.tickets.all (fun r => validPriority r.priority && validStatus r.status)

/-- A login request with the credentials of user "tech" of `loginWorld`. -/
def loginRequest : Request :=
  { username := some "tech", password := some "secret" }

/-- The sample store with a password hash for user "tech". -/
def loginWorld : World :=
  { demoWorld with
    tables := { demoTables with
      users := [{ id := 1, username := "admin", password := "hash:root", role := "admin" },
                { id := 3, username := "tech", password := "hash:secret" }] } }

/-! ## The client: bulk import and ticket filter (`src/ui/src/App.js`) -/

/-- A row object of `XLSX.utils.sheet_to_json`: the columns that have a cell in the row,
with the cell values. -/
abbrev SheetRow := List (String × String)

/-- The call `row.hasOwnProperty(field)`. -/
def hasOwnProperty (row : SheetRow) (field : String) : Bool :=
  row.any (fun cell => cell.1 == field)

/-- What `handleImport` does with a parsed sheet: it shows an "Import Error" alert, or
it posts the rows to the API. -/
inductive ImportOutcome where
  | importError (message : String)
  | posted (company_id : Nat) (assets : List SheetRow)
  deriving DecidableEq

/-- The part of `ExcelImportExport.handleImport` that runs on the parsed sheet
`jsonData`, up to the request. -/
def handleImport (companyId : Nat) (jsonData : List SheetRow) : ImportOutcome :=
  match jsonData with
  | [] =>
    ImportOutcome.importError "The selected file is empty or not formatted correctly."
  | firstRow :: _ =>
    let requiredFields := ["asset_name"]
    let missingFields := requiredFields.filter (fun field => !hasOwnProperty firstRow field)
    if missingFields.length > 0 then
      ImportOutcome.importError
        ("The imported file is missing required columns: " ++
          ", ".intercalate missingFields)
    else ImportOutcome.posted companyId jsonData

/-- The callback of `allTickets.filter(...)` in `TicketsView`. -/
def keepTicket (statusFilter : String) (ticket : JoinedTicket) : Bool :=
  if statusFilter == "All" then ticket.ticket.status != "Closed"
  else if statusFilter == "Archived" then ticket.ticket.status == "Closed"
  else ticket.ticket.status == statusFilter

/-- The list `filteredTickets` of `TicketsView`. -/
def filteredTickets (statusFilter : String) (allTickets : List JoinedTicket) :
    List JoinedTicket :=
  allTickets.filter (keepTicket statusFilter)

/-- A parsed sheet whose first row has `asset_name` and whose second row has not. -/
def gappySheet : List SheetRow :=
  [[("asset_name", "Laptop 1"), ("serial_number", "SN-1")], [("serial_number", "SN-2")]]

/-! ## Theorems: `POST /api/tickets` -/

/-- A field whose value is truthy is not `undefined`. -/
theorem hasUndefined_of_truthy (j : Js String) (h : truthyStr j.toOption = true) :
    hasUndefined [j] = false := by
  cases j <;> simp_all [hasUndefined, Js.isUndefined, Js.toOption, truthyStr]

/-- C1: when the fields of `POST /api/tickets` are valid, `asset_ids` is not empty and
the insert of the link rows fails (the transaction was opened and the ticket row was
inserted), the transaction is rolled back: every table is as before the request, no mail
is attempted or sent, and the response is 500. -/
theorem postTicket_link_failure_rolls_back (f : CreateFaults) (user_id : Nat)
    (req : CreateRequest) (w : World)
    (hc : truthyNat req.company_id = true) (ht : truthyStr req.title = true)
    (hd : truthyStr req.description = true) (ha : hasAssets req.asset_ids = true)
    (hb : f.beginTransaction = false) (hi : f.insertTicket = false)
    (hl : f.insertLinks = true) :
    (postTicket f user_id req w).1.tables = w.tables ∧
    (postTicket f user_id req w).1.outbox = w.outbox ∧
    eventsSince w (postTicket f user_id req w) =
      [Event.connect, Event.beginTransaction, Event.rollback, Event.connEnd] ∧
    (postTicket f user_id req w).2 =
      { status := 500, body := Body.message "Failed to create ticket" } := by
  cases hu : hasUndefined [req.customer_email] <;>
    simp [postTicket, hc, ht, hd, ha, hb, hi, hl, hu, createFailed, connect,
      beginTransaction, insertTicket, rollback, connEnd, World.log, eventsSince]

/-- Witness for C1 on the sample store. -/
theorem postTicket_link_failure_rolls_back_witness :
    (postTicket { insertLinks := true } 3 demoCreate demoWorld).1.tables = demoWorld.tables ∧
    (postTicket { insertLinks := true } 3 demoCreate demoWorld).1.outbox = demoWorld.outbox ∧
    eventsSince demoWorld (postTicket { insertLinks := true } 3 demoCreate demoWorld) =
      [Event.connect, Event.beginTransaction, Event.rollback, Event.connEnd] ∧
    (postTicket { insertLinks := true } 3 demoCreate demoWorld).2 =
      { status := 500, body := Body.message "Failed to create ticket" } :=
  postTicket_link_failure_rolls_back { insertLinks := true } 3 demoCreate demoWorld
    (by decide) (by decide) (by decide) (by decide) rfl rfl rfl

/-- A failure of `beginTransaction`, of the ticket insert, of the link insert or of
`commit` in `POST /api/tickets` leaves every table as it was and answers 500. -/
theorem postTicket_failure_before_commit_undone (f : CreateFaults) (user_id : Nat)
    (req : CreateRequest) (w : World)
    (hc : truthyNat req.company_id = true) (ht : truthyStr req.title = true)
    (hd : truthyStr req.description = true)
    (hf : f.beginTransaction = true ∨ f.insertTicket = true ∨
      (hasAssets req.asset_ids = true ∧ f.insertLinks = true) ∨ f.commit = true) :
    (postTicket f user_id req w).1.tables = w.tables ∧
    (postTicket f user_id req w).1.outbox = w.outbox ∧
    (postTicket f user_id req w).2.status = 500 := by
  simp only [postTicket, hc, ht, hd]
  by_cases hb : f.beginTransaction = true
  · simp [hb, createFailed, connect, rollback, connEnd, World.log]
  · by_cases hi : (f.insertTicket || hasUndefined [req.customer_email]) = true
    · simp only [Bool.or_eq_true] at hi
      rcases hi with hi | hi <;>
        simp [hb, hi, createFailed, connect, beginTransaction, rollback, connEnd, World.log]
    · simp only [Bool.or_eq_true, not_or] at hi
      obtain ⟨hi, hu⟩ := hi
      by_cases hl : (hasAssets req.asset_ids && f.insertLinks) = true
      · simp [hb, hi, hu, hl, createFailed, connect, beginTransaction, insertTicket,
          rollback, connEnd, World.log]
      · have hm : f.commit = true := by
          rcases hf with h | h | h | h
          · exact absurd h hb
          · exact absurd h hi
          · exact absurd (by simp [h.1, h.2]) hl
          · exact h
        by_cases hx : hasAssets req.asset_ids = true <;>
          simp [hb, hi, hu, hl, hm, hx, createFailed, connect, beginTransaction,
            insertTicket, insertLinks, rollback, connEnd, World.log]

/-- C2 (defect): a valid `POST /api/tickets` whose read-back of the new ticket throws
after the commit answers 500 "Failed to create ticket" although the ticket row and both
link rows stay in the tables: the `rollback` of the `catch` block comes after `commit`
and undoes nothing. -/
theorem postTicket_readBack_failure_keeps_rows :
    (postTicket { readBack := true } 3 demoCreate demoWorld).2 =
      { status := 500, body := Body.message "Failed to create ticket" } ∧
    (postTicket { readBack := true } 3 demoCreate demoWorld).1.tables.tickets =
      demoWorld.tables.tickets ++
        [{ id := 43, company_id := 5, user_id := 3, title := "VPN",
           description := "No access", priority := "Normal", status := "Open",
           customer_email := some "bob@acme.test", created_at := 100, updated_at := 100 }] ∧
    (postTicket { readBack := true } 3 demoCreate demoWorld).1.tables.ticket_assets =
      [{ ticket_id := 43, asset_id := 11 }, { ticket_id := 43, asset_id := 12 }] ∧
    eventsSince demoWorld (postTicket { readBack := true } 3 demoCreate demoWorld) =
      [Event.connect, Event.beginTransaction, Event.commit, Event.sendMail true,
       Event.rollback, Event.connEnd] := by
  decide

/-- C3: in `POST /api/tickets` with valid fields and a non-empty `customer_email`, a
failing mail send changes neither the response nor the tables: they are those of the run
in which the send succeeds; and when no store call fails, the response is 201 with the
joined row read back for the new id, the new ticket row is stored, and so is one link row
per asset id. -/
theorem postTicket_mail_failure_isolated (f : CreateFaults) (user_id : Nat)
    (req : CreateRequest) (w : World)
    (hc : truthyNat req.company_id = true) (ht : truthyStr req.title = true)
    (hd : truthyStr req.description = true) (he : truthyStr req.customer_email.toOption = true) :
    (postTicket { f with sendMail := true } user_id req w).2 =
      (postTicket { f with sendMail := false } user_id req w).2 ∧
    (postTicket { f with sendMail := true } user_id req w).1.tables =
      (postTicket { f with sendMail := false } user_id req w).1.tables ∧
    (f.beginTransaction = false → f.insertTicket = false → f.insertLinks = false →
      f.commit = false → f.readBack = false →
      (postTicket { f with sendMail := true } user_id req w).2 =
        { status := 201,
          body := Body.ticket (selectJoinedTicket
            (postTicket { f with sendMail := true } user_id req w).1.tables
            w.nextTicketId) } ∧
      (postTicket { f with sendMail := true } user_id req w).1.tables.tickets =
        w.tables.tickets ++
          [{ id := w.nextTicketId, company_id := req.company_id.getD 0, user_id := user_id,
             assigned_user_id := none, title := req.title.getD "",
             description := req.description.getD "",
             priority := orElseStr req.priority.toOption "Normal", status := "Open",
             customer_email := req.customer_email.toOption, created_at := w.now,
             updated_at := w.now }] ∧
      (postTicket { f with sendMail := true } user_id req w).1.tables.ticket_assets =
        w.tables.ticket_assets ++
          (req.asset_ids.getD []).map
            (fun a => { ticket_id := w.nextTicketId, asset_id := a })) := by
  have hu := hasUndefined_of_truthy req.customer_email he
  refine ⟨?_, ?_, ?_⟩
  · simp only [postTicket, hc, ht, hd, he, hu, Bool.or_false]
    cases f.beginTransaction <;> cases f.insertTicket <;> cases f.insertLinks <;>
      cases f.commit <;> cases f.readBack <;> cases hasAssets req.asset_ids <;>
      simp [createFailed, connect, beginTransaction, insertTicket, insertLinks, commit,
        rollback, connEnd, bounce, deliver, World.log]
  · simp only [postTicket, hc, ht, hd, he, hu, Bool.or_false]
    cases f.beginTransaction <;> cases f.insertTicket <;> cases f.insertLinks <;>
      cases f.commit <;> cases f.readBack <;> cases hasAssets req.asset_ids <;>
      simp [createFailed, connect, beginTransaction, insertTicket, insertLinks, commit,
        rollback, connEnd, bounce, deliver, World.log]
  · intro hb hi hl hm hr
    simp only [postTicket, hc, ht, hd, he, hu, hb, hi, hl, hm, hr, Bool.or_false]
    rcases hx : req.asset_ids with _ | ⟨_ | ⟨a, l⟩⟩ <;>
      simp [hasAssets, connect, beginTransaction, insertTicket, insertLinks, commit,
        connEnd, bounce, World.log, defaultStatus]

/-- Witness for C3 on the sample store. -/
theorem postTicket_mail_failure_isolated_witness :
    (postTicket { sendMail := true } 3 demoCreate demoWorld).2 =
      (postTicket { sendMail := false } 3 demoCreate demoWorld).2 ∧
    (postTicket { sendMail := true } 3 demoCreate demoWorld).1.tables =
      (postTicket { sendMail := false } 3 demoCreate demoWorld).1.tables ∧
    (postTicket { sendMail := true } 3 demoCreate demoWorld).2.status = 201 :=
  have h := postTicket_mail_failure_isolated {} 3 demoCreate demoWorld
    (by decide) (by decide) (by decide) (by decide)
  ⟨h.1, h.2.1, by rw [(h.2.2 rfl rfl rfl rfl rfl).1]⟩

/-! ## Theorems: notification failures in the other routes -/

/-- C4 (defect): `PUT /api/tickets/42` that changes the status of a ticket with a
customer address answers 500 "Failed to update ticket" when the status mail cannot be
sent, although the new status is stored; the same request answers 200 with the reloaded
ticket when the send succeeds.  The sends of this route are not wrapped in a `try` of
their own, unlike the send of `POST /api/tickets`. -/
theorem putTicket_send_failure_surfaces :
    (putTicket { sendStatus := true } 42 "Resolved" "Normal" none demoWorld).2 =
      { status := 500, body := Body.message "Failed to update ticket" } ∧
    (findTicket (putTicket { sendStatus := true } 42 "Resolved" "Normal" none
      demoWorld).1.tables 42).map Ticket.status = some "Resolved" ∧
    (putTicket {} 42 "Resolved" "Normal" none demoWorld).2 =
      { status := 200,
        body := Body.ticket (some
          { ticket := { id := 42, company_id := 5, user_id := 3, title := "Printer",
                        description := "Broken", status := "Resolved",
                        customer_email := some "bob@acme.test" },
            company_name := "Acme", user_name := "tech", assigned_user_name := none }) } := by
  decide

/-- C5 (defect): `POST /api/tickets/42/updates` with a non-empty text, on a ticket with a
customer address and with every store call succeeding, answers 500 "Failed to add update"
when the reply mail cannot be sent, although the update row is committed; with a
successful send the same request answers 201 with the new update row. -/
theorem postTicketUpdate_send_failure_surfaces :
    (postTicketUpdate { sendMail := true } 3 42 (some "On it") demoWorld).2 =
      { status := 500, body := Body.message "Failed to add update" } ∧
    (postTicketUpdate { sendMail := true } 3 42 (some "On it")
      demoWorld).1.tables.ticket_updates =
      [{ id := 1, ticket_id := 42, user_id := 3, update_text := "On it",
         created_at := 100 }] ∧
    (postTicketUpdate {} 3 42 (some "On it") demoWorld).2 =
      { status := 201,
        body := Body.update (some
          { update := { id := 1, ticket_id := 42, user_id := 3, update_text := "On it",
                        created_at := 100 },
            user_name := "tech" }) } := by
  decide

/-! ## Theorems: order of commit and mail -/

/-- Soundness of the scan: a `sendMail` met in a trace that passes it comes after a
`commit`, or the scan started out committed. -/
theorem sendsFollowCommit_sound (evs : List Event) :
    ∀ (c : Bool) (pre post : List Event) (b : Bool),
      sendsFollowCommit c evs = true → evs = pre ++ Event.sendMail b :: post →
      c = true ∨ Event.commit ∈ pre := by
  induction evs with
  | nil => intro c pre post b _ h; simp at h
  | cons e es ih =>
    intro c pre post b hs h
    cases pre with
    | nil =>
      simp only [List.nil_append, List.cons.injEq] at h
      rw [h.1] at hs
      simp only [sendsFollowCommit, Bool.and_eq_true] at hs
      exact Or.inl hs.1
    | cons p ps =>
      simp only [List.cons_append, List.cons.injEq] at h
      obtain ⟨rfl, h⟩ := h
      cases e with
      | commit => exact Or.inr (List.mem_cons_self _ _)
      | sendMail d =>
        simp only [sendsFollowCommit, Bool.and_eq_true] at hs
        exact Or.inl hs.1
      | connect | beginTransaction | rollback | connEnd =>
        simp only [sendsFollowCommit] at hs
        rcases ih c ps post b hs h with h1 | h1
        · exact Or.inl h1
        · exact Or.inr (List.mem_cons_of_mem _ h1)

/-- The trace of `POST /api/tickets` passes the scan. -/
theorem postTicket_scan (f : CreateFaults) (user_id : Nat) (req : CreateRequest)
    (w : World) :
    sendsFollowCommit false (eventsSince w (postTicket f user_id req w)) = true := by
  by_cases hv : (!truthyNat req.company_id || !truthyStr req.title ||
      !truthyStr req.description) = true
  · simp [postTicket, hv, eventsSince, sendsFollowCommit]
  · cases hund : hasUndefined [req.customer_email]
    · cases hb : f.beginTransaction <;> cases hi : f.insertTicket <;>
        cases hl : f.insertLinks <;> cases hm : f.commit <;> cases hs : f.sendMail <;>
        cases hr : f.readBack <;> cases ha : hasAssets req.asset_ids <;>
        cases he : truthyStr req.customer_email.toOption <;>
        simp [hund, postTicket, hv, hb, hi, hl, hm, hs, hr, ha, he, eventsSince, createFailed,
          connect, beginTransaction, insertTicket, insertLinks,
          commit, rollback, connEnd, bounce, deliver, World.log, sendsFollowCommit]
    · cases hb : f.beginTransaction <;>
        simp [hund, postTicket, hv, hb, eventsSince, createFailed, connect,
          beginTransaction, insertTicket, insertLinks, commit, rollback, connEnd, bounce,
          deliver, World.log, sendsFollowCommit]

/-- Without a `commit` in its trace, `POST /api/tickets` has sent nothing. -/
theorem postTicket_outbox_of_no_commit (f : CreateFaults) (user_id : Nat)
    (req : CreateRequest) (w : World) :
    Event.commit ∉ eventsSince w (postTicket f user_id req w) →
    (postTicket f user_id req w).1.outbox = w.outbox := by
  by_cases hv : (!truthyNat req.company_id || !truthyStr req.title ||
      !truthyStr req.description) = true
  · simp [postTicket, hv, eventsSince]
  · cases hund : hasUndefined [req.customer_email]
    · cases hb : f.beginTransaction <;> cases hi : f.insertTicket <;>
        cases hl : f.insertLinks <;> cases hm : f.commit <;> cases hs : f.sendMail <;>
        cases hr : f.readBack <;> cases ha : hasAssets req.asset_ids <;>
        cases he : truthyStr req.customer_email.toOption <;>
        simp [hund, postTicket, hv, hb, hi, hl, hm, hs, hr, ha, he, eventsSince, createFailed,
          connect, beginTransaction, insertTicket, insertLinks,
          commit, rollback, connEnd, bounce, deliver, World.log]
    · cases hb : f.beginTransaction <;>
        simp [hund, postTicket, hv, hb, eventsSince, createFailed, connect,
          beginTransaction, insertTicket, insertLinks, commit, rollback, connEnd, bounce,
          deliver, World.log]

/-- The trace of `POST /api/tickets/:ticketId/updates` passes the scan. -/
theorem postTicketUpdate_scan (f : UpdateFaults) (user_id ticketId : Nat)
    (update_text : Option String) (w : World) :
    sendsFollowCommit false
      (eventsSince w (postTicketUpdate f user_id ticketId update_text w)) = true := by
  by_cases hv : (!truthyStr update_text) = true
  · simp [postTicketUpdate, hv, eventsSince, sendsFollowCommit]
  · cases hb : f.beginTransaction <;> cases hi : f.insertUpdate <;>
      cases hu : f.updateTicket <;> cases hm : f.commit <;> cases hr : f.readBack <;>
      cases hq : f.selectTicket <;> cases hs : f.sendMail <;>
      simp only [postTicketUpdate, hv, hb, hi, hu, hm, hr, hq, hs, Bool.false_eq_true,
        if_false, if_true] <;>
      (repeat' split) <;>
      simp [eventsSince, updateFailed, connect, beginTransaction, insertUpdate,
        setStatusAndTouch, commit, rollback, connEnd, bounce, deliver, World.log,
        sendsFollowCommit]

/-- Without a `commit` in its trace, `POST /api/tickets/:ticketId/updates` has sent
nothing. -/
theorem postTicketUpdate_outbox_of_no_commit (f : UpdateFaults) (user_id ticketId : Nat)
    (update_text : Option String) (w : World) :
    Event.commit ∉ eventsSince w (postTicketUpdate f user_id ticketId update_text w) →
    (postTicketUpdate f user_id ticketId update_text w).1.outbox = w.outbox := by
  by_cases hv : (!truthyStr update_text) = true
  · simp [postTicketUpdate, hv, eventsSince]
  · cases hb : f.beginTransaction <;> cases hi : f.insertUpdate <;>
      cases hu : f.updateTicket <;> cases hm : f.commit <;> cases hr : f.readBack <;>
      cases hq : f.selectTicket <;> cases hs : f.sendMail <;>
      simp only [postTicketUpdate, hv, hb, hi, hu, hm, hr, hq, hs, Bool.false_eq_true,
        if_false, if_true] <;>
      (repeat' split) <;>
      simp [eventsSince, updateFailed, connect, beginTransaction, insertUpdate,
        setStatusAndTouch, commit, rollback, connEnd, bounce, deliver, World.log]

/-- After a failed send in `POST /api/tickets/:ticketId/updates` the `catch` block has
called `rollback`, the response is 500, and the update row and the status change are in
the tables all the same. -/
theorem postTicketUpdate_after_failed_send (f : UpdateFaults) (user_id ticketId : Nat)
    (update_text : Option String) (w : World) :
    Event.sendMail false ∈
      eventsSince w (postTicketUpdate f user_id ticketId update_text w) →
    Event.rollback ∈ eventsSince w (postTicketUpdate f user_id ticketId update_text w) ∧
    (postTicketUpdate f user_id ticketId update_text w).2.status = 500 ∧
    (postTicketUpdate f user_id ticketId update_text w).1.tables.ticket_updates =
      w.tables.ticket_updates ++
        [{ id := w.nextUpdateId, ticket_id := ticketId, user_id := user_id,
           update_text := update_text.getD "", created_at := w.now }] ∧
    (postTicketUpdate f user_id ticketId update_text w).1.tables.tickets =
      w.tables.tickets.map (fun r =>
        if r.id == ticketId then { r with updated_at := w.now, status := "In Progress" }
        else r) := by
  by_cases hv : (!truthyStr update_text) = true
  · simp [postTicketUpdate, hv, eventsSince]
  · cases hb : f.beginTransaction <;> cases hi : f.insertUpdate <;>
      cases hu : f.updateTicket <;> cases hm : f.commit <;> cases hr : f.readBack <;>
      cases hq : f.selectTicket <;> cases hs : f.sendMail <;>
      simp only [postTicketUpdate, hv, hb, hi, hu, hm, hr, hq, hs, Bool.false_eq_true,
        if_false, if_true] <;>
      (repeat' split) <;>
      simp [eventsSince, updateFailed, connect, beginTransaction, insertUpdate,
        setStatusAndTouch, commit, rollback, connEnd, bounce, deliver, World.log]

/-- C6: in `POST /api/tickets` and in `POST /api/tickets/:ticketId/updates` every
`sendMail` comes after the `commit` of the same request; a request whose trace has no
`commit` (its transaction was rolled back) has sent no mail; and after a failed send in
`POST /api/tickets/:ticketId/updates` the `rollback` of the error handler has run, yet the
inserted update row and the status change of the ticket are still stored. -/
theorem mail_follows_commit (fc : CreateFaults) (fu : UpdateFaults)
    (user_id ticketId : Nat) (req : CreateRequest) (update_text : Option String)
    (w : World) :
    (∀ pre post b, eventsSince w (postTicket fc user_id req w) =
        pre ++ Event.sendMail b :: post → Event.commit ∈ pre) ∧
    (∀ pre post b, eventsSince w (postTicketUpdate fu user_id ticketId update_text w) =
        pre ++ Event.sendMail b :: post → Event.commit ∈ pre) ∧
    (Event.commit ∉ eventsSince w (postTicket fc user_id req w) →
      (postTicket fc user_id req w).1.outbox = w.outbox) ∧
    (Event.commit ∉ eventsSince w (postTicketUpdate fu user_id ticketId update_text w) →
      (postTicketUpdate fu user_id ticketId update_text w).1.outbox = w.outbox) ∧
    (Event.sendMail false ∈
        eventsSince w (postTicketUpdate fu user_id ticketId update_text w) →
      Event.rollback ∈
        eventsSince w (postTicketUpdate fu user_id ticketId update_text w) ∧
      (postTicketUpdate fu user_id ticketId update_text w).1.tables.ticket_updates =
        w.tables.ticket_updates ++
          [{ id := w.nextUpdateId, ticket_id := ticketId, user_id := user_id,
             update_text := update_text.getD "", created_at := w.now }] ∧
      (postTicketUpdate fu user_id ticketId update_text w).1.tables.tickets =
        w.tables.tickets.map (fun r =>
          if r.id == ticketId then
            { r with updated_at := w.now, status := "In Progress" }
          else r)) := by
  refine ⟨?_, ?_, postTicket_outbox_of_no_commit fc user_id req w,
    postTicketUpdate_outbox_of_no_commit fu user_id ticketId update_text w, ?_⟩
  · intro pre post b h
    rcases sendsFollowCommit_sound _ false pre post b (postTicket_scan fc user_id req w) h
      with h1 | h1
    · exact absurd h1 (by decide)
    · exact h1
  · intro pre post b h
    rcases sendsFollowCommit_sound _ false pre post b
      (postTicketUpdate_scan fu user_id ticketId update_text w) h with h1 | h1
    · exact absurd h1 (by decide)
    · exact h1
  · intro h
    have h2 := postTicketUpdate_after_failed_send fu user_id ticketId update_text w h
    exact ⟨h2.1, h2.2.2.1, h2.2.2.2⟩

/-- Witness for C6 on the sample store: a reply to ticket 42 whose mail cannot be sent. -/
theorem mail_follows_commit_witness :
    Event.rollback ∈
      eventsSince demoWorld (postTicketUpdate { sendMail := true } 3 42 (some "On it")
        demoWorld) ∧
    (postTicketUpdate { sendMail := true } 3 42 (some "On it")
      demoWorld).1.tables.ticket_updates =
      demoWorld.tables.ticket_updates ++
        [{ id := demoWorld.nextUpdateId, ticket_id := 42, user_id := 3,
           update_text := (some "On it").getD "", created_at := demoWorld.now }] ∧
    (postTicketUpdate { sendMail := true } 3 42 (some "On it") demoWorld).1.tables.tickets =
      demoWorld.tables.tickets.map (fun r =>
        if r.id == 42 then { r with updated_at := demoWorld.now, status := "In Progress" }
        else r) :=
  (mail_follows_commit {} { sendMail := true } 3 42 demoCreate (some "On it")
    demoWorld).2.2.2.2 (by decide)

/-! ## Theorems: `PUT /api/tickets/:ticketId` -/

/-- A lookup after a row-wise rewrite that keeps the looked-up key. -/
theorem find_map_of_preserved {α : Type} (p : α → Bool) (g : α → α)
    (hg : ∀ x, p (g x) = p x) (l : List α) :
    (l.map g).find? p = (l.find? p).map g := by
  induction l with
  | nil => rfl
  | cons x xs ih =>
    simp only [List.map_cons, List.find?_cons, hg]
    cases p x <;> simp [ih]

/-- Reading a ticket back after the `UPDATE` of the PUT handler. -/
theorem findTicket_updateTicket (w : World) (s p : String) (a : Option Nat) (id : Nat) :
    findTicket (updateTicket w s p a id).tables id =
      (findTicket w.tables id).map (fun r => updatedRow r s p a) := by
  simp only [findTicket, updateTicket]
  rw [find_map_of_preserved]
  · cases h : List.find? (fun r => r.id == id) w.tables.tickets with
    | none => rfl
    | some r =>
      have := List.find?_some h
      simp only [Option.map_some', this, if_true, updatedRow]
  · intro x
    by_cases h : (x.id == id) = true <;> simp [h]

/-- The joined read-back after the `UPDATE` of the PUT handler, for a ticket whose
company and creator exist. -/
theorem selectJoinedTicket_updateTicket (w : World) (s p : String) (a : Option Nat)
    (id : Nat) (old : Ticket) (c : Company) (u : User)
    (hold : findTicket w.tables id = some old)
    (hc : findCompany w.tables old.company_id = some c)
    (hu : findUser w.tables old.user_id = some u) :
    selectJoinedTicket (updateTicket w s p a id).tables id =
      some { ticket := updatedRow old s p a, company_name := c.name,
             user_name := u.username,
             assigned_user_name := (a.bind (findUser w.tables)).map User.username } := by
  have h1 := findTicket_updateTicket w s p a id
  rw [hold] at h1
  have h2 : findCompany (updateTicket w s p a id).tables old.company_id = some c := hc
  have h3 : ∀ k, findUser (updateTicket w s p a id).tables k = findUser w.tables k :=
    fun _ => rfl
  have h4 : findUser (updateTicket w s p a id).tables = findUser w.tables := funext h3
  simp only [selectJoinedTicket, h1, Option.map_some', updatedRow, h2, h4, hu]

/-- A run of the PUT handler in which nothing fails, on a ticket whose company and
creator exist. -/
theorem putTicket_ok (ticketId : Nat) (status priority : String)
    (assigned_user_id : Option Nat) (w : World) (old : Ticket) (c : Company) (u : User)
    (hold : findTicket w.tables ticketId = some old)
    (hc : findCompany w.tables old.company_id = some c)
    (hu : findUser w.tables old.user_id = some u) :
    (putTicket {} ticketId status priority assigned_user_id w).2 =
      { status := 200,
        body := Body.ticket (some (reloaded w old c u status priority assigned_user_id)) } ∧
    (putTicket {} ticketId status priority assigned_user_id w).1.tables =
      (updateTicket w status priority (orNull assigned_user_id) ticketId).tables ∧
    (putTicket {} ticketId status priority assigned_user_id w).1.outbox =
      w.outbox ++
        putMails ticketId old (reloaded w old c u status priority assigned_user_id) := by
  have hj := selectJoinedTicket_updateTicket (connect w) status priority
    (orNull assigned_user_id) ticketId old c u hold hc hu
  have hold2 : findTicket (connect w).tables ticketId = some old := hold
  have hu2 : findUser (connect w).tables = findUser w.tables := rfl
  simp only [putTicket, Bool.false_eq_true, if_false, hold2, hj, hu2, putMails, reloaded]
  cases he : truthyStr (updatedRow old status priority (orNull assigned_user_id)).customer_email <;>
    cases hs : (old.status != (updatedRow old status priority (orNull assigned_user_id)).status) <;>
    cases hp : (old.priority != (updatedRow old status priority (orNull assigned_user_id)).priority) <;>
    cases ha : (old.assigned_user_id !=
      (updatedRow old status priority (orNull assigned_user_id)).assigned_user_id) <;>
    simp [sendIf, deliver, connEnd, connect, updateTicket, World.log]

/-- Every mail of `putMails` goes to the customer address of the ticket. -/
theorem putMails_recipient (ticketId : Nat) (old : Ticket) (new : JoinedTicket) :
    ∀ m ∈ putMails ticketId old new, some m.recipient = new.ticket.customer_email := by
  intro m hm
  unfold putMails at hm
  cases he : new.ticket.customer_email with
  | none => simp [he, truthyStr] at hm
  | some e =>
    by_cases ht : truthyStr (some e) = true
    · simp only [he, ht, if_true, List.mem_append, Option.getD_some] at hm
      rcases hm with h | h | h <;> split_ifs at h <;> simp at h <;> simp [h]
    · simp [he, ht] at hm

/-- The number of mails of `putMails` is the number of changed fields. -/
theorem putMails_length (ticketId : Nat) (old : Ticket) (new : JoinedTicket) :
    (putMails ticketId old new).length =
      if truthyStr new.ticket.customer_email then changedFields old new.ticket else 0 := by
  unfold putMails changedFields
  by_cases he : truthyStr new.ticket.customer_email = true
  · by_cases hs : old.status = new.ticket.status <;>
      by_cases hp : old.priority = new.ticket.priority <;>
      by_cases ha : old.assigned_user_id = new.ticket.assigned_user_id <;>
      simp [he, hs, hp, ha]
  · simp [he]

/-- C7: a `PUT /api/tickets/:ticketId` that supplies status and priority, on an
existing ticket (whose company and creator exist), with every store call and every send
succeeding, answers 200, stores the three fields, and sends as many mails as there are
fields among status, priority and assigned_user_id whose stored value changed, each to
the ticket's `customer_email`; it sends none when `customer_email` is not set. -/
theorem putTicket_mail_count (ticketId : Nat) (status priority : String)
    (assigned_user_id : Option Nat) (w : World) (old : Ticket) (c : Company) (u : User)
    (hold : findTicket w.tables ticketId = some old)
    (hc : findCompany w.tables old.company_id = some c)
    (hu : findUser w.tables old.user_id = some u) :
    (putTicket {} ticketId status priority assigned_user_id w).2.status = 200 ∧
    findTicket (putTicket {} ticketId status priority assigned_user_id w).1.tables ticketId =
      some (updatedRow old status priority (orNull assigned_user_id)) ∧
    ∃ mails : List Email,
      (putTicket {} ticketId status priority assigned_user_id w).1.outbox =
        w.outbox ++ mails ∧
      (∀ m ∈ mails, some m.recipient = old.customer_email) ∧
      mails.length =
        if truthyStr old.customer_email then
          changedFields old (updatedRow old status priority (orNull assigned_user_id))
        else 0 := by
  obtain ⟨h1, h2, h3⟩ := putTicket_ok ticketId status priority assigned_user_id w old c u
    hold hc hu
  refine ⟨by rw [h1], ?_, _, h3, ?_, ?_⟩
  · rw [h2, findTicket_updateTicket, hold]; rfl
  · exact putMails_recipient ticketId old _
  · exact putMails_length ticketId old _

/-- Witness for C7: ticket 42 of the sample store goes from "Open" to "Resolved" with
priority and assignee unchanged, and exactly one mail leaves. -/
theorem putTicket_mail_count_witness :
    ∃ mails : List Email,
      (putTicket {} 42 "Resolved" "Normal" none demoWorld).1.outbox =
        demoWorld.outbox ++ mails ∧
      (∀ m ∈ mails, some m.recipient = some "bob@acme.test") ∧
      mails.length = 1 :=
  (putTicket_mail_count 42 "Resolved" "Normal" none demoWorld
    { id := 42, company_id := 5, user_id := 3, title := "Printer",
      description := "Broken", customer_email := some "bob@acme.test" }
    { id := 5, name := "Acme", contact_email := some "it@acme.test" }
    { id := 3, username := "tech" } (by decide) (by decide) (by decide)).2.2

/-- When status, priority and assignee all change on a ticket with a customer address,
`putMails` is the status mail, the priority mail and the assignment mail. -/
theorem putMails_all_changed (ticketId : Nat) (old : Ticket) (new : JoinedTicket)
    (he : truthyStr new.ticket.customer_email = true)
    (hs : old.status ≠ new.ticket.status) (hp : old.priority ≠ new.ticket.priority)
    (ha : old.assigned_user_id ≠ new.ticket.assigned_user_id) :
    putMails ticketId old new =
      [{ recipient := new.ticket.customer_email.getD "",
         subject := statusSubject ticketId new.ticket.title,
         html := statusHtml old.status new.ticket.status },
       { recipient := new.ticket.customer_email.getD "",
         subject := prioritySubject ticketId new.ticket.title,
         html := priorityHtml old.priority new.ticket.priority },
       { recipient := new.ticket.customer_email.getD "",
         subject := assignedSubject ticketId new.ticket.title,
         html := assignedHtml (orElseStr new.assigned_user_name "our team") }] := by
  simp [putMails, he, hs, hp, ha]

/-- C8: when a `PUT /api/tickets/:ticketId` changes status, priority and assignee of a
ticket with a customer address (nothing failing), three mails leave: the body of the
status mail is `statusHtml` of old and new status, the body of the priority mail is
`priorityHtml` of old and new priority, the body of the assignment mail is `assignedHtml`
of the resolved username of the new assignee, "our team" when none is resolved.  So two
such runs that agree on the old and new value of one field send the same body for that
field, whatever the other fields, tickets and stores are. -/
theorem putTicket_mail_bodies_independent
    (id1 id2 : Nat) (s1 s2 p1 p2 : String) (a1 a2 : Option Nat) (w1 w2 : World)
    (old1 old2 : Ticket) (c1 c2 : Company) (u1 u2 : User)
    (hold1 : findTicket w1.tables id1 = some old1)
    (hc1 : findCompany w1.tables old1.company_id = some c1)
    (hu1 : findUser w1.tables old1.user_id = some u1)
    (hold2 : findTicket w2.tables id2 = some old2)
    (hc2 : findCompany w2.tables old2.company_id = some c2)
    (hu2 : findUser w2.tables old2.user_id = some u2)
    (he1 : truthyStr old1.customer_email = true)
    (he2 : truthyStr old2.customer_email = true)
    (hs1 : old1.status ≠ s1) (hp1 : old1.priority ≠ p1)
    (ha1 : old1.assigned_user_id ≠ orNull a1)
    (hs2 : old2.status ≠ s2) (hp2 : old2.priority ≠ p2)
    (ha2 : old2.assigned_user_id ≠ orNull a2) :
    ∃ ms1 mp1 ma1 ms2 mp2 ma2 : Email,
      (putTicket {} id1 s1 p1 a1 w1).1.outbox = w1.outbox ++ [ms1, mp1, ma1] ∧
      (putTicket {} id2 s2 p2 a2 w2).1.outbox = w2.outbox ++ [ms2, mp2, ma2] ∧
      ms1.html = statusHtml old1.status s1 ∧
      mp1.html = priorityHtml old1.priority p1 ∧
      ma1.html = assignedHtml (orElseStr (resolvedAssignee w1 a1) "our team") ∧
      (resolvedAssignee w1 a1 = none → ma1.html = assignedHtml "our team") ∧
      (old1.status = old2.status → s1 = s2 → ms1.html = ms2.html) ∧
      (old1.priority = old2.priority → p1 = p2 → mp1.html = mp2.html) ∧
      (resolvedAssignee w1 a1 = resolvedAssignee w2 a2 → ma1.html = ma2.html) := by
  obtain ⟨_, _, h1⟩ := putTicket_ok id1 s1 p1 a1 w1 old1 c1 u1 hold1 hc1 hu1
  obtain ⟨_, _, h2⟩ := putTicket_ok id2 s2 p2 a2 w2 old2 c2 u2 hold2 hc2 hu2
  rw [putMails_all_changed id1 old1 _ he1 hs1 hp1 ha1] at h1
  rw [putMails_all_changed id2 old2 _ he2 hs2 hp2 ha2] at h2
  refine ⟨_, _, _, _, _, _, h1, h2, rfl, rfl, rfl, ?_, ?_, ?_, ?_⟩
  · intro h
    simp only [resolvedAssignee] at h
    simp [reloaded, h, orElseStr, truthyStr]
  · intro h h'
    simp [reloaded, updatedRow, h, h']
  · intro h h'
    simp [reloaded, updatedRow, h, h']
  · intro h
    simp only [resolvedAssignee] at h
    simp [reloaded, h]

/-- Witness for C8: ticket 42 of the sample store, resolved in both runs, with
different new priorities and assignees. -/
theorem putTicket_mail_bodies_independent_witness :
    ∃ ms1 mp1 ma1 ms2 mp2 ma2 : Email,
      (putTicket {} 42 "Resolved" "High" (some 3) demoWorld).1.outbox =
        demoWorld.outbox ++ [ms1, mp1, ma1] ∧
      (putTicket {} 42 "Resolved" "Urgent" (some 1) demoWorld).1.outbox =
        demoWorld.outbox ++ [ms2, mp2, ma2] ∧
      ms1.html = statusHtml "Open" "Resolved" ∧
      mp1.html = priorityHtml "Normal" "High" ∧
      ma1.html = assignedHtml (orElseStr (resolvedAssignee demoWorld (some 3)) "our team") ∧
      (resolvedAssignee demoWorld (some 3) = none → ma1.html = assignedHtml "our team") ∧
      ("Open" = "Open" → "Resolved" = "Resolved" → ms1.html = ms2.html) ∧
      ("Normal" = "Normal" → "High" = "Urgent" → mp1.html = mp2.html) ∧
      (resolvedAssignee demoWorld (some 3) = resolvedAssignee demoWorld (some 1) →
        ma1.html = ma2.html) :=
  putTicket_mail_bodies_independent 42 42 "Resolved" "Resolved" "High" "Urgent" (some 3)
    (some 1) demoWorld demoWorld
    { id := 42, company_id := 5, user_id := 3, title := "Printer",
      description := "Broken", customer_email := some "bob@acme.test" }
    { id := 42, company_id := 5, user_id := 3, title := "Printer",
      description := "Broken", customer_email := some "bob@acme.test" }
    { id := 5, name := "Acme", contact_email := some "it@acme.test" }
    { id := 5, name := "Acme", contact_email := some "it@acme.test" }
    { id := 3, username := "tech" } { id := 3, username := "tech" }
    (by decide) (by decide) (by decide) (by decide) (by decide) (by decide)
    (by decide) (by decide) (by decide) (by decide) (by decide) (by decide) (by decide)
    (by decide)

/-! ## Theorems: subjects and the tag pattern -/

/-- The digit characters of base ten are decimal digits. -/
theorem digitChar_isDigit : ∀ k, k < 10 → (Nat.digitChar k).isDigit = true := by
  decide

/-- The digits `Nat.toDigitsCore` puts in front of `ds` are decimal digits. -/
theorem toDigitsCore_isDigit (fuel : Nat) :
    ∀ (n : Nat) (ds : List Char), (∀ c ∈ ds, c.isDigit = true) →
      ∀ c ∈ Nat.toDigitsCore 10 fuel n ds, c.isDigit = true := by
  induction fuel with
  | zero => intro n ds h; simpa [Nat.toDigitsCore] using h
  | succ fuel ih =>
    intro n ds h
    have hd : ∀ c ∈ Nat.digitChar (n % 10) :: ds, c.isDigit = true := by
      intro c hc
      rcases List.mem_cons.1 hc with rfl | hc
      · exact digitChar_isDigit _ (Nat.mod_lt _ (by decide))
      · exact h c hc
    simp only [Nat.toDigitsCore]
    split_ifs
    · exact hd
    · exact ih _ _ hd

/-- The function `Nat.toDigitsCore` never shortens its accumulator. -/
theorem toDigitsCore_ne_nil (fuel : Nat) :
    ∀ (n : Nat) (ds : List Char), ds ≠ [] → Nat.toDigitsCore 10 fuel n ds ≠ [] := by
  induction fuel with
  | zero => intro n ds h; simpa [Nat.toDigitsCore] using h
  | succ fuel ih =>
    intro n ds _
    simp only [Nat.toDigitsCore]
    split_ifs
    · simp
    · exact ih _ _ (by simp)

/-- The decimal numeral of a number is a non-empty string of decimal digits. -/
theorem repr_digits (n : Nat) :
    (toString n).toList ≠ [] ∧ ∀ c ∈ (toString n).toList, c.isDigit = true := by
  have h : (toString n).toList = Nat.toDigitsCore 10 (n + 1) n [] := rfl
  rw [h]
  constructor
  · simp only [Nat.toDigitsCore]
    split_ifs
    · simp
    · exact toDigitsCore_ne_nil _ _ _ (by simp)
  · exact toDigitsCore_isDigit _ _ _ (by simp)

/-- The value of a base-ten digit character. -/
theorem digitChar_value : ∀ k, k < 10 → (Nat.digitChar k).toNat - 48 = k := by
  decide

/-- With enough fuel, `Nat.toDigitsCore` puts the numeral of `n` in front of `ds`. -/
theorem toDigitsCore_value (fuel : Nat) :
    ∀ (n : Nat) (ds : List Char), n < fuel →
      ∃ pre, Nat.toDigitsCore 10 fuel n ds = pre ++ ds ∧ digitsToNat pre = n := by
  induction fuel with
  | zero => intro n ds h; exact absurd h (Nat.not_lt_zero _)
  | succ fuel ih =>
    intro n ds h
    simp only [Nat.toDigitsCore]
    split_ifs with h0
    · refine ⟨[Nat.digitChar (n % 10)], rfl, ?_⟩
      have := digitChar_value (n % 10) (Nat.mod_lt _ (by decide))
      simp only [digitsToNat, List.foldl, this]
      omega
    · have hlt : n / 10 < fuel := by omega
      obtain ⟨pre, hp, hv⟩ := ih (n / 10) (Nat.digitChar (n % 10) :: ds) hlt
      refine ⟨pre ++ [Nat.digitChar (n % 10)], by simp [hp], ?_⟩
      have := digitChar_value (n % 10) (Nat.mod_lt _ (by decide))
      simp only [digitsToNat, List.foldl_append, List.foldl] at hv ⊢
      rw [hv, this]
      omega

/-- Reading the decimal numeral of `n` back gives `n`. -/
theorem digitsToNat_repr (n : Nat) : digitsToNat (toString n).toList = n := by
  have h : (toString n).toList = Nat.toDigitsCore 10 (n + 1) n [] := rfl
  obtain ⟨pre, hp, hv⟩ := toDigitsCore_value (n + 1) n [] (Nat.lt_succ_self n)
  rw [h, hp, List.append_nil, hv]

/-- The pattern matches at a tag: `[Ticket #`, digits, `]`. -/
theorem matchTagHere_tag (ds rest : List Char) (hne : ds ≠ [])
    (hd : ∀ c ∈ ds, c.isDigit = true) :
    matchTagHere (tagOpen ++ (ds ++ ']' :: rest)) = some ds := by
  have h1 : tagOpen.isPrefixOf (tagOpen ++ (ds ++ ']' :: rest)) = true := by
    simp [tagOpen, List.isPrefixOf]
  have h2 : (tagOpen ++ (ds ++ ']' :: rest)).drop tagOpen.length = ds ++ ']' :: rest := by
    simp
  have h3 : (ds ++ ']' :: rest).takeWhile Char.isDigit = ds := by
    rw [List.takeWhile_append_of_pos hd]
    simp [List.takeWhile_cons, show Char.isDigit ']' = false by decide]
  have h4 : (ds ++ ']' :: rest).dropWhile Char.isDigit = ']' :: rest := by
    rw [List.dropWhile_append_of_pos hd]
    simp [List.dropWhile_cons, show Char.isDigit ']' = false by decide]
  simp only [matchTagHere, h1, h2, h3, h4, if_true]
  cases ds with
  | nil => exact absurd rfl hne
  | cons d ds => simp

/-- The leftmost match is found behind any number of "Re: " prefixes. -/
theorem matchTag_re (s : List Char) :
    matchTag ('R' :: 'e' :: ':' :: ' ' :: s) = matchTag s := by
  simp [matchTag, matchTagHere, tagOpen, List.isPrefixOf]

/-- A match at the head of the string is the leftmost match. -/
theorem matchTag_here (s ds : List Char) (h : matchTagHere s = some ds) :
    matchTag s = some ds := by
  cases s with
  | nil => simp [matchTagHere, tagOpen, List.isPrefixOf] at h
  | cons c cs => simp [matchTag, h]

/-- A subject that starts, after "Re: " prefixes, with the tag of ticket `n`. -/
theorem matchTag_rePrefixed (k n : Nat) (s : String) (rest : List Char)
    (hs : s.toList = tagOpen ++ ((toString n).toList ++ ']' :: rest) ∨
      s.toList = 'R' :: 'e' :: ':' :: ' ' ::
        (tagOpen ++ ((toString n).toList ++ ']' :: rest))) :
    matchTag (rePrefixed k s).toList = some (toString n).toList := by
  have h0 := matchTag_here _ _
    (matchTagHere_tag (toString n).toList rest (repr_digits n).1 (repr_digits n).2)
  induction k with
  | zero =>
    rcases hs with hs | hs
    · simp only [rePrefixed, hs]
      exact h0
    · simp only [rePrefixed, hs, matchTag_re]
      exact h0
  | succ k ih =>
    have : (rePrefixed (k + 1) s).toList =
        'R' :: 'e' :: ':' :: ' ' :: (rePrefixed k s).toList := rfl
    rw [this, matchTag_re, ih]

/-- C9: the subject pattern of the webhook, applied to any subject the server writes for
ticket `n` (creation, reply, status, priority and assignment mail), with any title and
behind any number of "Re: " prefixes, captures exactly the decimal digits of `n`; a tag
inside the title does not matter, since the tag of the server comes first; and the
captured digits denote `n`. -/
theorem subject_tag_roundtrip (n k : Nat) (title : String) :
    matchTag (rePrefixed k (receivedSubject n title)).toList = some (toString n).toList ∧
    matchTag (rePrefixed k (replySubject n title)).toList = some (toString n).toList ∧
    matchTag (rePrefixed k (statusSubject n title)).toList = some (toString n).toList ∧
    matchTag (rePrefixed k (prioritySubject n title)).toList = some (toString n).toList ∧
    matchTag (rePrefixed k (assignedSubject n title)).toList = some (toString n).toList ∧
    digitsToNat (toString n).toList = n := by
  refine ⟨?_, ?_, ?_, ?_, ?_, digitsToNat_repr n⟩
  · exact matchTag_rePrefixed k n _
      (" Your support request has been received: ".toList ++ title.toList)
      (Or.inl (by simp [receivedSubject, String.toList, tagOpen]))
  · exact matchTag_rePrefixed k n _ (' ' :: title.toList)
      (Or.inr (by simp [replySubject, String.toList, tagOpen]))
  · exact matchTag_rePrefixed k n _ (" Status Updated: ".toList ++ title.toList)
      (Or.inr (by simp [statusSubject, String.toList, tagOpen]))
  · exact matchTag_rePrefixed k n _ (" Priority Updated: ".toList ++ title.toList)
      (Or.inr (by simp [prioritySubject, String.toList, tagOpen]))
  · exact matchTag_rePrefixed k n _
      (" Your Ticket Has Been Assigned: ".toList ++ title.toList)
      (Or.inr (by simp [assignedSubject, String.toList, tagOpen]))

/-- The round trip on a reply subject whose title carries a tag of its own. -/
theorem subject_tag_example :
    matchTag (rePrefixed 2 (replySubject 42 "see [Ticket #99]")).toList = some ['4', '2'] := by
  decide

/-! ## Theorems: the email webhook -/

/-- C10 (counterexample): the subject of `twoTagRequest` contains the tag `[Ticket #42]`
and ticket 42 exists, the store works, yet the update row the webhook adds belongs to
ticket 7 and is authored by the creator of ticket 7, and it is ticket 7 whose
`updated_at` is bumped: the pattern takes the first tag of the subject. -/
theorem emailWebhook_second_tag_ignored :
    twoTagRequest.subject =
      some ("[Ticket #7] Fwd: " ++ ("[Ticket #" ++ toString 42 ++ "]") ++ " Printer") ∧
    (findTicket demoWorld.tables 42).map Ticket.user_id = some 3 ∧
    (emailWebhook {} twoTagRequest demoWorld).2.status = 200 ∧
    (emailWebhook {} twoTagRequest demoWorld).1.tables.ticket_updates =
      [{ id := 1, ticket_id := 7, user_id := 2, update_text := "Still broken",
         created_at := 100 }] ∧
    ¬ (∃ u ∈ (emailWebhook {} twoTagRequest demoWorld).1.tables.ticket_updates,
        u.ticket_id = 42) ∧
    findTicket (emailWebhook {} twoTagRequest demoWorld).1.tables 42 =
      findTicket demoWorld.tables 42 := by
  decide

/-- C10 (amended): a webhook request with non-empty from, subject and body whose
subject's first tag `[Ticket #<digits>]` denotes an existing ticket N, with the store
calls succeeding, is answered 200; exactly one `ticket_updates` row is added, with
ticket_id N, the user_id of ticket N and the mail body as text; the `tickets` table
keeps its rows, the only change being `updated_at` of ticket N; no other table changes
and no mail is sent. -/
theorem emailWebhook_reply_appends (f : WebhookFaults) (req : WebhookRequest) (w : World)
    (digits : List Char) (t : Ticket)
    (hfrom : truthyStr req.from_ = true) (hsubj : truthyStr req.subject = true)
    (hbody : webhookText req ≠ "")
    (hm : matchTag (req.subject.getD "").toList = some digits)
    (ht : findTicket w.tables (digitsToNat digits) = some t)
    (h1 : f.selectTicket = false) (h2 : f.insertUpdate = false)
    (h3 : f.updateTicket = false) :
    (emailWebhook f req w).2 =
      { status := 200, body := Body.text "Email processed successfully." } ∧
    (emailWebhook f req w).1.tables.ticket_updates =
      w.tables.ticket_updates ++
        [{ id := w.nextUpdateId, ticket_id := digitsToNat digits, user_id := t.user_id,
           update_text := webhookText req, created_at := w.now }] ∧
    (emailWebhook f req w).1.tables.tickets =
      w.tables.tickets.map (fun r =>
        if r.id == digitsToNat digits then { r with updated_at := w.now } else r) ∧
    (emailWebhook f req w).1.tables.users = w.tables.users ∧
    (emailWebhook f req w).1.tables.companies = w.tables.companies ∧
    (emailWebhook f req w).1.tables.ticket_assets = w.tables.ticket_assets ∧
    (emailWebhook f req w).1.outbox = w.outbox := by
  have hm2 : matchTag (req.subject.getD "").data = some digits := hm
  simp [emailWebhook, hfrom, hsubj, hbody, hm2, ht, h1, h2, h3, insertUpdate, touchTicket,
    connEnd, connect, World.log]

/-- Witness for C10 (amended): a reply to ticket 42 of the sample store. -/
theorem emailWebhook_reply_appends_witness :
    (emailWebhook {} replyRequest demoWorld).1.tables.ticket_updates =
      [{ id := 1, ticket_id := 42, user_id := 3, update_text := "Still broken",
         created_at := 100 }] :=
  (emailWebhook_reply_appends {} replyRequest demoWorld ['4', '2']
    { id := 42, company_id := 5, user_id := 3, title := "Printer",
      description := "Broken", customer_email := some "bob@acme.test" }
    (by decide) (by decide) (by decide) (by decide) (by decide) rfl rfl rfl).2.1

/-- A match of the pattern at the head of `s` has the shape of a tag. -/
theorem matchTagHere_some (s ds : List Char) (h : matchTagHere s = some ds) :
    ds ≠ [] ∧ (∀ c ∈ ds, c.isDigit = true) ∧
      ∃ post, s = tagOpen ++ (ds ++ ']' :: post) := by
  unfold matchTagHere at h
  by_cases hp : tagOpen.isPrefixOf s = true
  · simp only [hp, if_true] at h
    obtain ⟨rest, hrest⟩ := List.isPrefixOf_iff_prefix.1 hp
    have hdrop : s.drop tagOpen.length = rest := by rw [← hrest]; simp
    rw [hdrop] at h
    by_cases hq : (!(rest.takeWhile Char.isDigit).isEmpty &&
        (rest.dropWhile Char.isDigit).head? == some ']') = true
    · simp only [hq, if_true, Option.some.injEq] at h
      simp only [Bool.and_eq_true, Bool.not_eq_true', beq_iff_eq] at hq
      obtain ⟨hne, hhead⟩ := hq
      subst h
      refine ⟨?_, ?_, ?_⟩
      · intro h0; simp [h0] at hne
      · intro c hc; exact List.mem_takeWhile_imp hc
      · cases hd : List.dropWhile Char.isDigit rest with
        | nil => simp [hd] at hhead
        | cons x post =>
          simp only [hd, List.head?_cons, Option.some.injEq] at hhead
          refine ⟨post, ?_⟩
          rw [← hrest, ← hhead, ← hd, List.takeWhile_append_dropWhile]
    · simp [hq] at h
  · simp [hp] at h

/-- A match of the pattern is a tag contained in the string. -/
theorem matchTag_some (s : List Char) :
    ∀ ds, matchTag s = some ds → containsTag s ds := by
  induction s with
  | nil => intro ds h; simp [matchTag] at h
  | cons c cs ih =>
    intro ds h
    simp only [matchTag] at h
    cases hh : matchTagHere (c :: cs) with
    | some d =>
      simp only [hh, Option.some.injEq] at h
      subst h
      obtain ⟨h1, h2, post, h3⟩ := matchTagHere_some _ _ hh
      exact ⟨h1, h2, [], post, by simpa using h3⟩
    | none =>
      simp only [hh] at h
      obtain ⟨h1, h2, pre, post, h3⟩ := ih ds h
      exact ⟨h1, h2, c :: pre, post, by simp [h3]⟩

/-- A string that contains a tag is matched by the pattern. -/
theorem matchTag_of_containsTag (s ds : List Char) (h : containsTag s ds) :
    matchTag s ≠ none := by
  obtain ⟨h1, h2, pre, post, h3⟩ := h
  subst h3
  induction pre with
  | nil =>
    have := matchTag_here _ _ (matchTagHere_tag ds post h1 h2)
    simp [this]
  | cons c pre ih =>
    simp only [List.cons_append, matchTag]
    cases matchTagHere (c :: (pre ++ (tagOpen ++ (ds ++ ']' :: post)))) with
    | some d => simp
    | none => simpa using ih

/-- The pattern does not match exactly when the string contains no tag. -/
theorem matchTag_eq_none_iff (s : List Char) :
    matchTag s = none ↔ ∀ ds, ¬ containsTag s ds := by
  constructor
  · intro h ds hc
    exact matchTag_of_containsTag s ds hc h
  · intro h
    cases hm : matchTag s with
    | none => rfl
    | some ds => exact absurd (matchTag_some s ds hm) (h ds)

/-- C11 (counterexample): the subject of `staleTagRequest` contains the tag
`[Ticket #99]` and no ticket 99 exists, yet the webhook answers 200 and adds an update
row (to ticket 7, whose tag comes first) instead of answering 404 and creating nothing. -/
theorem emailWebhook_stale_tag_after_live_tag :
    containsTag (staleTagRequest.subject.getD "").toList ['9', '9'] ∧
    digitsToNat ['9', '9'] = 99 ∧
    findTicket demoWorld.tables 99 = none ∧
    (emailWebhook {} staleTagRequest demoWorld).2 =
      { status := 200, body := Body.text "Email processed successfully." } ∧
    (emailWebhook {} staleTagRequest demoWorld).1.tables.ticket_updates =
      [{ id := 1, ticket_id := 7, user_id := 2, update_text := "Any news?",
         created_at := 100 }] :=
  ⟨⟨by decide, by decide, "[Ticket #7] see ".toList, [], by decide⟩, by decide, by decide,
    by decide, by decide⟩

/-- C11 (amended): a webhook request with non-empty from, subject and body whose
subject's first tag `[Ticket #<digits>]` names a ticket id that does not exist creates
nothing: no table changes and no mail is sent, whatever the store does; and when the
lookup of the ticket does not fail the response is 404. -/
theorem emailWebhook_unknown_ticket (f : WebhookFaults) (req : WebhookRequest) (w : World)
    (digits : List Char)
    (hfrom : truthyStr req.from_ = true) (hsubj : truthyStr req.subject = true)
    (hbody : webhookText req ≠ "")
    (hm : matchTag (req.subject.getD "").toList = some digits)
    (hn : findTicket w.tables (digitsToNat digits) = none) :
    (emailWebhook f req w).1.tables = w.tables ∧
    (emailWebhook f req w).1.outbox = w.outbox ∧
    (f.selectTicket = false →
      (emailWebhook f req w).2 = { status := 404, body := Body.text "Ticket not found." }) := by
  have hm2 : matchTag (req.subject.getD "").data = some digits := hm
  cases h1 : f.selectTicket <;>
    simp [emailWebhook, hfrom, hsubj, hbody, hm2, hn, h1, webhookFailed, connEnd, connect,
      World.log]

/-- Witness for C11 (amended): a reply to a ticket 99 that the sample store does not
have. -/
theorem emailWebhook_unknown_ticket_witness :
    (emailWebhook {} { staleTagRequest with subject := some "Re: [Ticket #99] Old" }
      demoWorld).1.tables = demoWorld.tables ∧
    (emailWebhook {} { staleTagRequest with subject := some "Re: [Ticket #99] Old" }
      demoWorld).2 = { status := 404, body := Body.text "Ticket not found." } :=
  have h := emailWebhook_unknown_ticket {}
    { staleTagRequest with subject := some "Re: [Ticket #99] Old" } demoWorld ['9', '9']
    (by decide) (by decide) (by decide) (by decide) (by decide)
  ⟨h.1, h.2.2 rfl⟩

/-- The company the webhook attributes a new ticket to: one whose contact address is
the sender, and company 1 when there is none. -/
theorem companyOfSender_spec (t : Tables) (from_ : String) :
    (∃ c ∈ t.companies, c.contact_email = some from_ ∧ companyOfSender t from_ = c.id) ∨
    ((∀ c ∈ t.companies, c.contact_email ≠ some from_) ∧ companyOfSender t from_ = 1) := by
  unfold companyOfSender
  cases h : t.companies.find? (fun c => c.contact_email == some from_) with
  | some c =>
    left
    exact ⟨c, List.mem_of_find?_eq_some h, by simpa using List.find?_some h, rfl⟩
  | none =>
    right
    refine ⟨?_, rfl⟩
    intro c hc
    have := List.find?_eq_none.1 h c hc
    simpa using this

/-- C12: a webhook request with non-empty from, subject and body whose subject contains
no tag `[Ticket #<digits>]`, with the store calls succeeding, is answered 200 and adds
exactly one ticket row and no update row; the new ticket belongs to a company whose
contact address is the sender (company 1 when there is none), is created by user 2, has
the subject as title, the body as description, priority "Normal", status "Open" and the
sender as customer address. -/
theorem emailWebhook_new_ticket (f : WebhookFaults) (req : WebhookRequest) (w : World)
    (hfrom : truthyStr req.from_ = true) (hsubj : truthyStr req.subject = true)
    (hbody : webhookText req ≠ "")
    (hno : ∀ ds, ¬ containsTag (req.subject.getD "").toList ds)
    (h1 : f.selectCompany = false) (h2 : f.insertTicket = false) :
    (emailWebhook f req w).2 =
      { status := 200, body := Body.text "Email processed successfully." } ∧
    (emailWebhook f req w).1.tables.tickets =
      w.tables.tickets ++
        [{ id := w.nextTicketId,
           company_id := companyOfSender w.tables (req.from_.getD ""),
           user_id := 2, assigned_user_id := none, title := req.subject.getD "",
           description := webhookText req, priority := "Normal", status := "Open",
           customer_email := req.from_, created_at := w.now, updated_at := w.now }] ∧
    (emailWebhook f req w).1.tables.ticket_updates = w.tables.ticket_updates ∧
    ((∃ c ∈ w.tables.companies, c.contact_email = req.from_ ∧
        companyOfSender w.tables (req.from_.getD "") = c.id) ∨
      ((∀ c ∈ w.tables.companies, c.contact_email ≠ req.from_) ∧
        companyOfSender w.tables (req.from_.getD "") = 1)) := by
  have hm : matchTag (req.subject.getD "").data = none :=
    (matchTag_eq_none_iff _).2 hno
  obtain ⟨a, ha⟩ : ∃ a, req.from_ = some a := by
    cases hx : req.from_ with
    | none => simp [hx, truthyStr] at hfrom
    | some a => exact ⟨a, rfl⟩
  refine ⟨?_, ?_, ?_, ?_⟩
  · simp [emailWebhook, hfrom, hsubj, hbody, hm, h1, h2, insertTicket, connEnd, connect,
      World.log]
  · have hfrom2 : truthyStr (some a) = true := ha ▸ hfrom
    simp [emailWebhook, hfrom2, hsubj, hbody, hm, h1, h2, insertTicket, connEnd, connect,
      World.log, ha]
  · simp [emailWebhook, hfrom, hsubj, hbody, hm, h1, h2, insertTicket, connEnd, connect,
      World.log]
  · rw [ha]
    exact companyOfSender_spec w.tables a

/-- Witness for C12: a first mail from the contact address of company 5. -/
theorem emailWebhook_new_ticket_witness :
    (emailWebhook {} freshRequest demoWorld).1.tables.tickets =
      demoWorld.tables.tickets ++
        [{ id := 43, company_id := 5, user_id := 2, title := "Scanner offline",
           description := "It stopped this morning.", priority := "Normal",
           status := "Open", customer_email := some "it@acme.test", created_at := 100,
           updated_at := 100 }] :=
  (emailWebhook_new_ticket {} freshRequest demoWorld (by decide) (by decide) (by decide)
    ((matchTag_eq_none_iff _).1 (by decide)) rfl rfl).2.1

/-- C13: the webhook reads the mail body from `text` and, when `text` is missing or
empty, from `plain`; it answers 400 exactly when from is missing or empty, or subject is
missing or empty, or both text and plain are missing or empty; and a request answered
400 opens no connection and changes nothing. -/
theorem emailWebhook_validation (f : WebhookFaults) (req : WebhookRequest) (w : World) :
    webhookText req =
      (if truthyStr req.text then req.text.getD ""
       else if truthyStr req.plain then req.plain.getD "" else "") ∧
    ((emailWebhook f req w).2.status = 400 ↔
      (truthyStr req.from_ = false ∨ truthyStr req.subject = false ∨
        (truthyStr req.text = false ∧ truthyStr req.plain = false))) ∧
    ((emailWebhook f req w).2.status = 400 → (emailWebhook f req w).1 = w) := by
  have htext : webhookText req = "" ↔
      (truthyStr req.text = false ∧ truthyStr req.plain = false) := by
    unfold webhookText orElseStr
    cases ht : req.text with
    | none => cases hp : req.plain <;> simp [truthyStr]
    | some t =>
      cases hp : req.plain with
      | none => simp [truthyStr]
      | some p =>
        simp only [truthyStr, Option.getD_some]
        split_ifs <;> simp_all
  refine ⟨?_, ?_, ?_⟩
  · unfold webhookText orElseStr
    cases ht : req.text <;> cases hp : req.plain <;> simp [truthyStr]
  · by_cases hv : (!truthyStr req.from_ || !truthyStr req.subject ||
        webhookText req == "") = true
    · have hv2 := hv
      simp only [Bool.or_eq_true, Bool.not_eq_true', beq_iff_eq, htext] at hv2
      simp only [emailWebhook, hv, if_true, true_iff]
      tauto
    · have hv2 := hv
      simp only [Bool.or_eq_true, Bool.not_eq_true', beq_iff_eq, htext] at hv2
      have hrhs : ¬ (truthyStr req.from_ = false ∨ truthyStr req.subject = false ∨
          (truthyStr req.text = false ∧ truthyStr req.plain = false)) := by tauto
      simp only [hrhs, iff_false]
      cases h1 : f.selectTicket <;> cases h2 : f.insertUpdate <;>
        cases h3 : f.updateTicket <;> cases h4 : f.selectCompany <;>
        cases h5 : f.insertTicket <;>
        simp only [emailWebhook, hv, h1, h2, h3, h4, h5, Bool.false_eq_true, if_false,
          if_true] <;>
        (repeat' split) <;>
        simp [webhookFailed]
  · by_cases hv : (!truthyStr req.from_ || !truthyStr req.subject ||
        webhookText req == "") = true
    · simp [emailWebhook, hv]
    · cases h1 : f.selectTicket <;> cases h2 : f.insertUpdate <;>
        cases h3 : f.updateTicket <;> cases h4 : f.selectCompany <;>
        cases h5 : f.insertTicket <;>
        simp only [emailWebhook, hv, h1, h2, h3, h4, h5, Bool.false_eq_true, if_false,
          if_true] <;>
        (repeat' split) <;>
        simp [webhookFailed]

/-- Witness for C13: a payload without `from` is answered 400 and changes nothing. -/
theorem emailWebhook_validation_witness :
    (emailWebhook {} { subject := some "Hi", plain := some "text" } demoWorld).1 =
      demoWorld :=
  (emailWebhook_validation {} { subject := some "Hi", plain := some "text" }
    demoWorld).2.2 (by decide)

/-- C14: `POST /api/tickets/:ticketId/updates` with an empty or absent `update_text`
answers 400 and changes nothing.  With a non-empty text and the transaction succeeding,
exactly one update row is added (this ticket id, the caller's id, the given text), every
ticket row with this id gets status "In Progress" and the current time as `updated_at`,
so an existing ticket reads back as "In Progress" whatever its status was.  When the
status update fails after the insert, the handler rolls back: no table has changed. -/
theorem postTicketUpdate_appends (f : UpdateFaults) (user_id ticketId : Nat)
    (update_text : Option String) (w : World) :
    (truthyStr update_text = false →
      postTicketUpdate f user_id ticketId update_text w =
        (w, { status := 400, body := Body.message "Update text cannot be empty." })) ∧
    (truthyStr update_text = true → f.beginTransaction = false →
      f.insertUpdate = false → f.updateTicket = false → f.commit = false →
      (postTicketUpdate f user_id ticketId update_text w).1.tables.ticket_updates =
        w.tables.ticket_updates ++
          [{ id := w.nextUpdateId, ticket_id := ticketId, user_id := user_id,
             update_text := update_text.getD "", created_at := w.now }] ∧
      (postTicketUpdate f user_id ticketId update_text w).1.tables.tickets =
        w.tables.tickets.map (fun r =>
          if r.id == ticketId then
            { r with updated_at := w.now, status := "In Progress" }
          else r) ∧
      (∀ t, findTicket w.tables ticketId = some t →
        findTicket (postTicketUpdate f user_id ticketId update_text w).1.tables ticketId =
          some { t with updated_at := w.now, status := "In Progress" })) ∧
    (truthyStr update_text = true → f.beginTransaction = false →
      f.insertUpdate = false → f.updateTicket = true →
      (postTicketUpdate f user_id ticketId update_text w).1.tables = w.tables ∧
      (postTicketUpdate f user_id ticketId update_text w).2.status = 500) := by
  refine ⟨?_, ?_, ?_⟩
  · intro hv
    simp [postTicketUpdate, hv]
  · intro hv hb hi hu hm
    have htabs : (postTicketUpdate f user_id ticketId update_text w).1.tables =
        (setStatusAndTouch (insertUpdate (beginTransaction (connect w)) ticketId user_id
          (update_text.getD "")) "In Progress" ticketId).tables := by
      cases hr : f.readBack <;> cases hq : f.selectTicket <;> cases hs : f.sendMail <;>
        simp only [postTicketUpdate, hv, hb, hi, hu, hm, hr, hq, hs, Bool.false_eq_true,
          if_false, if_true, Bool.not_true] <;>
        (repeat' split) <;>
        simp [updateFailed, connect, beginTransaction, insertUpdate,
          setStatusAndTouch, commit, rollback, connEnd, bounce, deliver, World.log]
    rw [htabs]
    refine ⟨by simp [setStatusAndTouch, insertUpdate, beginTransaction, connect, World.log],
      by simp [setStatusAndTouch, insertUpdate, beginTransaction, connect, World.log], ?_⟩
    intro t ht
    simp only [findTicket, setStatusAndTouch, insertUpdate, beginTransaction, connect,
      World.log]
    rw [find_map_of_preserved]
    · have ht2 : List.find? (fun r => r.id == ticketId) w.tables.tickets = some t := ht
      have hid := List.find?_some ht2
      simp only [ht2, Option.map_some', hid, if_true]
    · intro x
      by_cases h : (x.id == ticketId) = true <;> simp [h]
  · intro hv hb hi hu
    simp [postTicketUpdate, hv, hb, hi, hu, updateFailed, connect, beginTransaction,
      insertUpdate, rollback, connEnd, World.log]

/-- Witness for C14: a reply to ticket 42 of the sample store whose mail cannot be
sent. -/
theorem postTicketUpdate_appends_witness :
    findTicket (postTicketUpdate { sendMail := true } 3 42 (some "On it")
        demoWorld).1.tables 42 =
      some { id := 42, company_id := 5, user_id := 3, title := "Printer",
             description := "Broken", customer_email := some "bob@acme.test",
             updated_at := 100, status := "In Progress" } :=
  (postTicketUpdate_appends { sendMail := true } 3 42 (some "On it") demoWorld).2.1
    (by decide) rfl rfl rfl rfl |>.2.2
      { id := 42, company_id := 5, user_id := 3, title := "Printer",
        description := "Broken", customer_email := some "bob@acme.test" } (by decide)

/-! ## Theorems: the guards -/

/-- A header without a space has one part only. -/
theorem splitSpaces_no_space (l : List Char) (h : ' ' ∉ l) : splitSpaces l = [l] := by
  induction l with
  | nil => rfl
  | cons c cs ih =>
    have hc : c ≠ ' ' := fun e => h (by simp [e])
    have hcs : ' ' ∉ cs := fun e => h (List.mem_cons_of_mem _ e)
    simp [splitSpaces, hc, ih hcs]

/-- The three outcomes of `authenticateToken`. -/
theorem authenticateToken_cases (c : Crypto) (authorization : Option String) :
    authenticateToken c authorization =
        Guard.respond { status := 401, body := Body.text "Unauthorized" } ∨
      authenticateToken c authorization =
        Guard.respond { status := 403, body := Body.text "Forbidden" } ∨
      ∃ u, authenticateToken c authorization = Guard.next (some u) := by
  cases hb : bearerToken authorization with
  | none => simp [authenticateToken, hb]
  | some t => cases hv : c.verify t <;> simp [authenticateToken, hb, hv]

/-- C15 (counterexample): the header `Authorization: Bearer` is present and carries no
token that verifies, and the guard answers 401, not 403. -/
theorem authenticateToken_header_without_token :
    authenticateToken demoCrypto (some "Bearer") =
      Guard.respond { status := 401, body := Body.text "Unauthorized" } ∧
    serve demoCrypto {} Route.getUsers { authorization := some "Bearer" } demoWorld =
      (demoWorld, { status := 401, body := Body.text "Unauthorized" }) := by
  decide

/-- C15 (amended): `authenticateToken` has exactly three outcomes.  It answers 401
exactly when no token can be read from the request: there is no Authorization header, or
the header is not empty and has no second space-separated part.  It answers 403 exactly
when a token is read and does not verify.  It calls the next handler, with `req.user` set
to the decoded payload, exactly when the token verifies.  When it answers, the route
handler does not run: the world is unchanged. -/
theorem authenticateToken_outcomes (c : Crypto) (f : Faults) (route : Route)
    (req : Request) (w : World) :
    (authenticateToken c req.authorization =
        Guard.respond { status := 401, body := Body.text "Unauthorized" } ∨
      authenticateToken c req.authorization =
        Guard.respond { status := 403, body := Body.text "Forbidden" } ∨
      ∃ u, authenticateToken c req.authorization = Guard.next (some u)) ∧
    (authenticateToken c req.authorization =
        Guard.respond { status := 401, body := Body.text "Unauthorized" } ↔
      bearerToken req.authorization = none) ∧
    (authenticateToken c req.authorization =
        Guard.respond { status := 403, body := Body.text "Forbidden" } ↔
      ∃ token, bearerToken req.authorization = some token ∧ c.verify token = none) ∧
    (∀ u, authenticateToken c req.authorization = Guard.next (some u) ↔
      ∃ token, bearerToken req.authorization = some token ∧ c.verify token = some u) ∧
    bearerToken none = none ∧
    (∀ h : String, h ≠ "" → ' ' ∉ h.toList → bearerToken (some h) = none) ∧
    (∀ r, Middleware.authenticateToken ∈ middleware route →
      authenticateToken c req.authorization = Guard.respond r →
      serve c f route req w = (w, r)) := by
  refine ⟨?_, ?_, ?_, ?_, rfl, ?_, ?_⟩
  · cases hb : bearerToken req.authorization with
    | none => simp [authenticateToken, hb]
    | some t => cases hv : c.verify t <;> simp [authenticateToken, hb, hv]
  · cases hb : bearerToken req.authorization with
    | none => simp [authenticateToken, hb]
    | some t => cases hv : c.verify t <;> simp [authenticateToken, hb, hv]
  · cases hb : bearerToken req.authorization with
    | none => simp [authenticateToken, hb]
    | some t => cases hv : c.verify t <;> simp [authenticateToken, hb, hv]
  · intro u
    cases hb : bearerToken req.authorization with
    | none => simp [authenticateToken, hb]
    | some t => cases hv : c.verify t <;> simp [authenticateToken, hb, hv]
  · intro h hne hsp
    have hs : splitSpaces h.data = [h.data] := splitSpaces_no_space _ hsp
    simp [bearerToken, hne, hs]
  · intro r hmem hr
    cases route <;> simp [middleware] at hmem <;> simp [serve, middleware, runGuards, hr]

/-- Witness for C15 (amended): a request to `GET /api/users` with a token that does not
verify is answered 403 by the guard, and nothing else happens. -/
theorem authenticateToken_outcomes_witness :
    serve demoCrypto {} Route.getUsers { authorization := some "Bearer forged" }
      demoWorld = (demoWorld, { status := 403, body := Body.text "Forbidden" }) :=
  (authenticateToken_outcomes demoCrypto {} Route.getUsers
    { authorization := some "Bearer forged" } demoWorld).2.2.2.2.2.2
    { status := 403, body := Body.text "Forbidden" } (by decide) (by decide)

/-- C16: the routes registered with `isAdmin` are the nine admin-gated routes, and each
of them runs `authenticateToken` first, so `isAdmin` always finds `req.user` defined.
On such a route the handler runs only for a verified token whose decoded role is
"admin"; a verified token with any other role is answered 403 "Admin access required"
and the world (every table, the outbox) is unchanged; otherwise the guard has answered
401 or 403 and the world is unchanged as well. -/
theorem admin_routes_gated (c : Crypto) (f : Faults) (route : Route) (req : Request)
    (w : World) :
    (Middleware.isAdmin ∈ middleware route ↔
      route ∈ [Route.postUsers, Route.getUsers, Route.deleteUser, Route.putCompany,
        Route.deleteCompany, Route.putAsset, Route.deleteAsset, Route.putTicket,
        Route.deleteTicket]) ∧
    (Middleware.isAdmin ∈ middleware route →
      middleware route = [Middleware.authenticateToken, Middleware.isAdmin] ∧
      (∀ u, authenticateToken c req.authorization = Guard.next (some u) →
        u.role ≠ "admin" →
        serve c f route req w =
          (w, { status := 403, body := Body.message "Admin access required" })) ∧
      ((∃ u, authenticateToken c req.authorization = Guard.next (some u) ∧
          u.role = "admin" ∧
          serve c f route req w = handle c f route (some u) req w) ∨
        (∃ r, serve c f route req w = (w, r) ∧ (r.status = 401 ∨ r.status = 403)))) := by
  constructor
  · cases route <;> simp [middleware]
  · intro hmem
    have hmw : middleware route = [Middleware.authenticateToken, Middleware.isAdmin] := by
      cases route <;> simp [middleware] at hmem ⊢
    refine ⟨hmw, ?_, ?_⟩
    · intro u hu hrole
      simp [serve, hmw, runGuards, hu, isAdmin, hrole]
    · obtain h | h | ⟨u, h⟩ := authenticateToken_cases c req.authorization
      · right
        exact ⟨{ status := 401, body := Body.text "Unauthorized" },
          by simp [serve, hmw, runGuards, h], Or.inl rfl⟩
      · right
        exact ⟨{ status := 403, body := Body.text "Forbidden" },
          by simp [serve, hmw, runGuards, h], Or.inr rfl⟩
      · by_cases hrole : u.role = "admin"
        · left
          exact ⟨u, h, hrole, by simp [serve, hmw, runGuards, h, isAdmin, hrole]⟩
        · right
          exact ⟨{ status := 403, body := Body.message "Admin access required" },
            by simp [serve, hmw, runGuards, h, isAdmin, hrole], Or.inr rfl⟩

/-- Witness for C16: user "tech" (role "user") asks to delete ticket 42. -/
theorem admin_routes_gated_witness :
    serve demoCrypto {} Route.deleteTicket
      { authorization := some "Bearer token:tech", id := 42 } demoWorld =
      (demoWorld, { status := 403, body := Body.message "Admin access required" }) :=
  ((admin_routes_gated demoCrypto {} Route.deleteTicket
    { authorization := some "Bearer token:tech", id := 42 } demoWorld).2
    (by decide)).2.1 { id := 3, username := "tech", role := "user" } (by decide)
    (by decide)

/-! ## Theorems: users, connections, conflicts -/

/-- C17: `DELETE /api/users/:userId` from an authenticated admin.  When the id in the
path is the caller's own id the response is 400 and nothing changes (no connection is
opened, no statement runs).  For any other id, with the store working, the response is
204 and afterwards no user row has that id, the other rows being kept. -/
theorem deleteUser_self_and_other (c : Crypto) (f : Faults) (req : Request) (w : World)
    (u : Identity)
    (hu : authenticateToken c req.authorization = Guard.next (some u))
    (hadmin : u.role = "admin") :
    (u.id = req.id →
      serve c f Route.deleteUser req w =
        (w, { status := 400,
              body := Body.message "Cannot delete the currently logged-in user." })) ∧
    (u.id ≠ req.id → f.simple.connect = false → f.simple.first = none →
      (serve c f Route.deleteUser req w).2 = { status := 204, body := Body.empty } ∧
      (∀ x ∈ (serve c f Route.deleteUser req w).1.tables.users, x.id ≠ req.id) ∧
      (serve c f Route.deleteUser req w).1.tables.users =
        w.tables.users.filter (fun x => !(x.id == req.id))) := by
  have hs : serve c f Route.deleteUser req w = deleteUser f.simple u req.id w := by
    simp [serve, middleware, runGuards, hu, isAdmin, hadmin, handle]
  rw [hs]
  constructor
  · intro h
    simp [deleteUser, h]
  · intro h hc hf
    simp [deleteUser, h, hc, hf, connEnd, connect, World.log]

/-- Witness for C17: the admin of the sample store (id 1) asks to delete user 1, and
then user 3. -/
theorem deleteUser_self_and_other_witness :
    serve demoCrypto {} Route.deleteUser
        { authorization := some "Bearer token:admin", id := 1 } demoWorld =
      (demoWorld, { status := 400,
                    body := Body.message "Cannot delete the currently logged-in user." }) ∧
    (serve demoCrypto {} Route.deleteUser
        { authorization := some "Bearer token:admin", id := 3 } demoWorld).2 =
      { status := 204, body := Body.empty } :=
  ⟨(deleteUser_self_and_other demoCrypto {}
      { authorization := some "Bearer token:admin", id := 1 } demoWorld
      { id := 1, username := "admin", role := "admin" } (by decide) rfl).1 rfl,
   ((deleteUser_self_and_other demoCrypto {}
      { authorization := some "Bearer token:admin", id := 3 } demoWorld
      { id := 1, username := "admin", role := "admin" } (by decide) rfl).2
      (by decide) rfl rfl).1⟩

/-- C18 (defect): `GET /api/tickets/999` for a ticket that does not exist answers 404
by a `return` inside the `try` block, past which nothing closes the connection that was
opened before it; and `GET /api/users` whose query throws answers 500 from a `catch`
block that does not close the connection either.  In both cases one connection stays
open when the handler finishes. -/
theorem getTicket_not_found_leaves_connection_open :
    (serve demoCrypto {} Route.getTicket
      { authorization := some "Bearer token:tech", id := 999 } demoWorld).2 =
      { status := 404, body := Body.message "Ticket not found" } ∧
    eventsSince demoWorld (serve demoCrypto {} Route.getTicket
      { authorization := some "Bearer token:tech", id := 999 } demoWorld) =
      [Event.connect] ∧
    openConnections (eventsSince demoWorld (serve demoCrypto {} Route.getTicket
      { authorization := some "Bearer token:tech", id := 999 } demoWorld)) = 1 ∧
    (serve demoCrypto { simple := { first := some StoreError.other } } Route.getUsers
      { authorization := some "Bearer token:admin" } demoWorld).2 =
      { status := 500, body := Body.message "Failed to fetch users" } ∧
    openConnections (eventsSince demoWorld
      (serve demoCrypto { simple := { first := some StoreError.other } } Route.getUsers
        { authorization := some "Bearer token:admin" } demoWorld)) = 1 := by
  decide

/-- C19 (defect): `PUT /api/companies/5` that renames company 5 to the name of company
1 gets `ER_DUP_ENTRY` from the store and answers 500 "Failed to update company": the
`catch` block of this handler has no branch for `ER_DUP_ENTRY`.  This is so when the
body gives the four contact fields as `null`, so that the `UPDATE` reaches the store
(`executeError` then reports `ER_DUP_ENTRY`), and the answer is the same 500 when the
body has the name only.  The sibling `POST /api/companies` answers 409 for the same
name. -/
theorem putCompany_duplicate_name_gives_500 :
    executeError [Js.null, Js.null, Js.null, Js.null] none
      (demoTables.companies.any (fun c => c.id == 5) &&
        demoTables.companies.any (fun c => c.name == "Default" && !(c.id == 5))) =
      some StoreError.dupEntry ∧
    (serve demoCrypto {} Route.putCompany
      { authorization := some "Bearer token:admin", id := 5, name := some "Default",
        contact_person := Js.null, contact_email := Js.null, contact_phone := Js.null,
        address := Js.null }
      demoWorld).2 =
      { status := 500, body := Body.message "Failed to update company" } ∧
    (serve demoCrypto {} Route.putCompany
      { authorization := some "Bearer token:admin", id := 5, name := some "Default" }
      demoWorld).2 =
      { status := 500, body := Body.message "Failed to update company" } ∧
    (putCompany { first := some StoreError.dupEntry } { id := 5, name := some "Acme Ltd" }
      demoWorld).2 =
      { status := 500, body := Body.message "Failed to update company" } ∧
    (serve demoCrypto {} Route.postCompanies
      { authorization := some "Bearer token:admin", name := some "Default" }
      demoWorld).2 =
      { status := 409,
        body := Body.message "A company with this name already exists." } := by
  decide

/-- The handlers with a branch for `ER_DUP_ENTRY` (`POST /api/users`,
`POST /api/companies`, `POST /api/assets`, `PUT /api/assets/:assetId`): a write that
throws `ER_DUP_ENTRY` is answered 409, a write that throws anything else 500; for the
asset routes the write reaches the store when no bind parameter is `undefined`, and is
answered 500 when one is. -/
theorem conflict_handlers (c : Crypto) (f : SimpleFaults) (req : Request) (w : World)
    (hc : f.connect = false) (hy : f.crypto = false) :
    (truthyStr req.username = true → truthyStr req.password = true →
      truthyStr req.role = true →
      (f.first = some StoreError.dupEntry → (postUsers c f req w).2.status = 409) ∧
      (f.first = some StoreError.other → (postUsers c f req w).2.status = 500)) ∧
    (truthyStr req.name = true →
      (f.first = some StoreError.dupEntry → (postCompanies f req w).2.status = 409) ∧
      (f.first = some StoreError.other → (postCompanies f req w).2.status = 500)) ∧
    (truthyNat req.company_id = true → truthyStr req.asset_name = true →
      (hasUndefined [req.description, req.serial_number, req.device_type,
          req.owner_location, req.brand, req.model, req.operating_system] = false →
        (f.first = some StoreError.dupEntry → (postAssets f req w).2.status = 409) ∧
        (f.first = some StoreError.other → (postAssets f req w).2.status = 500)) ∧
      (hasUndefined [req.description, req.serial_number, req.device_type,
          req.owner_location, req.brand, req.model, req.operating_system] = true →
        (postAssets f req w).2.status = 500)) ∧
    (truthyStr req.asset_name = true →
      (hasUndefined [req.description, req.serial_number, req.status, req.device_type,
          req.owner_location, req.brand, req.model, req.operating_system] = false →
        (f.first = some StoreError.dupEntry → (putAsset f req w).2.status = 409) ∧
        (f.first = some StoreError.other → (putAsset f req w).2.status = 500)) ∧
      (hasUndefined [req.description, req.serial_number, req.status, req.device_type,
          req.owner_location, req.brand, req.model, req.operating_system] = true →
        (putAsset f req w).2.status = 500)) := by
  refine ⟨?_, ?_, ?_, ?_⟩
  · intro h1 h2 h3
    constructor <;> intro h <;> simp [postUsers, h1, h2, h3, hc, hy, h, writeError]
  · intro h1
    constructor <;> intro h <;> simp [postCompanies, h1, hc, h, writeError]
  · intro h1 h2
    refine ⟨fun hu => ⟨fun h => ?_, fun h => ?_⟩, fun hu => ?_⟩ <;>
      simp [postAssets, h1, h2, hc, hu, executeError, writeError, *]
  · intro h1
    refine ⟨fun hu => ⟨fun h => ?_, fun h => ?_⟩, fun hu => ?_⟩ <;>
      simp [putAsset, h1, hc, hu, executeError, writeError, *]

/-! ## Theorems: error bodies -/

/-- Error responses of the handlers with one `try` block carry a message. -/
theorem simple_handlers_error_body (c : Crypto) (f : SimpleFaults) (req : Request)
    (u : Identity) (n : Nat) (w : World) :
    (isErrorStatus (login c f req w).2.status = true →
      isMessage (login c f req w).2.body = true) ∧
    (isErrorStatus (postUsers c f req w).2.status = true →
      isMessage (postUsers c f req w).2.body = true) ∧
    (isErrorStatus (getUsers f w).2.status = true →
      isMessage (getUsers f w).2.body = true) ∧
    (isErrorStatus (deleteUser f u n w).2.status = true →
      isMessage (deleteUser f u n w).2.body = true) ∧
    (isErrorStatus (getCompanies f w).2.status = true →
      isMessage (getCompanies f w).2.body = true) ∧
    (isErrorStatus (postCompanies f req w).2.status = true →
      isMessage (postCompanies f req w).2.body = true) ∧
    (isErrorStatus (putCompany f req w).2.status = true →
      isMessage (putCompany f req w).2.body = true) ∧
    (isErrorStatus (deleteCompany f n w).2.status = true →
      isMessage (deleteCompany f n w).2.body = true) := by
  refine ⟨?_, ?_, ?_, ?_, ?_, ?_, ?_, ?_⟩
  · simp only [login]; repeat' split
    all_goals simp [isErrorStatus, isMessage]
  · simp only [postUsers]; repeat' split
    all_goals simp [isErrorStatus, isMessage]
  · simp only [getUsers]; repeat' split
    all_goals simp [isErrorStatus, isMessage]
  · simp only [deleteUser]; repeat' split
    all_goals simp [isErrorStatus, isMessage]
  · simp only [getCompanies]; repeat' split
    all_goals simp [isErrorStatus, isMessage]
  · simp only [postCompanies]; repeat' split
    all_goals simp [isErrorStatus, isMessage]
  · simp only [putCompany]; repeat' split
    all_goals simp [isErrorStatus, isMessage]
  · simp only [deleteCompany]; repeat' split
    all_goals simp [isErrorStatus, isMessage]

/-- Error responses of the asset handlers and of the simple ticket handlers carry a
message. -/
theorem asset_handlers_error_body (f : SimpleFaults) (req : Request) (n : Nat)
    (w : World) :
    (isErrorStatus (getAsset f n w).2.status = true →
      isMessage (getAsset f n w).2.body = true) ∧
    (isErrorStatus (getCompanyAssets f n w).2.status = true →
      isMessage (getCompanyAssets f n w).2.body = true) ∧
    (isErrorStatus (postAssets f req w).2.status = true →
      isMessage (postAssets f req w).2.body = true) ∧
    (isErrorStatus (putAsset f req w).2.status = true →
      isMessage (putAsset f req w).2.body = true) ∧
    (isErrorStatus (deleteAsset f n w).2.status = true →
      isMessage (deleteAsset f n w).2.body = true) ∧
    (isErrorStatus (getTickets f w).2.status = true →
      isMessage (getTickets f w).2.body = true) ∧
    (isErrorStatus (getTicket f n w).2.status = true →
      isMessage (getTicket f n w).2.body = true) ∧
    (isErrorStatus (deleteTicket f n w).2.status = true →
      isMessage (deleteTicket f n w).2.body = true) := by
  refine ⟨?_, ?_, ?_, ?_, ?_, ?_, ?_, ?_⟩
  · simp only [getAsset]; repeat' split
    all_goals simp [isErrorStatus, isMessage]
  · simp only [getCompanyAssets]; repeat' split
    all_goals simp [isErrorStatus, isMessage]
  · simp only [postAssets]; repeat' split
    all_goals simp [isErrorStatus, isMessage]
  · simp only [putAsset]; repeat' split
    all_goals simp [isErrorStatus, isMessage]
  · simp only [deleteAsset]; repeat' split
    all_goals simp [isErrorStatus, isMessage]
  · simp only [getTickets]; repeat' split
    all_goals simp [isErrorStatus, isMessage]
  · simp only [getTicket]; repeat' split
    all_goals simp [isErrorStatus, isMessage]
  · simp only [deleteTicket]; repeat' split
    all_goals simp [isErrorStatus, isMessage]

/-- Error responses of the transactional ticket handlers carry a message; so do those
of the webhook, its 404 apart. -/
theorem ticket_handlers_error_body (fc : CreateFaults) (fu : UpdateFaults)
    (fp : PutFaults) (fw : WebhookFaults) (user_id ticketId : Nat) (cr : CreateRequest)
    (update_text : Option String) (status priority : String) (a : Option Nat)
    (wr : WebhookRequest) (w : World) :
    (isErrorStatus (postTicket fc user_id cr w).2.status = true →
      isMessage (postTicket fc user_id cr w).2.body = true) ∧
    (isErrorStatus (postTicketUpdate fu user_id ticketId update_text w).2.status = true →
      isMessage (postTicketUpdate fu user_id ticketId update_text w).2.body = true) ∧
    (isErrorStatus (putTicket fp ticketId status priority a w).2.status = true →
      isMessage (putTicket fp ticketId status priority a w).2.body = true) ∧
    (isErrorStatus (emailWebhook fw wr w).2.status = true →
      isMessage (emailWebhook fw wr w).2.body = true ∨
      (emailWebhook fw wr w).2.status = 404) := by
  refine ⟨?_, ?_, ?_, ?_⟩
  · by_cases hv : (!truthyNat cr.company_id || !truthyStr cr.title ||
        !truthyStr cr.description) = true
    · simp [postTicket, hv, isErrorStatus, isMessage]
    · cases hund : hasUndefined [cr.customer_email]
      · cases hb : fc.beginTransaction <;> cases hi : fc.insertTicket <;>
          cases hl : fc.insertLinks <;> cases hm : fc.commit <;> cases hs : fc.sendMail <;>
          cases hr : fc.readBack <;> cases ha : hasAssets cr.asset_ids <;>
          cases he : truthyStr cr.customer_email.toOption <;>
          simp [postTicket, hv, hb, hi, hl, hm, hs, hr, ha, he, hund, createFailed,
            isErrorStatus, isMessage]
      · cases hb : fc.beginTransaction <;>
          simp [postTicket, hv, hb, hund, createFailed, isErrorStatus, isMessage]
  · by_cases hv : (!truthyStr update_text) = true
    · simp [postTicketUpdate, hv, isErrorStatus, isMessage]
    · cases hb : fu.beginTransaction <;> cases hi : fu.insertUpdate <;>
        cases hu : fu.updateTicket <;> cases hm : fu.commit <;> cases hr : fu.readBack <;>
        cases hq : fu.selectTicket <;> cases hs : fu.sendMail <;>
        simp only [postTicketUpdate, hv, hb, hi, hu, hm, hr, hq, hs, Bool.false_eq_true,
          if_false, if_true] <;>
        (repeat' split) <;>
        simp [updateFailed, isErrorStatus, isMessage]
  · cases h1 : fp.selectBefore <;> cases h2 : fp.update <;> cases h3 : fp.selectAfter <;>
      cases h4 : fp.sendStatus <;> cases h5 : fp.sendPriority <;>
      cases h6 : fp.sendAssigned <;>
      simp only [putTicket, sendIf, h1, h2, h3, h4, h5, h6, Bool.false_eq_true, if_false,
        if_true] <;>
      (repeat' split) <;>
      simp_all [putFailed, isErrorStatus, isMessage]
  · by_cases hv : (!truthyStr wr.from_ || !truthyStr wr.subject ||
        webhookText wr == "") = true
    · simp [emailWebhook, hv, isErrorStatus, isMessage]
    · cases h1 : fw.selectTicket <;> cases h2 : fw.insertUpdate <;>
        cases h3 : fw.updateTicket <;> cases h4 : fw.selectCompany <;>
        cases h5 : fw.insertTicket <;>
        simp only [emailWebhook, hv, h1, h2, h3, h4, h5, Bool.false_eq_true, if_false,
          if_true] <;>
        (repeat' split) <;>
        simp [webhookFailed, isErrorStatus, isMessage]

/-- A request is answered by `authenticateToken`, by `isAdmin`, or by the handler of the
route, which then runs with `req.user` defined if the route is guarded. -/
theorem serve_cases (c : Crypto) (f : Faults) (route : Route) (req : Request) (w : World) :
    (Middleware.authenticateToken ∈ middleware route ∧
      authenticateToken c req.authorization =
        Guard.respond { status := 401, body := Body.text "Unauthorized" } ∧
      serve c f route req w = (w, { status := 401, body := Body.text "Unauthorized" })) ∨
    (Middleware.authenticateToken ∈ middleware route ∧
      authenticateToken c req.authorization =
        Guard.respond { status := 403, body := Body.text "Forbidden" } ∧
      serve c f route req w = (w, { status := 403, body := Body.text "Forbidden" })) ∨
    serve c f route req w =
      (w, { status := 403, body := Body.message "Admin access required" }) ∨
    (∃ user, serve c f route req w = handle c f route user req w ∧
      (Middleware.authenticateToken ∈ middleware route → user.isSome = true)) := by
  by_cases hopen : middleware route = []
  · right; right; right
    exact ⟨none, by simp [serve, hopen, runGuards], by simp [hopen]⟩
  · by_cases hadm : middleware route = [Middleware.authenticateToken, Middleware.isAdmin]
    · obtain h | h | ⟨u, h⟩ := authenticateToken_cases c req.authorization
      · left
        exact ⟨by simp [hadm], h, by simp [serve, hadm, runGuards, h]⟩
      · right; left
        exact ⟨by simp [hadm], h, by simp [serve, hadm, runGuards, h]⟩
      · by_cases hrole : u.role = "admin"
        · right; right; right
          exact ⟨some u, by simp [serve, hadm, runGuards, h, isAdmin, hrole], by simp⟩
        · right; right; left
          simp [serve, hadm, runGuards, h, isAdmin, hrole]
    · have hauth : middleware route = [Middleware.authenticateToken] := by
        cases route <;> simp [middleware] at hopen hadm ⊢
      obtain h | h | ⟨u, h⟩ := authenticateToken_cases c req.authorization
      · left
        exact ⟨by simp [hauth], h, by simp [serve, hauth, runGuards, h]⟩
      · right; left
        exact ⟨by simp [hauth], h, by simp [serve, hauth, runGuards, h]⟩
      · right; right; right
        exact ⟨some u, by simp [serve, hauth, runGuards, h], by simp⟩

/-- Error responses of the handlers carry a message, the 404 of the webhook apart, when
the handlers that read `req.user` find it defined. -/
theorem handle_error_body (c : Crypto) (f : Faults) (route : Route)
    (user : Option Identity) (req : Request) (w : World)
    (hu : Middleware.authenticateToken ∈ middleware route → user.isSome = true)
    (hs : isErrorStatus (handle c f route user req w).2.status = true) :
    isMessage (handle c f route user req w).2.body = true ∨
    (route = Route.emailWebhook ∧ (handle c f route user req w).2.status = 404) := by
  have h1 := simple_handlers_error_body c f.simple req
  have h2 := asset_handlers_error_body f.simple req req.id w
  have h3 := ticket_handlers_error_body
  cases route
  case login => exact Or.inl ((h1 ⟨0, "", ""⟩ 0 w).1 hs)
  case postUsers => exact Or.inl ((h1 ⟨0, "", ""⟩ 0 w).2.1 hs)
  case getUsers => exact Or.inl ((h1 ⟨0, "", ""⟩ 0 w).2.2.1 hs)
  case deleteUser =>
    obtain ⟨u, rfl⟩ := Option.isSome_iff_exists.1 (hu (by simp [middleware]))
    exact Or.inl ((h1 u req.id w).2.2.2.1 hs)
  case getCompanies => exact Or.inl ((h1 ⟨0, "", ""⟩ 0 w).2.2.2.2.1 hs)
  case postCompanies => exact Or.inl ((h1 ⟨0, "", ""⟩ 0 w).2.2.2.2.2.1 hs)
  case putCompany => exact Or.inl ((h1 ⟨0, "", ""⟩ 0 w).2.2.2.2.2.2.1 hs)
  case deleteCompany => exact Or.inl ((h1 ⟨0, "", ""⟩ req.id w).2.2.2.2.2.2.2 hs)
  case getAsset => exact Or.inl (h2.1 hs)
  case getCompanyAssets => exact Or.inl (h2.2.1 hs)
  case postAssets => exact Or.inl (h2.2.2.1 hs)
  case putAsset => exact Or.inl (h2.2.2.2.1 hs)
  case deleteAsset => exact Or.inl (h2.2.2.2.2.1 hs)
  case getTickets => exact Or.inl (h2.2.2.2.2.2.1 hs)
  case getTicket => exact Or.inl (h2.2.2.2.2.2.2.1 hs)
  case deleteTicket => exact Or.inl (h2.2.2.2.2.2.2.2 hs)
  case emailWebhook =>
    rcases (h3 {} {} {} f.webhook 0 0 {} none "" "" none req.webhook w).2.2.2 hs with h | h
    · exact Or.inl h
    · exact Or.inr ⟨rfl, h⟩
  case postTickets =>
    obtain ⟨u, rfl⟩ := Option.isSome_iff_exists.1 (hu (by simp [middleware]))
    exact Or.inl ((h3 f.create {} {} {} u.id 0 req.create none "" "" none {} w).1 hs)
  case postTicketUpdates =>
    obtain ⟨u, rfl⟩ := Option.isSome_iff_exists.1 (hu (by simp [middleware]))
    exact Or.inl ((h3 {} f.update {} {} u.id req.id {} req.update_text "" "" none {}
      w).2.1 hs)
  case putTicket =>
    simp only [handle] at hs ⊢
    cases hsp : boundStatusPriority req.status req.priority with
    | some sp =>
      obtain ⟨s, p⟩ := sp
      simp only [hsp] at hs ⊢
      exact Or.inl ((h3 {} {} f.put {} 0 req.id {} none s p req.assigned_user_id {}
        w).2.2.1 hs)
    | none =>
      simp only [hsp] at hs ⊢
      exact Or.inl ((h3 {} {} { f.put with update := true } {} 0 req.id {} none "" ""
        req.assigned_user_id {} w).2.2.1 hs)

/-- C20 (counterexample): a request to `GET /api/users` without Authorization header is
answered 401 by `res.sendStatus(401)`, whose body is the plain text "Unauthorized", not a
JSON object with a message. -/
theorem guard_error_body_is_text :
    (serve demoCrypto {} Route.getUsers {} demoWorld).2 =
      { status := 401, body := Body.text "Unauthorized" } ∧
    isErrorStatus (serve demoCrypto {} Route.getUsers {} demoWorld).2.status = true ∧
    isMessage (serve demoCrypto {} Route.getUsers {} demoWorld).2.body = false := by
  decide

/-- C20 (amended): every error response (status 400, 401, 403, 404, 409 or 500) that a
route handler or `isAdmin` produces has a JSON body `{message: <string>}`, the 404 of the
webhook left aside; the error responses of `authenticateToken` are its 401 and 403, whose
body is the plain-text status phrase. -/
theorem error_bodies (c : Crypto) (f : Faults) (route : Route) (req : Request) (w : World)
    (hs : isErrorStatus (serve c f route req w).2.status = true) :
    isMessage (serve c f route req w).2.body = true ∨
    (Middleware.authenticateToken ∈ middleware route ∧
      authenticateToken c req.authorization = Guard.respond (serve c f route req w).2 ∧
      ((serve c f route req w).2 = { status := 401, body := Body.text "Unauthorized" } ∨
        (serve c f route req w).2 = { status := 403, body := Body.text "Forbidden" })) ∨
    (route = Route.emailWebhook ∧ (serve c f route req w).2.status = 404) := by
  obtain ⟨hm, ha, h⟩ | ⟨hm, ha, h⟩ | h | ⟨user, h, hu⟩ := serve_cases c f route req w
  · right; left
    rw [h]
    exact ⟨hm, ha, Or.inl rfl⟩
  · right; left
    rw [h]
    exact ⟨hm, ha, Or.inr rfl⟩
  · left
    rw [h]
    rfl
  · rw [h] at hs ⊢
    rcases handle_error_body c f route user req w hu hs with h1 | h1
    · exact Or.inl h1
    · exact Or.inr (Or.inr h1)

/-- Witness for C20 (amended): the 404 of `GET /api/tickets/999` carries a message. -/
theorem error_bodies_witness :
    isMessage (serve demoCrypto {} Route.getTicket
      { authorization := some "Bearer token:tech", id := 999 } demoWorld).2.body = true :=
  (error_bodies demoCrypto {} Route.getTicket
    { authorization := some "Bearer token:tech", id := 999 } demoWorld (by decide)).elim
    id (fun _ => by decide)

/-- `POST /api/tickets` closes its connection in a `finally` block: none stays open,
whatever fails. -/
theorem postTicket_releases (f : CreateFaults) (user_id : Nat) (req : CreateRequest)
    (w : World) :
    openConnections (eventsSince w (postTicket f user_id req w)) = 0 := by
  by_cases hv : (!truthyNat req.company_id || !truthyStr req.title ||
      !truthyStr req.description) = true
  · simp [postTicket, hv, eventsSince, openConnections]
  · cases hund : hasUndefined [req.customer_email]
    · cases hb : f.beginTransaction <;> cases hi : f.insertTicket <;>
        cases hl : f.insertLinks <;> cases hm : f.commit <;> cases hs : f.sendMail <;>
        cases hr : f.readBack <;> cases ha : hasAssets req.asset_ids <;>
        cases he : truthyStr req.customer_email.toOption <;>
        simp [hund, postTicket, hv, hb, hi, hl, hm, hs, hr, ha, he, eventsSince, createFailed,
          connect, beginTransaction, insertTicket, insertLinks, commit, rollback, connEnd,
          bounce, deliver, World.log, openConnections]
    · cases hb : f.beginTransaction <;>
        simp [hund, postTicket, hv, hb, eventsSince, createFailed, connect,
          beginTransaction, insertTicket, insertLinks, commit, rollback, connEnd, bounce,
          deliver, World.log, openConnections]

/-- `POST /api/tickets/:ticketId/updates` closes its connection in a `finally` block. -/
theorem postTicketUpdate_releases (f : UpdateFaults) (user_id ticketId : Nat)
    (update_text : Option String) (w : World) :
    openConnections
      (eventsSince w (postTicketUpdate f user_id ticketId update_text w)) = 0 := by
  by_cases hv : (!truthyStr update_text) = true
  · simp [postTicketUpdate, hv, eventsSince, openConnections]
  · cases hb : f.beginTransaction <;> cases hi : f.insertUpdate <;>
      cases hu : f.updateTicket <;> cases hm : f.commit <;> cases hr : f.readBack <;>
      cases hq : f.selectTicket <;> cases hs : f.sendMail <;>
      simp only [postTicketUpdate, hv, hb, hi, hu, hm, hr, hq, hs, Bool.false_eq_true,
        if_false, if_true] <;>
      (repeat' split) <;>
      simp [eventsSince, updateFailed, connect, beginTransaction, insertUpdate,
        setStatusAndTouch, commit, rollback, connEnd, bounce, deliver, World.log,
        openConnections]

/-- The webhook closes its connection in a `finally` block. -/
theorem emailWebhook_releases (f : WebhookFaults) (req : WebhookRequest) (w : World) :
    openConnections (eventsSince w (emailWebhook f req w)) = 0 := by
  by_cases hv : (!truthyStr req.from_ || !truthyStr req.subject ||
      webhookText req == "") = true
  · simp [emailWebhook, hv, eventsSince, openConnections]
  · cases h1 : f.selectTicket <;> cases h2 : f.insertUpdate <;>
      cases h3 : f.updateTicket <;> cases h4 : f.selectCompany <;>
      cases h5 : f.insertTicket <;>
      simp only [emailWebhook, hv, h1, h2, h3, h4, h5, Bool.false_eq_true, if_false,
        if_true] <;>
      (repeat' split) <;>
      simp [eventsSince, webhookFailed, connect, insertUpdate, touchTicket, insertTicket,
        connEnd, World.log, openConnections]

/-! ## Theorems: ticket creation -/

/-- A `POST /api/tickets` answered 201 had valid fields, the key `customer_email` in
its body, and no failing store call. -/
theorem postTicket_created (f : CreateFaults) (user_id : Nat) (req : CreateRequest)
    (w : World) (hs : (postTicket f user_id req w).2.status = 201) :
    (truthyNat req.company_id = true ∧ truthyStr req.title = true ∧
      truthyStr req.description = true) ∧
    f.beginTransaction = false ∧ f.insertTicket = false ∧
    (hasAssets req.asset_ids && f.insertLinks) = false ∧ f.commit = false ∧
    f.readBack = false ∧ hasUndefined [req.customer_email] = false := by
  revert hs
  by_cases hv : (!truthyNat req.company_id || !truthyStr req.title ||
      !truthyStr req.description) = true
  · simp [postTicket, hv]
  · have hv2 := hv
    simp only [Bool.or_eq_true, Bool.not_eq_true', not_or, Bool.not_eq_false] at hv2
    cases hb : f.beginTransaction <;> cases hi : f.insertTicket <;>
      cases hl : f.insertLinks <;> cases hm : f.commit <;>
      cases hr : f.readBack <;> cases ha : hasAssets req.asset_ids <;>
      cases hund : hasUndefined [req.customer_email] <;>
      simp [postTicket, hv, hb, hi, hl, hm, hr, ha, hund, createFailed, hv2]

/-- C21: a `POST /api/tickets` that is answered 201 has added exactly one ticket row,
and one `ticket_assets` row per entry of `asset_ids`, in order, each pairing the new
ticket id with that asset id; when `asset_ids` is absent or empty it has added none. -/
theorem postTicket_rows_added (f : CreateFaults) (user_id : Nat) (req : CreateRequest)
    (w : World) (hs : (postTicket f user_id req w).2.status = 201) :
    (postTicket f user_id req w).1.tables.tickets =
      w.tables.tickets ++
        [{ id := w.nextTicketId, company_id := req.company_id.getD 0, user_id := user_id,
           assigned_user_id := none, title := req.title.getD "",
           description := req.description.getD "",
           priority := orElseStr req.priority.toOption "Normal", status := "Open",
           customer_email := req.customer_email.toOption, created_at := w.now,
           updated_at := w.now }] ∧
    (postTicket f user_id req w).1.tables.ticket_assets =
      w.tables.ticket_assets ++
        (req.asset_ids.getD []).map
          (fun a => { ticket_id := w.nextTicketId, asset_id := a }) ∧
    (postTicket f user_id req w).1.tables.ticket_assets.length =
      w.tables.ticket_assets.length + (req.asset_ids.getD []).length ∧
    (∀ i a, (req.asset_ids.getD [])[i]? = some a →
      (postTicket f user_id req w).1.tables.ticket_assets[w.tables.ticket_assets.length + i]? =
        some { ticket_id := w.nextTicketId, asset_id := a }) ∧
    ((req.asset_ids = none ∨ req.asset_ids = some []) →
      (postTicket f user_id req w).1.tables.ticket_assets = w.tables.ticket_assets) := by
  have hrows : (postTicket f user_id req w).1.tables.tickets =
      w.tables.tickets ++
        [{ id := w.nextTicketId, company_id := req.company_id.getD 0, user_id := user_id,
           assigned_user_id := none, title := req.title.getD "",
           description := req.description.getD "",
           priority := orElseStr req.priority.toOption "Normal", status := "Open",
           customer_email := req.customer_email.toOption, created_at := w.now,
           updated_at := w.now }] ∧
      (postTicket f user_id req w).1.tables.ticket_assets =
      w.tables.ticket_assets ++
        (req.asset_ids.getD []).map
          (fun a => { ticket_id := w.nextTicketId, asset_id := a }) := by
    obtain ⟨⟨h1, h2, h3⟩, hb, hi, hl, hm, hr, hund⟩ :=
      postTicket_created f user_id req w hs
    simp only [postTicket, h1, h2, h3, hb, hi, hl, hm, hr, hund, Bool.or_false]
    rcases hx : req.asset_ids with _ | ⟨_ | ⟨a, l⟩⟩ <;>
      cases hs : f.sendMail <;> cases he : truthyStr req.customer_email.toOption <;>
      simp [hasAssets, connect, beginTransaction, insertTicket, insertLinks, commit,
        connEnd, bounce, deliver, World.log, defaultStatus]
  refine ⟨hrows.1, hrows.2, ?_, ?_, ?_⟩
  · rw [hrows.2]; simp
  · intro i a hi
    rw [hrows.2, List.getElem?_append_right (by omega)]
    simp [List.getElem?_map, hi]
  · intro h
    rw [hrows.2]
    rcases h with h | h <;> simp [h]

/-- Witness for C21: the sample request links assets 11 and 12 to the new ticket 43. -/
theorem postTicket_rows_added_witness :
    (postTicket {} 3 demoCreate demoWorld).1.tables.ticket_assets =
      demoWorld.tables.ticket_assets ++
        (demoCreate.asset_ids.getD []).map
          (fun a => { ticket_id := demoWorld.nextTicketId, asset_id := a }) :=
  (postTicket_rows_added {} 3 demoCreate demoWorld (by decide)).2.1

/-- A lookup by id in a table extended by a row with a fresh id finds that row. -/
theorem findTicket_append_fresh (rows : List Ticket) (r : Ticket)
    (hfresh : ∀ x ∈ rows, x.id ≠ r.id) :
    List.find? (fun x => x.id == r.id) (rows ++ [r]) = some r := by
  have hnone : List.find? (fun x => x.id == r.id) rows = none := by
    rw [List.find?_eq_none]
    intro x hx
    simpa using hfresh x hx
  simp [List.find?_append, hnone]

/-- Validation and success of `POST /api/tickets`.  The answer is 400 exactly when
`company_id`, `title` or `description` is missing or empty (falsy: a `company_id` of 0
counts as empty); a request answered 400 opens no connection, changes no table and sends
no mail.  With the three fields present, the key `customer_email` in the body (a string
or `null`), no store call failing, the company and the creator existing and the new id
unused, the response is 201 with the new ticket joined with the company name and the
creator's username, `assigned_user_name` being null.  With the three fields present and
no key `customer_email` in the body, the response is 500 whatever the fault plan, and
tables and outbox are as before. -/
theorem postTicket_validation (f : CreateFaults) (user_id : Nat) (req : CreateRequest)
    (w : World) :
    ((postTicket f user_id req w).2.status = 400 ↔
      (truthyNat req.company_id = false ∨ truthyStr req.title = false ∨
        truthyStr req.description = false)) ∧
    ((postTicket f user_id req w).2.status = 400 → (postTicket f user_id req w).1 = w) ∧
    (∀ (c : Company) (u : User),
      truthyNat req.company_id = true → truthyStr req.title = true →
      truthyStr req.description = true →
      hasUndefined [req.customer_email] = false →
      f.beginTransaction = false → f.insertTicket = false → f.insertLinks = false →
      f.commit = false → f.readBack = false →
      findCompany w.tables (req.company_id.getD 0) = some c →
      findUser w.tables user_id = some u →
      (∀ x ∈ w.tables.tickets, x.id ≠ w.nextTicketId) →
      (postTicket f user_id req w).2 =
        { status := 201,
          body := Body.ticket (some
            { ticket :=
                { id := w.nextTicketId, company_id := req.company_id.getD 0,
                  user_id := user_id, assigned_user_id := none,
                  title := req.title.getD "", description := req.description.getD "",
                  priority := orElseStr req.priority.toOption "Normal", status := "Open",
                  customer_email := req.customer_email.toOption, created_at := w.now,
                  updated_at := w.now },
              company_name := c.name, user_name := u.username,
              assigned_user_name := none }) }) ∧
    (truthyNat req.company_id = true → truthyStr req.title = true →
      truthyStr req.description = true →
      hasUndefined [req.customer_email] = true →
      (postTicket f user_id req w).2 =
        { status := 500, body := Body.message "Failed to create ticket" } ∧
      (postTicket f user_id req w).1.tables = w.tables ∧
      (postTicket f user_id req w).1.outbox = w.outbox) := by
  refine ⟨?_, ?_, ?_, ?_⟩
  · by_cases hv : (!truthyNat req.company_id || !truthyStr req.title ||
        !truthyStr req.description) = true
    · have hv2 := hv
      simp only [Bool.or_eq_true, Bool.not_eq_true'] at hv2
      simp only [postTicket, hv, if_true, true_iff]
      tauto
    · have hv2 := hv
      simp only [Bool.or_eq_true, Bool.not_eq_true'] at hv2
      have hrhs : ¬ (truthyNat req.company_id = false ∨ truthyStr req.title = false ∨
          truthyStr req.description = false) := by tauto
      simp only [hrhs, iff_false]
      cases hb : f.beginTransaction <;> cases hi : f.insertTicket <;>
        cases hl : f.insertLinks <;> cases hm : f.commit <;>
        cases hr : f.readBack <;> cases ha : hasAssets req.asset_ids <;>
        cases hund : hasUndefined [req.customer_email] <;>
        simp [postTicket, hv, hb, hi, hl, hm, hr, ha, hund, createFailed]
  · by_cases hv : (!truthyNat req.company_id || !truthyStr req.title ||
        !truthyStr req.description) = true
    · simp [postTicket, hv]
    · cases hb : f.beginTransaction <;> cases hi : f.insertTicket <;>
        cases hl : f.insertLinks <;> cases hm : f.commit <;>
        cases hr : f.readBack <;> cases ha : hasAssets req.asset_ids <;>
        cases hund : hasUndefined [req.customer_email] <;>
        simp [postTicket, hv, hb, hi, hl, hm, hr, ha, hund, createFailed]
  · intro c u h1 h2 h3 hund hb hi hl hm hr hc hu hfresh
    have hfind := findTicket_append_fresh w.tables.tickets
      { id := w.nextTicketId, company_id := req.company_id.getD 0, user_id := user_id,
        assigned_user_id := none, title := req.title.getD "",
        description := req.description.getD "",
        priority := orElseStr req.priority.toOption "Normal", status := "Open",
        customer_email := req.customer_email.toOption, created_at := w.now,
        updated_at := w.now } hfresh
    have hc2 : List.find? (fun r => r.id == req.company_id.getD 0) w.tables.companies =
        some c := hc
    have hu2 : List.find? (fun r => r.id == user_id) w.tables.users = some u := hu
    simp only [postTicket, h1, h2, h3, hb, hi, hl, hm, hr, hund, Bool.or_false]
    cases hs : f.sendMail <;> cases he : truthyStr req.customer_email.toOption <;>
      cases ha : hasAssets req.asset_ids <;>
      simp [connect, beginTransaction, insertTicket, insertLinks, commit,
        connEnd, bounce, deliver, World.log, defaultStatus, selectJoinedTicket, findTicket,
        findCompany, findUser, hfind, hc2, hu2]
  · intro h1 h2 h3 hund
    cases hb : f.beginTransaction <;>
      simp [postTicket, h1, h2, h3, hund, hb, createFailed, connect, beginTransaction,
        rollback, connEnd, World.log]

/-- The sample request is answered 201 with the joined new ticket. -/
theorem postTicket_validation_witness :
    (postTicket {} 3 demoCreate demoWorld).2 =
      { status := 201,
        body := Body.ticket (some
          { ticket :=
              { id := 43, company_id := 5, user_id := 3, title := "VPN",
                description := "No access", priority := "Normal", status := "Open",
                customer_email := some "bob@acme.test", created_at := 100,
                updated_at := 100 },
            company_name := "Acme", user_name := "tech", assigned_user_name := none }) } :=
  (postTicket_validation {} 3 demoCreate demoWorld).2.2.1
    { id := 5, name := "Acme", contact_email := some "it@acme.test" }
    { id := 3, username := "tech" } (by decide) (by decide) (by decide) (by decide)
    rfl rfl rfl rfl rfl (by decide) (by decide) (by decide)

/-- C22 (defect): user "tech" (id 3) sends `POST /api/tickets` with the body
`{company_id: 5, title: "VPN", description: "No access"}`.  The three required fields
are present, company 5 and user 3 exist and no store call fails; but the body has no key
`customer_email`, so the insert hands `undefined` to `execute` as a bind parameter, which
throws: the `catch` block rolls back and answers 500 "Failed to create ticket", no
ticket is stored and no mail is sent.  The same body with `customer_email: null` is
answered 201 with the new ticket joined with its company name and creator username,
`assigned_user_name` being null. -/
theorem postTicket_without_customer_email_fails :
    (serve demoCrypto {} Route.postTickets
      { authorization := some "Bearer token:tech", company_id := some 5,
        title := some "VPN", description := Js.val "No access" } demoWorld).2 =
      { status := 500, body := Body.message "Failed to create ticket" } ∧
    (serve demoCrypto {} Route.postTickets
      { authorization := some "Bearer token:tech", company_id := some 5,
        title := some "VPN", description := Js.val "No access" } demoWorld).1.tables =
      demoWorld.tables ∧
    eventsSince demoWorld (serve demoCrypto {} Route.postTickets
      { authorization := some "Bearer token:tech", company_id := some 5,
        title := some "VPN", description := Js.val "No access" } demoWorld) =
      [Event.connect, Event.beginTransaction, Event.rollback, Event.connEnd] ∧
    (serve demoCrypto {} Route.postTickets
      { authorization := some "Bearer token:tech", company_id := some 5,
        title := some "VPN", description := Js.val "No access",
        customer_email := Js.null } demoWorld).2 =
      { status := 201,
        body := Body.ticket (some
          { ticket :=
              { id := 43, company_id := 5, user_id := 3, title := "VPN",
                description := "No access", priority := "Normal", status := "Open",
                customer_email := none, created_at := 100, updated_at := 100 },
            company_name := "Acme", user_name := "tech", assigned_user_name := none }) } := by
  decide

set_option maxRecDepth 20000 in
/-- C27 (defect): the sample request omits `priority`; the ticket is stored with
priority "Normal" (`priority || 'Normal'`), but the "ticket received" mail interpolates
the raw `priority` of the request and shows "undefined". -/
theorem postTicket_mail_shows_undefined_priority :
    demoCreate.priority = Js.undefined ∧
    (postTicket {} 3 demoCreate demoWorld).2.status = 201 ∧
    (findTicket (postTicket {} 3 demoCreate demoWorld).1.tables 43).map Ticket.priority =
      some "Normal" ∧
    (postTicket {} 3 demoCreate demoWorld).1.outbox =
      [{ recipient := "bob@acme.test",
         subject := "[Ticket #43] Your support request has been received: VPN",
         html :=
          "\n" ++
          "                        <p>Hello,</p>\n" ++
          "                        <p>Thank you for contacting us. We have created a" ++
          " support ticket for you.</p>\n" ++
          "                        <p>Your Ticket ID is: <b>#43</b></p>\n" ++
          "                        <p><b>Subject:</b> VPN</p>\n" ++
          "                        <p><b>Priority:</b> undefined</p>\n" ++
          "                        <hr>\n" ++
          "                        <P>No access</P>\n" ++
          "                        <hr>\n" ++
          "                        <p>Our team will review your request and get back to" ++
          " you shortly. You can reply directly to this email to add updates to your" ++
          " ticket.</p>\n" ++
          "                    " }] := by
  decide

/-- The mail of a `POST /api/tickets` answered 201, when the send succeeds: one mail to
`customer_email` if that is not empty, with the tag of the new id and the title in the
subject, and a body built from the new id, the title, the description and the `priority`
of the request as it came; no mail otherwise. -/
theorem postTicket_mail (f : CreateFaults) (user_id : Nat) (req : CreateRequest)
    (w : World) (hs : (postTicket f user_id req w).2.status = 201)
    (hsend : f.sendMail = false) :
    (postTicket f user_id req w).1.outbox =
      w.outbox ++
        (if truthyStr req.customer_email.toOption then
          [{ recipient := req.customer_email.toOption.getD "",
             subject := receivedSubject w.nextTicketId (req.title.getD ""),
             html := receivedHtml w.nextTicketId (req.title.getD "") req.priority
               (req.description.getD "") }]
         else []) := by
  obtain ⟨⟨h1, h2, h3⟩, hb, hi, hl, hm, hr, hund⟩ :=
    postTicket_created f user_id req w hs
  simp only [postTicket, h1, h2, h3, hb, hi, hl, hm, hr, hund, hsend, Bool.or_false]
  cases he : truthyStr req.customer_email.toOption <;>
    cases ha : hasAssets req.asset_ids <;>
    simp [connect, beginTransaction, insertTicket, insertLinks, commit, connEnd, deliver,
      World.log, receivedMail]

/-! ## Theorems: frames and invariants of the ticket tables -/

/-- After `PUT /api/tickets/:ticketId` has read the ticket and run its `UPDATE`, the
tables are those the `UPDATE` left, whatever happens to the reload and the mails. -/
theorem putTicket_tables (f : PutFaults) (ticketId : Nat) (status priority : String)
    (a : Option Nat) (w : World) (old : Ticket)
    (hold : findTicket w.tables ticketId = some old)
    (h1 : f.selectBefore = false) (h2 : f.update = false) :
    (putTicket f ticketId status priority a w).1.tables =
      (updateTicket w status priority (orNull a) ticketId).tables := by
  have hold2 : findTicket (connect w).tables ticketId = some old := hold
  simp only [putTicket, h1, h2, hold2, Bool.false_eq_true, if_false]
  by_cases h3 : f.selectAfter = true
  · simp [h3, putFailed, connEnd, connect, updateTicket, World.log]
  · cases hsj : selectJoinedTicket
        (updateTicket (connect w) status priority (orNull a) ticketId).tables ticketId with
    | none => simp [h3, putFailed, connEnd, connect, updateTicket, World.log]
    | some new =>
      cases he : truthyStr new.ticket.customer_email
      · simp [h3, he, connEnd, connect, updateTicket, World.log]
      · cases h4 : f.sendStatus <;> cases h5 : f.sendPriority <;>
          cases h6 : f.sendAssigned <;>
          cases hc1 : (old.status != new.ticket.status) <;>
          cases hc2 : (old.priority != new.ticket.priority) <;>
          cases hc3 : (old.assigned_user_id != new.ticket.assigned_user_id) <;>
          simp only [h3, he, h4, h5, h6, hc1, hc2, hc3, sendIf, Bool.false_eq_true,
            if_false, if_true] <;>
          simp [putFailed, connEnd, connect, updateTicket, bounce, deliver, World.log]

/-- C23: `PUT /api/tickets/:ticketId` with `status` and `priority`, on an existing
ticket, the lookup and the `UPDATE` succeeding: afterwards the ticket has the status and
priority of the request and its `assigned_user_id`, which is NULL when the request has
none or an empty one; the other columns of the ticket, the other ticket rows and the
other tables are unchanged.  For a ticket id that does not exist the response is 404,
no table changes and no mail is sent. -/
theorem putTicket_frame (f : PutFaults) (ticketId : Nat) (status priority : String)
    (a : Option Nat) (w : World) :
    (∀ old, findTicket w.tables ticketId = some old → f.selectBefore = false →
      f.update = false →
      (putTicket f ticketId status priority a w).1.tables.tickets =
        w.tables.tickets.map (fun r =>
          if r.id == ticketId then
            { r with status := status, priority := priority,
                     assigned_user_id := orNull a }
          else r) ∧
      findTicket (putTicket f ticketId status priority a w).1.tables ticketId =
        some { old with status := status, priority := priority,
                        assigned_user_id := orNull a } ∧
      (∀ r ∈ w.tables.tickets, r.id ≠ ticketId →
        r ∈ (putTicket f ticketId status priority a w).1.tables.tickets) ∧
      (putTicket f ticketId status priority a w).1.tables.users = w.tables.users ∧
      (putTicket f ticketId status priority a w).1.tables.companies = w.tables.companies ∧
      (putTicket f ticketId status priority a w).1.tables.assets = w.tables.assets ∧
      (putTicket f ticketId status priority a w).1.tables.ticket_assets =
        w.tables.ticket_assets ∧
      (putTicket f ticketId status priority a w).1.tables.ticket_updates =
        w.tables.ticket_updates) ∧
    (orNull none = none ∧ orNull (some 0) = none ∧
      ∀ n, n ≠ 0 → orNull (some n) = some n) ∧
    (findTicket w.tables ticketId = none → f.selectBefore = false →
      (putTicket f ticketId status priority a w).2 =
        { status := 404, body := Body.message "Ticket not found" } ∧
      (putTicket f ticketId status priority a w).1.tables = w.tables ∧
      (putTicket f ticketId status priority a w).1.outbox = w.outbox) := by
  refine ⟨?_, ⟨rfl, rfl, ?_⟩, ?_⟩
  · intro old hold h1 h2
    rw [putTicket_tables f ticketId status priority a w old hold h1 h2]
    refine ⟨rfl, ?_, ?_, rfl, rfl, rfl, rfl, rfl⟩
    · rw [findTicket_updateTicket, hold]
      rfl
    · intro r hr hne
      simp only [updateTicket, List.mem_map]
      exact ⟨r, hr, by simp [hne]⟩
  · intro n hn
    simp [orNull, truthyNat, hn]
  · intro hnone h1
    have hnone2 : findTicket (connect w).tables ticketId = none := hnone
    simp only [putTicket, h1, hnone2, Bool.false_eq_true, if_false]
    simp [connEnd, connect, World.log]

/-- Witness for C23: ticket 42 of the sample store is resolved and left unassigned. -/
theorem putTicket_frame_witness :
    findTicket (putTicket {} 42 "Resolved" "High" (some 0) demoWorld).1.tables 42 =
      some { id := 42, company_id := 5, user_id := 3, title := "Printer",
             description := "Broken", customer_email := some "bob@acme.test",
             status := "Resolved", priority := "High", assigned_user_id := none } :=
  ((putTicket_frame {} 42 "Resolved" "High" (some 0) demoWorld).1
    { id := 42, company_id := 5, user_id := 3, title := "Printer",
      description := "Broken", customer_email := some "bob@acme.test" }
    (by decide) rfl rfl).2.1

/-! ## Theorems: what each handler does to `tickets` and `ticket_updates` -/

/-- The user, company and asset handlers leave `tickets` and `ticket_updates` alone. -/
theorem simple_handlers_ticket_tables (c : Crypto) (f : SimpleFaults) (req : Request)
    (u : Identity) (n : Nat) (w : World) :
    ((login c f req w).1.tables.tickets = w.tables.tickets ∧
      (login c f req w).1.tables.ticket_updates = w.tables.ticket_updates) ∧
    ((postUsers c f req w).1.tables.tickets = w.tables.tickets ∧
      (postUsers c f req w).1.tables.ticket_updates = w.tables.ticket_updates) ∧
    ((getUsers f w).1.tables.tickets = w.tables.tickets ∧
      (getUsers f w).1.tables.ticket_updates = w.tables.ticket_updates) ∧
    ((deleteUser f u n w).1.tables.tickets = w.tables.tickets ∧
      (deleteUser f u n w).1.tables.ticket_updates = w.tables.ticket_updates) ∧
    ((getCompanies f w).1.tables.tickets = w.tables.tickets ∧
      (getCompanies f w).1.tables.ticket_updates = w.tables.ticket_updates) ∧
    ((postCompanies f req w).1.tables.tickets = w.tables.tickets ∧
      (postCompanies f req w).1.tables.ticket_updates = w.tables.ticket_updates) ∧
    ((putCompany f req w).1.tables.tickets = w.tables.tickets ∧
      (putCompany f req w).1.tables.ticket_updates = w.tables.ticket_updates) ∧
    ((deleteCompany f n w).1.tables.tickets = w.tables.tickets ∧
      (deleteCompany f n w).1.tables.ticket_updates = w.tables.ticket_updates) := by
  refine ⟨?_, ?_, ?_, ?_, ?_, ?_, ?_, ?_⟩
  · simp only [login]; repeat' split
    all_goals simp [connect, connEnd, World.log]
  · simp only [postUsers]; repeat' split
    all_goals simp [connect, connEnd, World.log]
  · simp only [getUsers]; repeat' split
    all_goals simp [connect, connEnd, World.log]
  · simp only [deleteUser]; repeat' split
    all_goals simp [connect, connEnd, World.log]
  · simp only [getCompanies]; repeat' split
    all_goals simp [connect, connEnd, World.log]
  · simp only [postCompanies]; repeat' split
    all_goals simp [connect, connEnd, World.log]
  · simp only [putCompany]; repeat' split
    all_goals simp [connect, connEnd, World.log]
  · simp only [deleteCompany]; repeat' split
    all_goals simp [connect, connEnd, World.log]

/-- The asset handlers and the reading ticket handlers leave `tickets` and
`ticket_updates` alone; `DELETE /api/tickets/:ticketId` removes ticket rows only. -/
theorem asset_handlers_ticket_tables (f : SimpleFaults) (req : Request) (n : Nat)
    (w : World) :
    ((getAsset f n w).1.tables.tickets = w.tables.tickets ∧
      (getAsset f n w).1.tables.ticket_updates = w.tables.ticket_updates) ∧
    ((getCompanyAssets f n w).1.tables.tickets = w.tables.tickets ∧
      (getCompanyAssets f n w).1.tables.ticket_updates = w.tables.ticket_updates) ∧
    ((postAssets f req w).1.tables.tickets = w.tables.tickets ∧
      (postAssets f req w).1.tables.ticket_updates = w.tables.ticket_updates) ∧
    ((putAsset f req w).1.tables.tickets = w.tables.tickets ∧
      (putAsset f req w).1.tables.ticket_updates = w.tables.ticket_updates) ∧
    ((deleteAsset f n w).1.tables.tickets = w.tables.tickets ∧
      (deleteAsset f n w).1.tables.ticket_updates = w.tables.ticket_updates) ∧
    ((getTickets f w).1.tables.tickets = w.tables.tickets ∧
      (getTickets f w).1.tables.ticket_updates = w.tables.ticket_updates) ∧
    ((getTicket f n w).1.tables.tickets = w.tables.tickets ∧
      (getTicket f n w).1.tables.ticket_updates = w.tables.ticket_updates) ∧
    (((deleteTicket f n w).1.tables.tickets = w.tables.tickets ∨
        (deleteTicket f n w).1.tables.tickets =
          w.tables.tickets.filter (fun r => !(r.id == n))) ∧
      (deleteTicket f n w).1.tables.ticket_updates = w.tables.ticket_updates) := by
  refine ⟨?_, ?_, ?_, ?_, ?_, ?_, ?_, ?_⟩
  · simp only [getAsset]; repeat' split
    all_goals simp [connect, connEnd, World.log]
  · simp only [getCompanyAssets]; repeat' split
    all_goals simp [connect, connEnd, World.log]
  · simp only [postAssets]; repeat' split
    all_goals simp [connect, connEnd, World.log]
  · simp only [putAsset]; repeat' split
    all_goals simp [connect, connEnd, World.log]
  · simp only [deleteAsset]; repeat' split
    all_goals simp [connect, connEnd, World.log]
  · simp only [getTickets]; repeat' split
    all_goals simp [connect, connEnd, World.log]
  · simp only [getTicket]; repeat' split
    all_goals simp [connect, connEnd, World.log]
  · simp only [deleteTicket]; repeat' split
    all_goals simp [connect, connEnd, World.log]

/-- `POST /api/tickets` leaves `tickets` as it was or adds the new row; it leaves
`ticket_updates` alone. -/
theorem postTicket_effect (f : CreateFaults) (user_id : Nat) (req : CreateRequest)
    (w : World) :
    ((postTicket f user_id req w).1.tables.tickets = w.tables.tickets ∨
      (postTicket f user_id req w).1.tables.tickets =
        w.tables.tickets ++
          [{ id := w.nextTicketId, company_id := req.company_id.getD 0,
             user_id := user_id, assigned_user_id := none, title := req.title.getD "",
             description := req.description.getD "",
             priority := orElseStr req.priority.toOption "Normal", status := "Open",
             customer_email := req.customer_email.toOption, created_at := w.now,
             updated_at := w.now }]) ∧
    (postTicket f user_id req w).1.tables.ticket_updates = w.tables.ticket_updates := by
  by_cases hv : (!truthyNat req.company_id || !truthyStr req.title ||
      !truthyStr req.description) = true
  · simp [postTicket, hv]
  · cases hund : hasUndefined [req.customer_email]
    · cases hb : f.beginTransaction <;> cases hi : f.insertTicket <;>
        cases hl : f.insertLinks <;> cases hm : f.commit <;> cases hs : f.sendMail <;>
        cases hr : f.readBack <;> cases ha : hasAssets req.asset_ids <;>
        cases he : truthyStr req.customer_email.toOption <;>
        simp [hund, postTicket, hv, hb, hi, hl, hm, hs, hr, ha, he, createFailed,
          connect, beginTransaction, insertTicket, insertLinks, commit, rollback, connEnd,
          bounce, deliver, World.log, defaultStatus]
    · cases hb : f.beginTransaction <;>
        simp [hund, postTicket, hv, hb, createFailed, connect, beginTransaction,
          insertTicket, insertLinks, commit, rollback, connEnd, bounce, deliver, World.log,
          defaultStatus]

/-- `POST /api/tickets/:ticketId/updates` changes nothing, or appends one update row
and sets the status of the ticket. -/
theorem postTicketUpdate_effect (f : UpdateFaults) (user_id ticketId : Nat)
    (update_text : Option String) (w : World) :
    ((postTicketUpdate f user_id ticketId update_text w).1.tables.tickets =
        w.tables.tickets ∧
      (postTicketUpdate f user_id ticketId update_text w).1.tables.ticket_updates =
        w.tables.ticket_updates) ∨
    ((postTicketUpdate f user_id ticketId update_text w).1.tables.tickets =
        w.tables.tickets.map (fun r =>
          if r.id == ticketId then
            { r with updated_at := w.now, status := "In Progress" }
          else r) ∧
      (postTicketUpdate f user_id ticketId update_text w).1.tables.ticket_updates =
        w.tables.ticket_updates ++
          [{ id := w.nextUpdateId, ticket_id := ticketId, user_id := user_id,
             update_text := update_text.getD "", created_at := w.now }]) := by
  by_cases hv : (!truthyStr update_text) = true
  · simp [postTicketUpdate, hv]
  · cases hb : f.beginTransaction <;> cases hi : f.insertUpdate <;>
      cases hu : f.updateTicket <;> cases hm : f.commit <;> cases hr : f.readBack <;>
      cases hq : f.selectTicket <;> cases hs : f.sendMail <;>
      simp only [postTicketUpdate, hv, hb, hi, hu, hm, hr, hq, hs, Bool.false_eq_true,
        if_false, if_true] <;>
      (repeat' split) <;>
      simp [updateFailed, connect, beginTransaction, insertUpdate,
        setStatusAndTouch, commit, rollback, connEnd, bounce, deliver, World.log]

/-- `PUT /api/tickets/:ticketId` leaves `tickets` as it was or rewrites the three fields
of the ticket; it leaves `ticket_updates` alone. -/
theorem putTicket_effect (f : PutFaults) (ticketId : Nat) (status priority : String)
    (a : Option Nat) (w : World) :
    ((putTicket f ticketId status priority a w).1.tables.tickets = w.tables.tickets ∨
      (putTicket f ticketId status priority a w).1.tables.tickets =
        w.tables.tickets.map (fun r =>
          if r.id == ticketId then
            { r with status := status, priority := priority,
                     assigned_user_id := orNull a }
          else r)) ∧
    (putTicket f ticketId status priority a w).1.tables.ticket_updates =
      w.tables.ticket_updates := by
  cases hft : findTicket w.tables ticketId with
  | none =>
    have hft2 : findTicket (connect w).tables ticketId = none := hft
    cases h1 : f.selectBefore <;>
      simp only [putTicket, h1, hft2, Bool.false_eq_true, if_false, if_true] <;>
      simp [putFailed, connEnd, connect, World.log]
  | some old =>
    have hft2 : findTicket (connect w).tables ticketId = some old := hft
    cases h1 : f.selectBefore
    · cases h2 : f.update
      · rw [putTicket_tables f ticketId status priority a w old hft h1 h2]
        exact ⟨Or.inr rfl, rfl⟩
      · simp only [putTicket, h1, h2, hft2, Bool.false_eq_true, if_false, if_true]
        simp [putFailed, connEnd, connect, World.log]
    · simp only [putTicket, h1, if_true]
      simp [putFailed, connEnd, connect, World.log]

/-- The webhook changes nothing, or appends one update row (and bumps `updated_at` of
the ticket unless that statement fails), or appends one ticket row. -/
theorem emailWebhook_effect (f : WebhookFaults) (req : WebhookRequest) (w : World) :
    ((emailWebhook f req w).1.tables.tickets = w.tables.tickets ∧
      (emailWebhook f req w).1.tables.ticket_updates = w.tables.ticket_updates) ∨
    (∃ row : TicketUpdate,
      (emailWebhook f req w).1.tables.ticket_updates = w.tables.ticket_updates ++ [row] ∧
      ((emailWebhook f req w).1.tables.tickets = w.tables.tickets ∨
        (emailWebhook f req w).1.tables.tickets =
          w.tables.tickets.map (fun r =>
            if r.id == row.ticket_id then { r with updated_at := w.now } else r))) ∨
    ((emailWebhook f req w).1.tables.tickets =
        w.tables.tickets ++
          [{ id := w.nextTicketId,
             company_id := companyOfSender w.tables (req.from_.getD ""),
             user_id := 2, assigned_user_id := none, title := req.subject.getD "",
             description := webhookText req, priority := "Normal", status := "Open",
             customer_email := some (req.from_.getD ""), created_at := w.now,
             updated_at := w.now }] ∧
      (emailWebhook f req w).1.tables.ticket_updates = w.tables.ticket_updates) := by
  by_cases hv : (!truthyStr req.from_ || !truthyStr req.subject ||
      webhookText req == "") = true
  · simp [emailWebhook, hv]
  · cases h1 : f.selectTicket <;> cases h2 : f.insertUpdate <;>
      cases h3 : f.updateTicket <;> cases h4 : f.selectCompany <;>
      cases h5 : f.insertTicket <;>
      simp only [emailWebhook, hv, h1, h2, h3, h4, h5, Bool.false_eq_true, if_false,
        if_true] <;>
      (repeat' split) <;>
      simp [webhookFailed, connect, insertUpdate, touchTicket, insertTicket, connEnd,
        World.log]

/-- A `PUT /api/tickets/:ticketId` whose `UPDATE` throws leaves every table as it was. -/
theorem putTicket_update_fails (f : PutFaults) (ticketId : Nat) (status priority : String)
    (a : Option Nat) (w : World) (h2 : f.update = true) :
    (putTicket f ticketId status priority a w).1.tables = w.tables := by
  cases hft : findTicket (connect w).tables ticketId <;> cases h1 : f.selectBefore <;>
    simp only [putTicket, h1, h2, hft, Bool.false_eq_true, if_false, if_true] <;>
    simp [putFailed, connEnd, connect, World.log]

/-- What the handler of a route does to `ticket_updates`: nothing, except that
`POST /api/tickets/:ticketId/updates` and the webhook may append one row. -/
theorem handle_ticket_updates (c : Crypto) (f : Faults) (route : Route)
    (user : Option Identity) (req : Request) (w : World) :
    (handle c f route user req w).1.tables.ticket_updates = w.tables.ticket_updates ∨
    ((route = Route.postTicketUpdates ∨ route = Route.emailWebhook) ∧
      ∃ row, (handle c f route user req w).1.tables.ticket_updates =
        w.tables.ticket_updates ++ [row]) := by
  have h1 := simple_handlers_ticket_tables c f.simple req
  have h2 := asset_handlers_ticket_tables f.simple req req.id w
  cases route
  case login => exact Or.inl (h1 ⟨0, "", ""⟩ 0 w).1.2
  case postUsers => exact Or.inl (h1 ⟨0, "", ""⟩ 0 w).2.1.2
  case getUsers => exact Or.inl (h1 ⟨0, "", ""⟩ 0 w).2.2.1.2
  case deleteUser =>
    cases user with
    | none => exact Or.inl rfl
    | some u => exact Or.inl (h1 u req.id w).2.2.2.1.2
  case getCompanies => exact Or.inl (h1 ⟨0, "", ""⟩ 0 w).2.2.2.2.1.2
  case postCompanies => exact Or.inl (h1 ⟨0, "", ""⟩ 0 w).2.2.2.2.2.1.2
  case putCompany => exact Or.inl (h1 ⟨0, "", ""⟩ 0 w).2.2.2.2.2.2.1.2
  case deleteCompany => exact Or.inl (h1 ⟨0, "", ""⟩ req.id w).2.2.2.2.2.2.2.2
  case getAsset => exact Or.inl h2.1.2
  case getCompanyAssets => exact Or.inl h2.2.1.2
  case postAssets => exact Or.inl h2.2.2.1.2
  case putAsset => exact Or.inl h2.2.2.2.1.2
  case deleteAsset => exact Or.inl h2.2.2.2.2.1.2
  case getTickets => exact Or.inl h2.2.2.2.2.2.1.2
  case getTicket => exact Or.inl h2.2.2.2.2.2.2.1.2
  case deleteTicket => exact Or.inl h2.2.2.2.2.2.2.2.2
  case emailWebhook =>
    rcases emailWebhook_effect f.webhook req.webhook w with h | ⟨row, h, _⟩ | h
    · exact Or.inl h.2
    · exact Or.inr ⟨Or.inr rfl, row, h⟩
    · exact Or.inl h.2
  case postTickets =>
    cases user with
    | none => exact Or.inl rfl
    | some u => exact Or.inl (postTicket_effect f.create u.id req.create w).2
  case postTicketUpdates =>
    cases user with
    | none => exact Or.inl rfl
    | some u =>
      rcases postTicketUpdate_effect f.update u.id req.id req.update_text w with h | h
      · exact Or.inl h.2
      · exact Or.inr ⟨Or.inl rfl, _, h.2⟩
  case putTicket =>
    simp only [handle]
    split
    · exact Or.inl (putTicket_effect _ _ _ _ _ _).2
    · exact Or.inl (putTicket_effect _ _ _ _ _ _).2

/-- C24: ticket updates are append-only.  For every route, request, fault plan and
store, the `ticket_updates` table before the request is an initial segment of the table
after it: every row is kept, unchanged and in place.  The table changes only by
`POST /api/tickets/:ticketId/updates` and by the webhook, each of which appends one
row. -/
theorem ticket_updates_append_only (c : Crypto) (f : Faults) (route : Route)
    (req : Request) (w : World) :
    w.tables.ticket_updates <+: (serve c f route req w).1.tables.ticket_updates ∧
    ((serve c f route req w).1.tables.ticket_updates ≠ w.tables.ticket_updates →
      (route = Route.postTicketUpdates ∨ route = Route.emailWebhook) ∧
      ∃ row, (serve c f route req w).1.tables.ticket_updates =
        w.tables.ticket_updates ++ [row]) := by
  obtain ⟨_, _, h⟩ | ⟨_, _, h⟩ | h | ⟨user, h, _⟩ := serve_cases c f route req w
  · simp [h]
  · simp [h]
  · simp [h]
  · rw [h]
    rcases handle_ticket_updates c f route user req w with h1 | ⟨h1, row, h2⟩
    · simp [h1]
    · rw [h2]
      exact ⟨List.prefix_append _ _, fun _ => ⟨h1, row, rfl⟩⟩

/-- A table of valid tickets stays valid when rows are rewritten into valid rows. -/
theorem validTickets_map (t t2 : Tables) (g : Ticket → Ticket)
    (ht : t2.tickets = t.tickets.map g) (hv : validTickets t = true)
    (hg : ∀ r, (validPriority r.priority && validStatus r.status) = true →
      (validPriority (g r).priority && validStatus (g r).status) = true) :
    validTickets t2 = true := by
  simp only [validTickets, ht, List.all_eq_true, List.mem_map] at hv ⊢
  rintro x ⟨r, hr, rfl⟩
  exact hg r (hv r hr)

/-- A table of valid tickets stays valid when a valid row is appended. -/
theorem validTickets_append (t t2 : Tables) (r : Ticket)
    (ht : t2.tickets = t.tickets ++ [r]) (hv : validTickets t = true)
    (hr : (validPriority r.priority && validStatus r.status) = true) :
    validTickets t2 = true := by
  simp only [validTickets, ht, List.all_append, List.all_cons, List.all_nil,
    Bool.and_true, Bool.and_eq_true] at hv ⊢
  exact ⟨hv, by simpa using hr⟩

/-- A table of valid tickets stays valid when rows are removed. -/
theorem validTickets_filter (t t2 : Tables) (p : Ticket → Bool)
    (ht : t2.tickets = t.tickets.filter p) (hv : validTickets t = true) :
    validTickets t2 = true := by
  simp only [validTickets, ht, List.all_eq_true, List.mem_filter] at hv ⊢
  intro x hx
  exact hv x hx.1

/-- A table with the same ticket rows is as valid. -/
theorem validTickets_same (t t2 : Tables) (ht : t2.tickets = t.tickets)
    (hv : validTickets t = true) : validTickets t2 = true := by
  simpa only [validTickets, ht] using hv

/-- The `UPDATE` of `PUT /api/tickets/:ticketId` binds two strings exactly when the body
gives `status` and `priority` as strings. -/
theorem boundStatusPriority_some (status priority : Js String) (s p : String)
    (h : boundStatusPriority status priority = some (s, p)) :
    status = Js.val s ∧ priority = Js.val p := by
  cases status <;> cases priority <;> simp_all [boundStatusPriority]

/-- The handlers keep the tickets valid, given that `POST /api/tickets` gets a valid
priority or none and `PUT /api/tickets/:ticketId` a valid status and priority. -/
theorem handle_valid_tickets (c : Crypto) (f : Faults) (route : Route)
    (user : Option Identity) (req : Request) (w : World)
    (hv : validTickets w.tables = true)
    (hpost : route = Route.postTickets → truthyStr req.priority.toOption = true →
      validPriority (req.priority.toOption.getD "") = true)
    (hput : route = Route.putTicket → ∀ s p,
      req.status = Js.val s → req.priority = Js.val p →
      validStatus s = true ∧ validPriority p = true) :
    validTickets (handle c f route user req w).1.tables = true := by
  have h1 := simple_handlers_ticket_tables c f.simple req
  have h2 := asset_handlers_ticket_tables f.simple req req.id w
  cases route
  case login => exact validTickets_same _ _ (h1 ⟨0, "", ""⟩ 0 w).1.1 hv
  case postUsers => exact validTickets_same _ _ (h1 ⟨0, "", ""⟩ 0 w).2.1.1 hv
  case getUsers => exact validTickets_same _ _ (h1 ⟨0, "", ""⟩ 0 w).2.2.1.1 hv
  case deleteUser =>
    cases user with
    | none => exact hv
    | some u => exact validTickets_same _ _ (h1 u req.id w).2.2.2.1.1 hv
  case getCompanies => exact validTickets_same _ _ (h1 ⟨0, "", ""⟩ 0 w).2.2.2.2.1.1 hv
  case postCompanies => exact validTickets_same _ _ (h1 ⟨0, "", ""⟩ 0 w).2.2.2.2.2.1.1 hv
  case putCompany => exact validTickets_same _ _ (h1 ⟨0, "", ""⟩ 0 w).2.2.2.2.2.2.1.1 hv
  case deleteCompany =>
    exact validTickets_same _ _ (h1 ⟨0, "", ""⟩ req.id w).2.2.2.2.2.2.2.1 hv
  case getAsset => exact validTickets_same _ _ h2.1.1 hv
  case getCompanyAssets => exact validTickets_same _ _ h2.2.1.1 hv
  case postAssets => exact validTickets_same _ _ h2.2.2.1.1 hv
  case putAsset => exact validTickets_same _ _ h2.2.2.2.1.1 hv
  case deleteAsset => exact validTickets_same _ _ h2.2.2.2.2.1.1 hv
  case getTickets => exact validTickets_same _ _ h2.2.2.2.2.2.1.1 hv
  case getTicket => exact validTickets_same _ _ h2.2.2.2.2.2.2.1.1 hv
  case deleteTicket =>
    rcases h2.2.2.2.2.2.2.2.1 with h | h
    · exact validTickets_same _ _ h hv
    · exact validTickets_filter _ _ _ h hv
  case emailWebhook =>
    rcases emailWebhook_effect f.webhook req.webhook w with h | ⟨row, _, h | h⟩ | h
    · exact validTickets_same _ _ h.1 hv
    · exact validTickets_same _ _ h hv
    · refine validTickets_map _ _ _ h hv ?_
      intro r hr
      by_cases hid : (r.id == row.ticket_id) = true <;> simpa [hid] using hr
    · exact validTickets_append _ _ _ h.1 hv (by simp [validPriority, validStatus])
  case postTickets =>
    cases user with
    | none => exact hv
    | some u =>
      rcases (postTicket_effect f.create u.id req.create w).1 with h | h
      · exact validTickets_same _ _ h hv
      · refine validTickets_append _ _ _ h hv ?_
        have hp : validPriority (orElseStr req.priority.toOption "Normal") = true := by
          unfold orElseStr
          by_cases ht : truthyStr req.priority.toOption = true
          · have := hpost rfl ht
            cases hq : req.priority.toOption with
            | none => simp [hq, truthyStr] at ht
            | some p =>
              rw [hq] at ht this
              simpa [ht] using this
          · simp [ht, validPriority]
        simpa [Request.create, validStatus] using hp
  case postTicketUpdates =>
    cases user with
    | none => exact hv
    | some u =>
      rcases postTicketUpdate_effect f.update u.id req.id req.update_text w with h | h
      · exact validTickets_same _ _ h.1 hv
      · refine validTickets_map _ _ _ h.1 hv ?_
        intro r hr
        by_cases hid : (r.id == req.id) = true
        · simp only [hid, if_true, Bool.and_eq_true] at hr ⊢
          exact ⟨hr.1, by decide⟩
        · simpa [hid] using hr
  case putTicket =>
    simp only [handle]
    cases hsp : boundStatusPriority req.status req.priority with
    | some sp =>
      obtain ⟨s, p⟩ := sp
      obtain ⟨hs, hp⟩ := boundStatusPriority_some req.status req.priority s p hsp
      obtain ⟨hvs, hvp⟩ := hput rfl s p hs hp
      rcases (putTicket_effect f.put req.id s p req.assigned_user_id w).1 with h | h
      · exact validTickets_same _ _ h hv
      · refine validTickets_map _ _ _ h hv ?_
        intro r hr
        by_cases hid : (r.id == req.id) = true
        · simp [hid, hvs, hvp]
        · simpa [hid] using hr
    | none =>
      have := putTicket_update_fails { f.put with update := true } req.id "" ""
        req.assigned_user_id w rfl
      exact validTickets_same _ _ (by rw [this]) hv

/-- C25 (counterexample): ticket 42 of the sample store, valid like all its tickets, is
given the status "Bogus" by `PUT /api/tickets/42`, which stores it: the handler does not
validate the field. -/
theorem putTicket_stores_any_status :
    validTickets demoWorld.tables = true ∧
    (serve demoCrypto {} Route.putTicket
      { authorization := some "Bearer token:admin", id := 42, status := Js.val "Bogus",
        priority := Js.val "Normal" } demoWorld).2.status = 200 ∧
    (findTicket (serve demoCrypto {} Route.putTicket
      { authorization := some "Bearer token:admin", id := 42, status := Js.val "Bogus",
        priority := Js.val "Normal" } demoWorld).1.tables 42).map Ticket.status =
      some "Bogus" ∧
    validTickets (serve demoCrypto {} Route.putTicket
      { authorization := some "Bearer token:admin", id := 42, status := Js.val "Bogus",
        priority := Js.val "Normal" } demoWorld).1.tables = false := by
  decide

/-- C25 (amended): if every stored ticket has a priority in {Low, Normal, High, Urgent}
and a status in {Open, In Progress, Resolved, Closed} before a request, the same holds
after it, for every route, fault plan and request body, provided that a
`POST /api/tickets` carries a priority of the set or none, and a
`PUT /api/tickets/:ticketId` a status and a priority of the sets. -/
theorem valid_tickets_preserved (c : Crypto) (f : Faults) (route : Route) (req : Request)
    (w : World) (hv : validTickets w.tables = true)
    (hpost : route = Route.postTickets → truthyStr req.priority.toOption = true →
      validPriority (req.priority.toOption.getD "") = true)
    (hput : route = Route.putTicket → ∀ s p,
      req.status = Js.val s → req.priority = Js.val p →
      validStatus s = true ∧ validPriority p = true) :
    validTickets (serve c f route req w).1.tables = true := by
  obtain ⟨_, _, h⟩ | ⟨_, _, h⟩ | h | ⟨user, h, _⟩ := serve_cases c f route req w
  · rw [h]; exact hv
  · rw [h]; exact hv
  · rw [h]; exact hv
  · rw [h]; exact handle_valid_tickets c f route user req w hv hpost hput

/-- Witness for C25 (amended): `PUT /api/tickets/42` with the status "Resolved" and the
priority "High", both of the sets, keeps the tickets of the sample store valid. -/
theorem valid_tickets_preserved_witness :
    validTickets (serve demoCrypto {} Route.putTicket
      { authorization := some "Bearer token:admin", id := 42, status := Js.val "Resolved",
        priority := Js.val "High" }
      demoWorld).1.tables = true :=
  valid_tickets_preserved demoCrypto {} Route.putTicket
    { authorization := some "Bearer token:admin", id := 42, status := Js.val "Resolved",
      priority := Js.val "High" }
    demoWorld (by decide) (fun h => absurd h (by decide))
    (fun _ s p hs hp => by
      cases Js.val.inj hs
      cases Js.val.inj hp
      decide)

/-! ## Theorems: login and user objects -/

/-- C26: `POST /api/login` answers 400 exactly when `username` or `password` is missing
or empty, and then without opening a connection.  Otherwise, with the store and bcrypt
working: 401 "Invalid credentials" when no user has that username, or when the password
does not match the hash of the first such user; else 200 with an access token that is
`jwt.sign` of the payload `{id, username, role}` of that user with `expiresIn: '1h'`, and
a user object with the same three fields.  Login never changes a table. -/
theorem login_outcomes (c : Crypto) (f : SimpleFaults) (req : Request) (w : World) :
    ((login c f req w).2.status = 400 ↔
      (truthyStr req.username = false ∨ truthyStr req.password = false)) ∧
    ((login c f req w).2.status = 400 → (login c f req w).1 = w) ∧
    (login c f req w).1.tables = w.tables ∧
    (truthyStr req.username = true → truthyStr req.password = true →
      f.connect = false → f.first = none → f.crypto = false →
      (w.tables.users.filter (fun u => u.username == req.username.getD "") = [] →
        (login c f req w).2 =
          { status := 401, body := Body.message "Invalid credentials" }) ∧
      (∀ user rest,
        w.tables.users.filter (fun u => u.username == req.username.getD "") =
          user :: rest →
        (c.compare (req.password.getD "") user.password = false →
          (login c f req w).2 =
            { status := 401, body := Body.message "Invalid credentials" }) ∧
        (c.compare (req.password.getD "") user.password = true →
          (login c f req w).2 =
            { status := 200,
              body := Body.login
                (c.sign { id := user.id, username := user.username, role := user.role }
                  "1h")
                { id := user.id, username := user.username, role := user.role } }))) := by
  refine ⟨?_, ?_, ?_, ?_⟩
  · by_cases hv : (!truthyStr req.username || !truthyStr req.password) = true
    · have hv2 := hv
      simp only [Bool.or_eq_true, Bool.not_eq_true'] at hv2
      simp only [login, hv, if_true, true_iff]
      exact hv2
    · have hv2 := hv
      simp only [Bool.or_eq_true, Bool.not_eq_true'] at hv2
      simp only [hv2, iff_false]
      simp only [login, hv]
      repeat' split
      all_goals first | (simp; done) | simp_all
  · simp only [login]
    repeat' split
    all_goals simp
  · simp only [login]
    repeat' split
    all_goals simp [connect, connEnd, World.log]
  · intro h1 h2 hc hf hy
    have hfilter : (connect w).tables.users = w.tables.users := rfl
    constructor
    · intro hnone
      simp [login, h1, h2, hc, hf, hy, hfilter, hnone]
    · intro user rest hsome
      constructor
      · intro hcmp
        simp [login, h1, h2, hc, hf, hy, hfilter, hsome, hcmp]
      · intro hcmp
        simp [login, h1, h2, hc, hf, hy, hfilter, hsome, hcmp, identityOf]

/-- Witness for C26: user "tech" logs in with the right password. -/
theorem login_outcomes_witness :
    (login demoCrypto {} loginRequest loginWorld).2 =
      { status := 200,
        body := Body.login
          (demoCrypto.sign { id := 3, username := "tech", role := "user" } "1h")
          { id := 3, username := "tech", role := "user" } } :=
  (((login_outcomes demoCrypto {} loginRequest loginWorld).2.2.2 (by decide) (by decide)
    rfl rfl rfl).2 { id := 3, username := "tech", password := "hash:secret" } []
    (by decide)).2 (by decide)

/-- C29: no user object of a response carries a password.  A 200 of `POST /api/login`
carries `jwt.sign` of the identity `{id, username, role}` of a stored user and that
identity; a 201 of `POST /api/users` carries the new id with the username and role of the
request, and is the same for any two non-empty passwords; a 200 of `GET /api/users`
carries the identities of the stored users, and is the same for two stores whose users
differ in their password hashes only; and every 401 of login is the same response. -/
theorem user_objects_without_password (c : Crypto) (f : SimpleFaults) (req : Request)
    (w : World) :
    ((login c f req w).2.status = 200 →
      ∃ user ∈ w.tables.users,
        (login c f req w).2.body =
          Body.login (c.sign (identityOf user) "1h") (identityOf user)) ∧
    ((login c f req w).2.status = 401 →
      (login c f req w).2 = { status := 401, body := Body.message "Invalid credentials" }) ∧
    ((postUsers c f req w).2.status = 201 →
      (postUsers c f req w).2.body =
        Body.user { id := w.nextUserId, username := req.username.getD "",
                    role := req.role.getD "" }) ∧
    (∀ p1 p2 : String, p1 ≠ "" → p2 ≠ "" →
      (postUsers c f { req with password := some p1 } w).2 =
        (postUsers c f { req with password := some p2 } w).2) ∧
    ((getUsers f w).2.status = 200 →
      (getUsers f w).2.body = Body.users (w.tables.users.map identityOf)) ∧
    (∀ w2 : World, w2.tables.users.map identityOf = w.tables.users.map identityOf →
      (getUsers f w2).2 = (getUsers f w).2) := by
  refine ⟨?_, ?_, ?_, ?_, ?_, ?_⟩
  · simp only [login]
    repeat' split
    all_goals simp
    rename_i user rest hfilter _ _
    have hmem : user ∈ List.filter (fun u => u.username == req.username.getD "")
        (connect w).tables.users := by rw [hfilter]; exact List.mem_cons_self _ _
    exact ⟨user, (List.mem_filter.1 hmem).1, rfl, rfl⟩
  · simp only [login]
    repeat' split
    all_goals simp
  · simp only [postUsers]
    repeat' split
    all_goals simp [connect, World.log]
  · intro p1 p2 h1 h2
    simp only [postUsers, truthyStr, bne_iff_ne, ne_eq, h1, h2, not_false_eq_true,
      decide_True, Bool.not_true, Bool.or_false]
    repeat' split
    all_goals simp_all
  · simp only [getUsers]
    repeat' split
    all_goals simp [connect, World.log]
  · intro w2 h
    simp only [getUsers]
    repeat' split
    all_goals simp_all [connect, World.log]

/-- Witness for C29: a wrong password for user "tech" gets the one 401 response. -/
theorem user_objects_without_password_witness :
    (login demoCrypto {} { loginRequest with password := some "wrong" } loginWorld).2 =
      { status := 401, body := Body.message "Invalid credentials" } :=
  (user_objects_without_password demoCrypto {}
    { loginRequest with password := some "wrong" } loginWorld).2.1 (by decide)

/-! ## Theorems: the client -/

/-- C28 (counterexample): the second row of `gappySheet` has no `asset_name`, and the request
of the import is sent with both rows: only the first row is looked at. -/
theorem handleImport_checks_first_row_only :
    (gappySheet.all (fun row => hasOwnProperty row "asset_name")) = false ∧
    handleImport 5 gappySheet = ImportOutcome.posted 5 gappySheet := by
  decide

/-- C28 (amended): for every parsed sheet the import request is sent exactly when the
sheet has a row and its first row contains the column `asset_name`; a sheet with no rows,
or whose first row lacks `asset_name`, is rejected with an import error and no request is
sent.  So a sheet with a row in which every row contains `asset_name` is sent, with all
its rows. -/
theorem handleImport_outcomes (companyId : Nat) (jsonData : List SheetRow) :
    (handleImport companyId jsonData = ImportOutcome.posted companyId jsonData ↔
      ∃ firstRow rest, jsonData = firstRow :: rest ∧
        hasOwnProperty firstRow "asset_name" = true) ∧
    (handleImport companyId [] =
      ImportOutcome.importError "The selected file is empty or not formatted correctly.") ∧
    (∀ firstRow rest, hasOwnProperty firstRow "asset_name" = false →
      handleImport companyId (firstRow :: rest) =
        ImportOutcome.importError
          "The imported file is missing required columns: asset_name") ∧
    (∀ c rows, handleImport companyId jsonData = ImportOutcome.posted c rows →
      c = companyId ∧ rows = jsonData) ∧
    (jsonData ≠ [] → (jsonData.all (fun row => hasOwnProperty row "asset_name")) = true →
      handleImport companyId jsonData = ImportOutcome.posted companyId jsonData) := by
  refine ⟨?_, rfl, ?_, ?_, ?_⟩
  · cases jsonData with
    | nil => simp [handleImport]
    | cons r rs =>
      cases h : hasOwnProperty r "asset_name" <;> simp [handleImport, h]
  · intro r rs h
    simp [handleImport, h]
    decide
  · intro c rows h
    cases jsonData with
    | nil => simp [handleImport] at h
    | cons r rs =>
      cases hh : hasOwnProperty r "asset_name" <;> simp [handleImport, hh] at h
      exact ⟨h.1.symm, h.2.symm⟩
  · intro hne hall
    cases jsonData with
    | nil => exact absurd rfl hne
    | cons r rs =>
      simp only [List.all_cons, Bool.and_eq_true] at hall
      simp [handleImport, hall.1]

/-- Witness for C28 (amended): a sheet whose rows all have `asset_name` is sent. -/
theorem handleImport_outcomes_witness :
    handleImport 5 [[("asset_name", "Laptop 1")], [("asset_name", "Laptop 2")]] =
      ImportOutcome.posted 5 [[("asset_name", "Laptop 1")], [("asset_name", "Laptop 2")]] :=
  (handleImport_outcomes 5 [[("asset_name", "Laptop 1")], [("asset_name", "Laptop 2")]]
    ).2.2.2.2 (by decide) (by decide)

/-- C30: the ticket list filter.  'All' keeps exactly the tickets whose status is not
'Closed' and 'Archived' exactly those whose status is 'Closed', so each ticket of the
list is under exactly one of the two and the two lists together are a rearrangement of
the list; 'Open', 'In Progress' and 'Resolved' keep exactly the tickets with that status,
all of which are under 'All'; and every filter yields a sublist of the list, so the
relative order is kept. -/
theorem filteredTickets_partition (allTickets : List JoinedTicket) (statusFilter : String) :
    filteredTickets "All" allTickets =
      allTickets.filter (fun t => t.ticket.status != "Closed") ∧
    filteredTickets "Archived" allTickets =
      allTickets.filter (fun t => t.ticket.status == "Closed") ∧
    (∀ t ∈ allTickets,
      (t ∈ filteredTickets "All" allTickets ∧ t ∉ filteredTickets "Archived" allTickets) ∨
      (t ∉ filteredTickets "All" allTickets ∧ t ∈ filteredTickets "Archived" allTickets)) ∧
    (filteredTickets "All" allTickets ++ filteredTickets "Archived" allTickets).Perm
      allTickets ∧
    (∀ s ∈ ["Open", "In Progress", "Resolved"],
      filteredTickets s allTickets = allTickets.filter (fun t => t.ticket.status == s) ∧
      (filteredTickets s allTickets).Sublist (filteredTickets "All" allTickets)) ∧
    (filteredTickets statusFilter allTickets).Sublist allTickets := by
  have hall : keepTicket "All" = fun t => t.ticket.status != "Closed" := by
    funext t; simp [keepTicket]
  have harch : keepTicket "Archived" = fun t => t.ticket.status == "Closed" := by
    funext t; simp [keepTicket]
  refine ⟨by simp [filteredTickets, hall], by simp [filteredTickets, harch], ?_, ?_, ?_,
    List.filter_sublist _⟩
  · intro t ht
    simp only [filteredTickets, hall, harch, List.mem_filter, ht, true_and]
    by_cases h : t.ticket.status = "Closed" <;> simp [h]
  · simp only [filteredTickets, hall, harch]
    have : (fun t : JoinedTicket => t.ticket.status == "Closed") =
        fun t => !(t.ticket.status != "Closed") := by
      funext t; exact (Bool.not_not _).symm
    rw [this]
    exact List.filter_append_perm _ _
  · intro s hs
    have hk : keepTicket s = fun t => t.ticket.status == s := by
      funext t
      simp only [List.mem_cons, List.mem_singleton, List.not_mem_nil, or_false] at hs
      rcases hs with rfl | rfl | rfl <;> simp [keepTicket]
    refine ⟨by simp [filteredTickets, hk], ?_⟩
    simp only [filteredTickets, hk, hall]
    have hsub : ∀ t : JoinedTicket, (t.ticket.status == s) = true →
        (t.ticket.status != "Closed") = true := by
      intro t ht
      simp only [List.mem_cons, List.mem_singleton, List.not_mem_nil, or_false] at hs
      have : t.ticket.status = s := by simpa using ht
      rcases hs with h | h | h <;> (rw [this, h]; decide)
    have : allTickets.filter (fun t => t.ticket.status == s) =
        (allTickets.filter (fun t => t.ticket.status != "Closed")).filter
          (fun t => t.ticket.status == s) := by
      rw [List.filter_filter]
      congr 1
      funext t
      by_cases h : (t.ticket.status == s) = true
      · simp [h, hsub t h]
      · simp [h]
    rw [this]
    exact List.filter_sublist _

end TicketApi
